import Mathlib

/-!
# UI renderer of Zelda64Recomp: upload arena, TGA decoder, texture staging

A shallow embedding of `src/ui/ui_renderer.cpp` (class `RmlRenderInterface_RT64`
and the free functions it uses).  Machine integers are natural numbers with an
explicit reduction modulo `2^32` wherever the C++ computes in `uint32_t`.
Operations that can hit undefined behaviour (division by zero, reads and writes
outside an object, a null pointer) return `Except Fault`.
-/

namespace RecompUI

/-! ## Machine arithmetic -/

/-- Reduction of a natural number to the value a `uint32_t` holds. -/
def u32 (x : Nat) : Nat := x % 4294967296

/-- Subtraction in `uint32_t`: `a - b` for two 32-bit operands. -/
def u32_sub (a b : Nat) : Nat := u32 (a + 4294967296 - u32 b)

/-- Negation in `uint32_t`: `-a`. -/
def u32_neg (a : Nat) : Nat := u32 (4294967296 - u32 a)

/-! ## Faults -/

/-- Ways in which the C++ leaves defined behaviour or ends a call abnormally
(a failed `assert`, an uncaught `std::out_of_range`). -/
inductive Fault where
  | division_by_zero
  | null_dereference
  | out_of_bounds_read
  | out_of_bounds_write
  | assertion_failure
  | out_of_range_exception
deriving DecidableEq, Repr

/-- The fault of a computation, if it ended in one. -/
def fault_of {α : Type} : Except Fault α → Option Fault
  | .error f => some f
  | .ok _ => none

/-- The value of a computation, if it ended normally. -/
def value_of {α : Type} : Except Fault α → Option α
  | .error _ => none
  | .ok a => some a

/-! ## Device objects -/

/-- What a `RT64::RenderBuffer` was created for. -/
inductive BufferKind where
  | upload
  | vertex
  | index
deriving DecidableEq, Repr

/-- A device buffer (`std::unique_ptr<RT64::RenderBuffer>` target): identity,
kind and the size it was created with. -/
structure RenderBuffer where
  id : Nat
  kind : BufferKind
  size : Nat
deriving DecidableEq, Repr

/-- A device texture (`RT64::RenderTexture`) with the dimensions it was created with. -/
structure RenderTexture where
  id : Nat
  width : Nat
  height : Nat
deriving DecidableEq, Repr

/-- The `TextureHandle` struct of the source: a texture and its descriptor heap. -/
structure TextureHandle where
  texture : RenderTexture
  heap : Nat
deriving DecidableEq, Repr

/-- The render device behind `render_context_->device`.  Object identities are
drawn from `next_id`; `texture_available w h` tells whether `createTexture`
returns a texture (rather than null) for a `w × h` request.  Buffer, sampler
and heap creation are taken to succeed: the source dereferences their results
unconditionally. -/
structure RenderDevice where
  next_id : Nat
  texture_available : Nat → Nat → Bool

/-- Commands the renderer records on `list_` that involve the upload buffer or a texture. -/
inductive Command where
  | setPipeline
  | setGraphicsPipelineLayout
  | textureBarrier (texture : Nat) (copy_dest : Bool)
  | copyTextureRegion (texture : Nat) (buffer : Nat) (width height row_width offset : Nat)
  | bufferBarriers (vertex index : Nat) (copy_dest : Bool)
  | copyBufferRegion (dst : Nat) (src : Nat) (src_offset size : Nat)
  | draw (texture : Nat) (num_indices : Nat)
deriving DecidableEq, Repr

/-! ## Renderer state -/

/-- The fields of `class RmlRenderInterface_RT64` that the modelled methods read
or write.  `upload_buffer_mapped_data_` records whether the pointer is non-null;
`upload_memory` is the content of the current upload buffer, by byte offset.
`list_` is `none` for a null command list, otherwise the commands recorded so
far.  `stdout` collects the lines written with `printf`.  Matrices and scissor
fields hold floating-point or display data and are left out. -/
structure RmlRenderInterface_RT64 where
  device : RenderDevice
  textures_ : List (Nat × TextureHandle)
  texture_count_ : Nat
  upload_buffer_ : Option RenderBuffer
  vertex_buffer_ : Option RenderBuffer
  index_buffer_ : Option RenderBuffer
  upload_buffer_size_ : Nat
  upload_buffer_bytes_used_ : Nat
  upload_buffer_mapped_data_ : Bool
  upload_memory : Nat → Nat
  vertex_buffer_size_ : Nat
  index_buffer_size_ : Nat
  list_ : Option (List Command)
  stale_buffers_ : List RenderBuffer
  window_width_ : Nat
  window_height_ : Nat
  stdout : List String

/-- The constant `initial_upload_buffer_size = 1024 * 1024`. -/
def initial_upload_buffer_size : Nat := 1024 * 1024

/-- Model of `device->createBuffer(...)`: a fresh buffer of the requested kind and size. -/
def createBuffer (d : RenderDevice) (kind : BufferKind) (size : Nat) : RenderBuffer × RenderDevice :=
  (RenderBuffer.mk d.next_id kind size, { d with next_id := d.next_id + 1 })

/-! ## Streaming upload arena -/

/-- Model of `resize_upload_buffer(new_size, map)`: retire the current upload buffer (if
any) to `stale_buffers_`, create a new one of `new_size` bytes, reset
`upload_buffer_bytes_used_` to zero and map it when `map` is set.  The content
of a fresh buffer is unspecified; it is modelled as zero bytes. -/
def resize_upload_buffer (s : RmlRenderInterface_RT64) (new_size : Nat) (map : Bool) :
    RmlRenderInterface_RT64 :=
  let stale := match s.upload_buffer_ with
    | some b => s.stale_buffers_ ++ [b]
    | none => s.stale_buffers_
  let made := createBuffer s.device BufferKind.upload new_size
  { s with
    stale_buffers_ := stale
    upload_buffer_ := some made.1
    device := made.2
    upload_buffer_size_ := new_size
    upload_buffer_bytes_used_ := 0
    upload_buffer_mapped_data_ := map
    upload_memory := fun _ => 0 }

/-- Model of `allocate_upload_data(num_bytes)`: returns the offset and the new state. -/
def allocate_upload_data (s : RmlRenderInterface_RT64) (num_bytes : Nat) :
    Nat × RmlRenderInterface_RT64 :=
  let total_bytes := u32 (num_bytes + s.upload_buffer_bytes_used_)
  let s1 := if total_bytes > s.upload_buffer_size_ then
      resize_upload_buffer s (u32 (total_bytes + total_bytes / 2)) true
    else s
  let offset := s1.upload_buffer_bytes_used_
  (offset, { s1 with upload_buffer_bytes_used_ := u32 (s1.upload_buffer_bytes_used_ + num_bytes) })

/-- The `padding_bytes` of `allocate_upload_data_aligned`:
`((used + alignment - 1) / alignment) * alignment - used`, all in `uint32_t`. -/
def padding_bytes (used alignment : Nat) : Nat :=
  u32_sub (u32 ((u32_sub (u32 (used + alignment)) 1) / alignment * alignment)) used

/-- The test `total_bytes + padding_bytes > upload_buffer_size_` of
`allocate_upload_data_aligned`, which selects the growth path. -/
def aligned_growth (s : RmlRenderInterface_RT64) (num_bytes alignment : Nat) : Bool :=
  decide (u32 (u32 (num_bytes + s.upload_buffer_bytes_used_)
    + padding_bytes s.upload_buffer_bytes_used_ alignment) > s.upload_buffer_size_)

/-- Model of `allocate_upload_data_aligned(num_bytes, alignment)`.  A zero alignment
divides by zero. -/
def allocate_upload_data_aligned (s : RmlRenderInterface_RT64) (num_bytes alignment : Nat) :
    Except Fault (Nat × RmlRenderInterface_RT64) :=
  let total_bytes := u32 (num_bytes + s.upload_buffer_bytes_used_)
  if alignment = 0 then .error Fault.division_by_zero
  else
    let padding := padding_bytes s.upload_buffer_bytes_used_ alignment
    if aligned_growth s num_bytes alignment then
      let s1 := resize_upload_buffer s (u32 (total_bytes + total_bytes / 2)) true
      .ok (0, { s1 with upload_buffer_bytes_used_ := u32 (s1.upload_buffer_bytes_used_ + num_bytes) })
    else
      let r := allocate_upload_data s (u32 (padding + num_bytes))
      .ok (u32 (r.1 + padding), r.2)

/-- Model of `start(list, image_width, image_height)`: attach the command list, record
the target size, clear the stale buffers, reset and map the upload buffer. -/
def start (s : RmlRenderInterface_RT64) (image_width image_height : Nat) :
    RmlRenderInterface_RT64 :=
  { s with
    list_ := some [Command.setPipeline, Command.setGraphicsPipelineLayout]
    window_width_ := image_width
    window_height_ := image_height
    stale_buffers_ := []
    upload_buffer_bytes_used_ := 0
    upload_buffer_mapped_data_ := true }

/-- The `end(list)` method: detach the command list and unmap the upload buffer. -/
def end_ (s : RmlRenderInterface_RT64) : RmlRenderInterface_RT64 :=
  { s with list_ := none, upload_buffer_mapped_data_ := false }

/-! ## Geometry buffers -/

/-- The size of `int` on the supported targets. -/
def sizeof_int : Nat := 4

/-- The constant `initial_vertex_buffer_size = 512 * sizeof(Rml::Vertex)`.  The
vertex type is declared by the UI toolkit, outside the sources, so its size is
a parameter. -/
def initial_vertex_buffer_size (sizeof_Vertex : Nat) : Nat := 512 * sizeof_Vertex

/-- The constant `initial_index_buffer_size = 1024 * sizeof(int)`. -/
def initial_index_buffer_size : Nat := 1024 * sizeof_int

/-- Model of `resize_vertex_buffer(new_size)`. -/
def resize_vertex_buffer (s : RmlRenderInterface_RT64) (new_size : Nat) :
    RmlRenderInterface_RT64 :=
  let stale := match s.vertex_buffer_ with
    | some b => s.stale_buffers_ ++ [b]
    | none => s.stale_buffers_
  let made := createBuffer s.device BufferKind.vertex new_size
  { s with
    stale_buffers_ := stale
    vertex_buffer_ := some made.1
    device := made.2
    vertex_buffer_size_ := new_size }

/-- Model of `resize_index_buffer(new_size)`. -/
def resize_index_buffer (s : RmlRenderInterface_RT64) (new_size : Nat) :
    RmlRenderInterface_RT64 :=
  let stale := match s.index_buffer_ with
    | some b => s.stale_buffers_ ++ [b]
    | none => s.stale_buffers_
  let made := createBuffer s.device BufferKind.index new_size
  { s with
    stale_buffers_ := stale
    index_buffer_ := some made.1
    device := made.2
    index_buffer_size_ := new_size }

/-- The member initialisers of the class: no buffers, `texture_count_ = 1`. -/
def member_defaults (d : RenderDevice) : RmlRenderInterface_RT64 where
  device := d
  textures_ := []
  texture_count_ := 1
  upload_buffer_ := none
  vertex_buffer_ := none
  index_buffer_ := none
  upload_buffer_size_ := 0
  upload_buffer_bytes_used_ := 0
  upload_buffer_mapped_data_ := false
  upload_memory := fun _ => 0
  vertex_buffer_size_ := 0
  index_buffer_size_ := 0
  list_ := none
  stale_buffers_ := []
  window_width_ := 0
  window_height_ := 0
  stdout := []

/-- The constructor, as far as the modelled fields go: it creates the upload
buffer (unmapped), the vertex buffer and the index buffer at their initial
sizes.  Samplers, shaders and the pipeline are not modelled. -/
def construct (d : RenderDevice) (sizeof_Vertex : Nat) : RmlRenderInterface_RT64 :=
  resize_index_buffer
    (resize_vertex_buffer
      (resize_upload_buffer (member_defaults d) initial_upload_buffer_size false)
      (initial_vertex_buffer_size sizeof_Vertex))
    initial_index_buffer_size

/-! ## Pointers and `memcpy` -/

/-- Width of a data pointer (and of `uintptr_t`, `size_t`) on the build target. -/
inductive PointerWidth where
  | bits32
  | bits64
deriving DecidableEq, Repr

/-- Number of distinct pointer values. -/
def PointerWidth.modulus : PointerWidth → Nat
  | .bits32 => 4294967296
  | .bits64 => 18446744073709551616

/-- The sum `p + n` for a byte pointer `p` (as an offset from the start of its object)
and an unsigned integer `n`. -/
def pointer_add (pw : PointerWidth) (p n : Nat) : Nat := (p + n) % pw.modulus

/-- Whether the `n` bytes at offset `src` of the object behind `source` exist.
A source is given by the byte readable at each offset, `none` outside the object. -/
def source_readable (source : Nat → Option Nat) (src n : Nat) : Bool :=
  decide (∀ i, i < n → (source (src + i)).isSome = true)

/-- Model of `memcpy(upload_buffer_mapped_data_ + dst, source + src, n)`.  Copying no
bytes does nothing; otherwise the mapped pointer must be non-null, the source
bytes must exist and the destination must lie inside the upload buffer. -/
def memcpy (s : RmlRenderInterface_RT64) (dst : Nat) (source : Nat → Option Nat)
    (src n : Nat) : Except Fault RmlRenderInterface_RT64 :=
  if n = 0 then .ok s
  else if s.upload_buffer_mapped_data_ = false then .error Fault.null_dereference
  else if source_readable source src n = false then .error Fault.out_of_bounds_read
  else if dst + n > s.upload_buffer_size_ then .error Fault.out_of_bounds_write
  else .ok { s with
    upload_memory := fun a =>
      if dst ≤ a ∧ a < dst + n then (source (src + (a - dst))).getD 0 else s.upload_memory a }

/-! ## Texture upload -/

/-- Modelled from the spec: `RenderFormatSize` is declared by the render
library, outside the sources; the texture format `B8G8R8A8_UNORM` is the
32-bit-per-pixel format of the spec, so
`RmlTextureFormatBytesPerPixel = RenderFormatSize(RmlTextureFormat)` is 4. -/
def RmlTextureFormatBytesPerPixel : Nat := 4

/-- Model of `CalculateTextureRowWidthPadding(rowPitch, rowWidth, rowPadding)`: returns
`(rowWidth, rowPadding)`. -/
def CalculateTextureRowWidthPadding (rowPitch : Nat) : Nat × Nat :=
  let rowWidth := rowPitch
  let rowPadding := if rowWidth % 256 ≠ 0 then u32_sub 256 (rowWidth % 256) else 0
  (u32 (rowWidth + rowPadding), rowPadding)

/-- Model of `device->createTexture(Texture2D(w, h, 1, format))`: a fresh texture, or null. -/
def createTexture (d : RenderDevice) (w h : Nat) : Option RenderTexture × RenderDevice :=
  if d.texture_available w h then
    (some (RenderTexture.mk d.next_id w h), { d with next_id := d.next_id + 1 })
  else (none, d)

/-- Model of `textures_.emplace(key, value)`: inserts unless the key is present. -/
def emplace (m : List (Nat × TextureHandle)) (key : Nat) (value : TextureHandle) :
    List (Nat × TextureHandle) :=
  if m.any (fun e => e.1 == key) then m else m ++ [(key, value)]

/-- Model of `textures_.contains(key)`. -/
def contains (m : List (Nat × TextureHandle)) (key : Nat) : Bool :=
  m.any (fun e => e.1 == key)

/-- The loop of the flipped, unpadded branch of `create_texture`:
`for (row = 0; row < height; row++) memcpy(dst_data + row_byte_width * (height - row - 1),
source + row_byte_width * row, row_byte_width)`; `count` rows remain, starting at `row`. -/
def flipped_rows (source : Nat → Option Nat) (dst_data row_byte_width height : Nat) :
    (count row : Nat) → RmlRenderInterface_RT64 → Except Fault RmlRenderInterface_RT64
  | 0, _, s => .ok s
  | count + 1, row, s =>
    match memcpy s (dst_data + u32 (row_byte_width * u32_sub (u32_sub height row) 1))
        source (u32 (row_byte_width * row)) row_byte_width with
    | .error f => .error f
    | .ok s1 => flipped_rows source dst_data row_byte_width height count (row + 1) s1

/-- The loop of the padded branch of `create_texture`:
`memcpy(dst_data, src_data, row_pitch); src_data += src_stride; dst_data += row_byte_width`,
`count` times.  `src_stride` is a `uint32_t` added to a pointer. -/
def padded_rows (pw : PointerWidth) (source : Nat → Option Nat)
    (row_pitch row_byte_width src_stride : Nat) :
    (count dst_data src_data : Nat) → RmlRenderInterface_RT64 → Except Fault RmlRenderInterface_RT64
  | 0, _, _, s => .ok s
  | count + 1, dst_data, src_data, s =>
    match memcpy s dst_data source src_data row_pitch with
    | .error f => .error f
    | .ok s1 =>
      padded_rows pw source row_pitch row_byte_width src_stride count
        (dst_data + row_byte_width) (pointer_add pw src_data src_stride) s1

/-- The copy of the source pixels into the upload buffer at `upload_buffer_offset`
(the `if (row_byte_padding == 0) ... else ...` statement of `create_texture`).
`width` and `height` are the dimensions as converted to `uint32_t`. -/
def copy_pixels (pw : PointerWidth) (s : RmlRenderInterface_RT64) (upload_buffer_offset : Nat)
    (source : Nat → Option Nat) (width height : Nat) (flip_y : Bool) :
    Except Fault RmlRenderInterface_RT64 :=
  let image_size_bytes := u32 (width * height * RmlTextureFormatBytesPerPixel)
  let row_pitch := u32 (width * RmlTextureFormatBytesPerPixel)
  let row_byte_width := (CalculateTextureRowWidthPadding row_pitch).1
  let row_byte_padding := (CalculateTextureRowWidthPadding row_pitch).2
  let dst_data := upload_buffer_offset
  if row_byte_padding = 0 then
    if flip_y then flipped_rows source dst_data row_byte_width height height 0 s
    else memcpy s dst_data source 0 image_size_bytes
  else
    let src_data := if flip_y then pointer_add pw 0 (u32 (row_pitch * u32_sub height 1)) else 0
    let src_stride := if flip_y then u32_neg row_pitch else row_pitch
    padded_rows pw source row_pitch row_byte_width src_stride height dst_data src_data s

/-- Model of `create_texture(texture_handle, source, source_dimensions, flip_y)`; the
result is the returned `bool` and the new state. -/
def create_texture (pw : PointerWidth) (s : RmlRenderInterface_RT64) (texture_handle : Nat)
    (source : Nat → Option Nat) (width height : Nat) (flip_y : Bool) :
    Except Fault (Bool × RmlRenderInterface_RT64) :=
  match createTexture s.device width height with
  | (none, d) => .ok (false, { s with device := d })
  | (some texture, d) =>
    let row_pitch := u32 (width * RmlTextureFormatBytesPerPixel)
    let row_byte_width := (CalculateTextureRowWidthPadding row_pitch).1
    let row_width := row_byte_width / RmlTextureFormatBytesPerPixel
    let uploaded_size_bytes := u32 (row_byte_width * height)
    match allocate_upload_data_aligned { s with device := d } uploaded_size_bytes 512 with
    | .error f => .error f
    | .ok (upload_buffer_offset, s1) =>
      match copy_pixels pw s1 upload_buffer_offset source width height flip_y with
      | .error f => .error f
      | .ok s2 =>
        match s2.list_ with
        | none => .error Fault.null_dereference
        | some commands =>
          let buffer := match s2.upload_buffer_ with
            | some b => b.id
            | none => 0
          let heap := s2.device.next_id
          .ok (true, { s2 with
            device := { s2.device with next_id := s2.device.next_id + 1 }
            list_ := some (commands ++
              [Command.textureBarrier texture.id true,
               Command.copyTextureRegion texture.id buffer width height row_width
                 upload_buffer_offset,
               Command.textureBarrier texture.id false])
            textures_ := emplace s2.textures_ texture_handle (TextureHandle.mk texture heap) })

/-- The increment `texture_count_++`: the handle taken and the state with the counter
advanced (a `uintptr_t` increment). -/
def take_texture_handle (pw : PointerWidth) (s : RmlRenderInterface_RT64) :
    Nat × RmlRenderInterface_RT64 :=
  (s.texture_count_, { s with texture_count_ := (s.texture_count_ + 1) % pw.modulus })

/-- Model of `GenerateTexture(texture_handle, source, source_dimensions)`: the result is
the returned `bool`, the handle written to `texture_handle`, and the new state. -/
def GenerateTexture (pw : PointerWidth) (s : RmlRenderInterface_RT64)
    (source : Nat → Option Nat) (width height : Nat) :
    Except Fault ((Bool × Nat) × RmlRenderInterface_RT64) :=
  let taken := take_texture_handle pw s
  match create_texture pw taken.2 taken.1 source width height false with
  | .error f => .error f
  | .ok (r, s1) => .ok ((r, taken.1), s1)

/-! ## TGA decoder -/

/-- The element `file_data[i]` of the `std::vector<char>` read from the file, as the byte
value it holds; reading past the end of the vector is out of bounds. -/
def read_byte (file_data : List Nat) (i : Nat) : Except Fault Nat :=
  match file_data[i]? with
  | some b => .ok (b % 256)
  | none => .error Fault.out_of_bounds_read

/-- Model of `from_bytes_le<uint16_t>(file_data.data() + offset)`: the two bytes at
`offset`, low byte first (the host is little-endian). -/
def from_bytes_le_u16 (file_data : List Nat) (offset : Nat) : Except Fault Nat :=
  match read_byte file_data offset, read_byte file_data (offset + 1) with
  | .ok lo, .ok hi => .ok (lo + 256 * hi)
  | .error f, _ => .error f
  | _, .error f => .error f

/-- The bytes readable from `file_data.data() + offset`. -/
def file_source (file_data : List Nat) (offset : Nat) : Nat → Option Nat :=
  fun i => (file_data[offset + i]?).map (fun b => b % 256)

/-- What `LoadTexture` hands back: the returned `bool` and the values written to
the `texture_handle` and `texture_dimensions` references, if written. -/
structure LoadTextureResult where
  ok : Bool
  texture_handle : Option Nat
  texture_dimensions : Option (Nat × Nat)
deriving DecidableEq, Repr

/-- A `printf` of one diagnostic line. -/
def print (s : RmlRenderInterface_RT64) (line : String) : RmlRenderInterface_RT64 :=
  { s with stdout := s.stdout ++ [line] }

/-- The failure result of `LoadTexture`: `false`, nothing written. -/
def load_failed : LoadTextureResult := LoadTextureResult.mk false none none

/-- The two checks `LoadTexture` makes on `image_descriptor` (byte 17), each of
which prints a diagnostic and goes on:
`if ((image_descriptor & 0b1111) != 8) printf(...)` and
`if (image_descriptor & 0b110000) printf(...)`. -/
def check_descriptor (s : RmlRenderInterface_RT64) (image_descriptor : Nat) :
    RmlRenderInterface_RT64 :=
  let s1 := if image_descriptor % 16 ≠ 8 then print s "  Only 8bpp alpha supported\n" else s
  if image_descriptor / 16 % 4 ≠ 0 then
    print s1 "  Only bottom-to-top, left-to-right pixel order supported\n"
  else s1

/-- Model of `LoadTexture(texture_handle, texture_dimensions, source)`.  `extension` is
`image_path.extension()` and `file_data` is what `read_file` returned for the
path (empty when the file cannot be opened). -/
def LoadTexture (pw : PointerWidth) (s : RmlRenderInterface_RT64) (extension : String)
    (file_data : List Nat) : Except Fault (LoadTextureResult × RmlRenderInterface_RT64) :=
  if extension = ".tga" then
    if file_data.isEmpty then .ok (load_failed, print s "  File not found or empty\n")
    else do
      let id_length ← read_byte file_data 0
      if id_length ≠ 0 then
        return (load_failed, print s "  Nonzero ID length not supported\n")
      let color_map ← read_byte file_data 1
      if color_map ≠ 0 then
        return (load_failed, print s "  Color maps not supported\n")
      let image_type ← read_byte file_data 2
      if image_type ≠ 2 then
        return (load_failed, print s "  Only uncompressed tga files supported\n")
      let origin_x ← from_bytes_le_u16 file_data 8
      let origin_y ← from_bytes_le_u16 file_data 10
      let size_x ← from_bytes_le_u16 file_data 12
      let size_y ← from_bytes_le_u16 file_data 14
      if origin_x ≠ 0 ∨ origin_y ≠ 0 then
        return (load_failed, print s "  Nonzero origin not supported\n")
      let pixel_depth ← read_byte file_data 16
      if pixel_depth ≠ 32 then
        return (load_failed, print s "  Only 32bpp images supported\n")
      let image_descriptor ← read_byte file_data 17
      let s2 := check_descriptor s image_descriptor
      let taken := take_texture_handle pw s2
      let created ← create_texture pw taken.2 taken.1 (file_source file_data 18)
        size_x size_y true
      return (LoadTextureResult.mk true (some taken.1) (some (size_x, size_y)), created.2)
  else .ok (load_failed, s)

/-! ## Call sequences on the arena -/

/-- A call on the upload arena. -/
inductive ArenaCall where
  | start (image_width image_height : Nat)
  | allocate (num_bytes : Nat)
  | allocate_aligned (num_bytes alignment : Nat)
deriving DecidableEq, Repr

/-- One call: the returned offset (none for `start`) and the state after it. -/
def run_call (s : RmlRenderInterface_RT64) :
    ArenaCall → Except Fault (Option Nat × RmlRenderInterface_RT64)
  | .start w h => .ok (none, start s w h)
  | .allocate n => .ok (some (allocate_upload_data s n).1, (allocate_upload_data s n).2)
  | .allocate_aligned n a =>
    match allocate_upload_data_aligned s n a with
    | .error f => .error f
    | .ok r => .ok (some r.1, r.2)

/-- The requested size of a call (zero for `start`). -/
def ArenaCall.num_bytes : ArenaCall → Nat
  | .start _ _ => 0
  | .allocate n => n
  | .allocate_aligned n _ => n

/-- The calls of a sequence in order, each with its returned offset and the
state after it; the trace stops at the first fault. -/
def run_calls : RmlRenderInterface_RT64 → List ArenaCall →
    List (ArenaCall × Option Nat × RmlRenderInterface_RT64)
  | _, [] => []
  | s, c :: cs =>
    match run_call s c with
    | .error _ => []
    | .ok r => (c, r.1, r.2) :: run_calls r.2 cs


/-! ## Properties of call sequences -/

/-- The next multiple of `alignment` at or above `used`. -/
def round_up (used alignment : Nat) : Nat := (used + alignment - 1) / alignment * alignment

/-- No `uint32_t` computation of the call wraps around, and an aligned call is
given a nonzero alignment. -/
def call_in_range (s : RmlRenderInterface_RT64) : ArenaCall → Bool
  | .start _ _ => true
  | .allocate n =>
    decide (s.upload_buffer_bytes_used_ + n < 4294967296) &&
    decide (s.upload_buffer_bytes_used_ + n > s.upload_buffer_size_ →
      (s.upload_buffer_bytes_used_ + n) + (s.upload_buffer_bytes_used_ + n) / 2 < 4294967296)
  | .allocate_aligned n a =>
    decide (0 < a) &&
    decide (s.upload_buffer_bytes_used_ + a - 1 < 4294967296) &&
    decide (round_up s.upload_buffer_bytes_used_ a + n < 4294967296) &&
    decide (round_up s.upload_buffer_bytes_used_ a + n > s.upload_buffer_size_ →
      (s.upload_buffer_bytes_used_ + n) + (s.upload_buffer_bytes_used_ + n) / 2 < 4294967296)

/-- An aligned call asks for an alignment of at most a third of the capacity. -/
def alignment_modest (s : RmlRenderInterface_RT64) : ArenaCall → Bool
  | .allocate_aligned _ a => decide (3 * a ≤ s.upload_buffer_size_)
  | _ => true

/-- Every call of the sequence satisfies `p` in the state it is made in. -/
def calls_satisfy (p : RmlRenderInterface_RT64 → ArenaCall → Bool) :
    RmlRenderInterface_RT64 → List ArenaCall → Bool
  | _, [] => true
  | s, c :: cs =>
    p s c &&
      match run_call s c with
      | .error _ => true
      | .ok r => calls_satisfy p r.2 cs

/-- A trace entry respects the capacity: the returned offset plus the requested
size, and the bytes used after the call, are at most the capacity after the call. -/
def within_capacity (e : ArenaCall × Option Nat × RmlRenderInterface_RT64) : Bool :=
  (match e.2.1 with
    | some offset => decide (offset + e.1.num_bytes ≤ e.2.2.upload_buffer_size_)
    | none => true) &&
  decide (e.2.2.upload_buffer_bytes_used_ ≤ e.2.2.upload_buffer_size_)

/-- The capacities after each call of a trace. -/
def capacities (t : List (ArenaCall × Option Nat × RmlRenderInterface_RT64)) : List Nat :=
  t.map (fun e => e.2.2.upload_buffer_size_)


/-! ## Example states -/

/-- Device used in the examples: identities from zero, every texture request served. -/
def example_device : RenderDevice := RenderDevice.mk 0 (fun _ _ => true)

/-- Arena of the examples: the constructed renderer (20-byte vertices) after `start`. -/
def example_session : RmlRenderInterface_RT64 := start (construct example_device 20) 640 480


/-- The 1024-byte arena of the spec's examples: an upload buffer of 1024 bytes,
mapped, nothing used. -/
def arena_1024 : RmlRenderInterface_RT64 :=
  resize_upload_buffer (member_defaults example_device) 1024 true

/-! ## Reading a TGA header -/

/-- The byte value at offset `i` of a file (zero past its end). -/
def byte_at (file_data : List Nat) (i : Nat) : Nat := file_data.getD i 0 % 256

/-- The little-endian 16-bit value at offsets `i`, `i + 1` of a file. -/
def le16_at (file_data : List Nat) (i : Nat) : Nat :=
  byte_at file_data i + 256 * byte_at file_data (i + 1)

/-- The five diagnostics of the header checks listed in the decoder's rejection
rule: id length, colour map, image type, origin, bit depth. -/
def header_diagnostics : List String :=
  ["  Nonzero ID length not supported\n",
   "  Color maps not supported\n",
   "  Only uncompressed tga files supported\n",
   "  Nonzero origin not supported\n",
   "  Only 32bpp images supported\n"]

/-- A TGA file image: the 18 header bytes (id length, colour-map type, image
type, five colour-map bytes, origin, size, bit depth, descriptor) followed by
the pixel bytes. -/
def tga_file (id_length color_map image_type origin_x origin_y width height depth
    descriptor : Nat) (pixels : List Nat) : List Nat :=
  [id_length, color_map, image_type, 0, 0, 0, 0, 0,
   origin_x % 256, origin_x / 256, origin_y % 256, origin_y / 256,
   width % 256, width / 256, height % 256, height / 256, depth, descriptor] ++ pixels

/-! ## Properties of the staging copy -/

/-- The second state differs from the first at most in the upload buffer's content. -/
def memory_frame (s s1 : RmlRenderInterface_RT64) : Prop :=
  s1 = { s with upload_memory := s1.upload_memory }

/-- The arena invariant: the capacity is a 32-bit value and the bytes used do
not exceed it. -/
def arena_valid (s : RmlRenderInterface_RT64) : Bool :=
  decide (s.upload_buffer_size_ < 4294967296) &&
  decide (s.upload_buffer_bytes_used_ ≤ s.upload_buffer_size_)

/-- A frame session is open: the upload buffer is mapped and a command list is attached. -/
def session_open (s : RmlRenderInterface_RT64) : Bool :=
  s.upload_buffer_mapped_data_ && s.list_.isSome

/-- The padded row width `row_byte_width` of an image `width` pixels wide. -/
def padded_row_width (width : Nat) : Nat :=
  (CalculateTextureRowWidthPadding (u32 (width * RmlTextureFormatBytesPerPixel))).1

/-- The upload of a `width × height` image stays within 32-bit arithmetic: the
row pitch can be padded, the height and the staged size fit 32 bits, and the
aligned allocation of the staged size is in range. -/
def upload_in_range (s : RmlRenderInterface_RT64) (width height : Nat) : Bool :=
  decide (width * 4 + 255 < 4294967296) &&
  decide (height < 4294967296) &&
  decide (padded_row_width width * height < 4294967296) &&
  call_in_range s (.allocate_aligned (padded_row_width width * height) 512)

/-- The upload-buffer offset at which `create_texture` stages a `width × height`
image: what `allocate_upload_data_aligned(uploaded_size_bytes, 512)` returns. -/
def staging_offset (s : RmlRenderInterface_RT64) (width height : Nat) : Nat :=
  match allocate_upload_data_aligned s (u32 (padded_row_width width * height)) 512 with
  | .ok r => r.1
  | .error _ => 0

/-- A source of `length` bytes, all equal to `value`. -/
def constant_source (length value : Nat) : Nat → Option Nat :=
  fun i => if i < length then some value else none

/-- A source whose byte at offset `i` is 1 below 4 GiB and 2 from there on. -/
def banded_source : Nat → Option Nat :=
  fun i => if i < 4294967296 then some 1 else some 2

/-! ## Drawing -/

/-- Model of `ReleaseTexture(texture)`: `textures_.erase(texture)`. -/
def ReleaseTexture (s : RmlRenderInterface_RT64) (texture : Nat) : RmlRenderInterface_RT64 :=
  { s with textures_ := s.textures_.filter (fun e => !(e.1 == texture)) }

/-- Model of `textures_.at(key)`: the entry, if there is one. -/
def lookup (m : List (Nat × TextureHandle)) (key : Nat) : Option TextureHandle :=
  (m.find? (fun e => e.1 == key)).map Prod.snd

/-- The array `Rml::byte white_pixel[] = { 255, 255, 255, 255 }`. -/
def white_pixel : Nat → Option Nat := file_source [255, 255, 255, 255] 0

/-- The texture check at the start of `RenderGeometry`: an unknown handle 0
gets the 1×1 white texture through `create_texture(0, white_pixel, {1, 1})`; for
any other unknown handle the code reaches
`assert(false && "Rendered without texture!")`.  `ndebug` says whether the build
defines `NDEBUG`: without it the failed assertion ends the call, with it
`assert` expands to nothing and the call goes on with the state unchanged. -/
def ensure_texture (pw : PointerWidth) (ndebug : Bool) (s : RmlRenderInterface_RT64)
    (texture : Nat) : Except Fault RmlRenderInterface_RT64 :=
  if contains s.textures_ texture then .ok s
  else if texture = 0 then
    match create_texture pw s 0 white_pixel 1 1 false with
    | .error f => .error f
    | .ok r => .ok r.2
  else if ndebug then .ok s
  else .error Fault.assertion_failure

/-- The two growth checks of `RenderGeometry`:
`if (vert_size_bytes > vertex_buffer_size_) resize_vertex_buffer(vert_size_bytes + vert_size_bytes / 2)`
and the same for the index buffer. -/
def grow_geometry_buffers (s : RmlRenderInterface_RT64) (vert_size_bytes index_size_bytes : Nat) :
    RmlRenderInterface_RT64 :=
  let s1 := if vert_size_bytes > s.vertex_buffer_size_ then
      resize_vertex_buffer s (u32 (vert_size_bytes + vert_size_bytes / 2))
    else s
  if index_size_bytes > s1.index_buffer_size_ then
    resize_index_buffer s1 (u32 (index_size_bytes + index_size_bytes / 2))
  else s1

/-- The command recording at the end of `RenderGeometry`: barriers, the two
copies out of the upload buffer, barriers, and the indexed draw with the heap of
`textures_.at(texture)`.  The command list and the three buffers are
dereferenced. -/
def record_draw (s : RmlRenderInterface_RT64)
    (upload_buffer_offset vert_size_bytes index_size_bytes texture num_indices : Nat) :
    Except Fault RmlRenderInterface_RT64 :=
  match s.list_, s.vertex_buffer_, s.index_buffer_, s.upload_buffer_ with
  | some commands, some vb, some ib, some ub =>
    match lookup s.textures_ texture with
    | none => .error Fault.out_of_range_exception
    | some _ =>
      .ok { s with
        list_ := some (commands ++
          [Command.bufferBarriers vb.id ib.id true,
           Command.copyBufferRegion vb.id ub.id upload_buffer_offset vert_size_bytes,
           Command.copyBufferRegion ib.id ub.id (u32 (upload_buffer_offset + vert_size_bytes))
             index_size_bytes,
           Command.bufferBarriers vb.id ib.id false,
           Command.draw texture num_indices]) }
  | _, _, _, _ => .error Fault.null_dereference

/-- The part of `RenderGeometry` after the texture check: the combined upload
allocation, the growth of the vertex and index buffers, the two copies into the
upload buffer and the command recording.  `sizeof_Vertex` is `sizeof(*vertices)`;
the counts are the `int` arguments, taken non-negative. -/
def render_batch (sizeof_Vertex : Nat) (s : RmlRenderInterface_RT64)
    (vertices : Nat → Option Nat) (num_vertices : Nat)
    (indices : Nat → Option Nat) (num_indices : Nat) (texture : Nat) :
    Except Fault RmlRenderInterface_RT64 :=
  let vert_size_bytes := u32 (num_vertices * sizeof_Vertex)
  let index_size_bytes := u32 (num_indices * sizeof_int)
  let total_bytes := u32 (vert_size_bytes + index_size_bytes)
  let allocated := allocate_upload_data s total_bytes
  let s1 := grow_geometry_buffers allocated.2 vert_size_bytes index_size_bytes
  match memcpy s1 allocated.1 vertices 0 vert_size_bytes with
  | .error f => .error f
  | .ok s2 =>
    match memcpy s2 (allocated.1 + vert_size_bytes) indices 0 index_size_bytes with
    | .error f => .error f
    | .ok s3 =>
      record_draw s3 allocated.1 vert_size_bytes index_size_bytes texture num_indices

/-- Model of `RenderGeometry(vertices, num_vertices, indices, num_indices, texture,
translation)`; the translation only enters the push constants and is left out.
`ndebug` says whether the build defines `NDEBUG`. -/
def RenderGeometry (pw : PointerWidth) (ndebug : Bool) (sizeof_Vertex : Nat)
    (s : RmlRenderInterface_RT64)
    (vertices : Nat → Option Nat) (num_vertices : Nat)
    (indices : Nat → Option Nat) (num_indices : Nat) (texture : Nat) :
    Except Fault RmlRenderInterface_RT64 :=
  match ensure_texture pw ndebug s texture with
  | .error f => .error f
  | .ok s1 => render_batch sizeof_Vertex s1 vertices num_vertices indices num_indices texture

/-! ## Call sequences on the texture map -/

/-- A call of the texture interface. -/
inductive TextureCall where
  | load (extension : String) (file_data : List Nat)
  | generate (source : Nat → Option Nat) (width height : Nat)
  | release (texture : Nat)

/-- One call: the handle it returned through `texture_handle` (none for a
failed `LoadTexture` and for `ReleaseTexture`) and the state after it. -/
def run_texture_call (pw : PointerWidth) (s : RmlRenderInterface_RT64) :
    TextureCall → Except Fault (Option Nat × RmlRenderInterface_RT64)
  | .load extension file_data =>
    match LoadTexture pw s extension file_data with
    | .error f => .error f
    | .ok r => .ok (r.1.texture_handle, r.2)
  | .generate source width height =>
    match GenerateTexture pw s source width height with
    | .error f => .error f
    | .ok r => .ok (some r.1.2, r.2)
  | .release texture => .ok (none, ReleaseTexture s texture)

/-- The calls of a sequence in order, each with the handle it returned and the
state after it; the trace stops at the first fault. -/
def run_texture_calls (pw : PointerWidth) :
    RmlRenderInterface_RT64 → List TextureCall → List (Option Nat × RmlRenderInterface_RT64)
  | _, [] => []
  | s, c :: cs =>
    match run_texture_call pw s c with
    | .error _ => []
    | .ok r => r :: run_texture_calls pw r.2 cs

/-- The handles a trace returned, in order. -/
def returned_handles (t : List (Option Nat × RmlRenderInterface_RT64)) : List Nat :=
  t.filterMap (fun e => e.1)

/-- Every key of the texture map other than 0 is below the handle counter. -/
def keys_below_counter (s : RmlRenderInterface_RT64) : Bool :=
  s.textures_.all (fun e => e.1 == 0 || decide (e.1 < s.texture_count_))

/-- A device that serves no texture request. -/
def refusing_device : RenderDevice := RenderDevice.mk 0 (fun _ _ => false)

/-! ## Frame of the arena operations -/

/-- What the operations on the upload arena leave alone: the texture map, the
handle counter, the vertex and index buffers and their sizes, the command list
and the printed output are the same in the second state, the device serves the
same texture requests, and the retirement list has only grown at its end. -/
def arena_step (s s1 : RmlRenderInterface_RT64) : Prop :=
  s1.textures_ = s.textures_ ∧ s1.texture_count_ = s.texture_count_ ∧
  s1.vertex_buffer_ = s.vertex_buffer_ ∧ s1.index_buffer_ = s.index_buffer_ ∧
  s1.vertex_buffer_size_ = s.vertex_buffer_size_ ∧
  s1.index_buffer_size_ = s.index_buffer_size_ ∧
  s1.list_ = s.list_ ∧ s1.stdout = s.stdout ∧
  s1.device.texture_available = s.device.texture_available ∧
  s.stale_buffers_ <+: s1.stale_buffers_

/-! ## Example states with textures -/

/-- The example session after `GenerateTexture` registered a 1×1 texture under handle 1. -/
def textured_session : RmlRenderInterface_RT64 :=
  match GenerateTexture PointerWidth.bits64 example_session white_pixel 1 1 with
  | .ok r => r.2
  | .error _ => example_session

/-- A later frame of the textured session whose upload arena has grown to
3000000384 bytes (after a 2000000000-byte allocation in the frame before). -/
def large_arena_session : RmlRenderInterface_RT64 :=
  start (allocate_upload_data textured_session 2000000000).2 640 480

/-- The example session with its arena grown to 2863311276 bytes, of which
2863311275 are used (two allocations, of 1908874184 and 954437091 bytes). -/
def full_arena_session : RmlRenderInterface_RT64 :=
  (allocate_upload_data (allocate_upload_data example_session 1908874184).2 954437091).2
/-! ## Arithmetic and arena lemmas -/

theorem u32_of_lt {x : Nat} (h : x < 4294967296) : u32 x = x := Nat.mod_eq_of_lt h

theorem u32_lt (x : Nat) : u32 x < 4294967296 := Nat.mod_lt _ (by decide)

theorem allocate_fit (s : RmlRenderInterface_RT64) (n : Nat)
    (hs : s.upload_buffer_size_ < 4294967296)
    (hfit : s.upload_buffer_bytes_used_ + n ≤ s.upload_buffer_size_) :
    allocate_upload_data s n
      = (s.upload_buffer_bytes_used_,
         { s with upload_buffer_bytes_used_ := s.upload_buffer_bytes_used_ + n }) := by
  have h1 : u32 (n + s.upload_buffer_bytes_used_) = n + s.upload_buffer_bytes_used_ :=
    u32_of_lt (by omega)
  have h2 : u32 (s.upload_buffer_bytes_used_ + n) = s.upload_buffer_bytes_used_ + n :=
    u32_of_lt (by omega)
  have h3 : ¬ (n + s.upload_buffer_bytes_used_ > s.upload_buffer_size_) := by omega
  simp only [allocate_upload_data, h1, h2, h3, if_false]

theorem allocate_grow (s : RmlRenderInterface_RT64) (n : Nat)
    (hgrow : s.upload_buffer_bytes_used_ + n > s.upload_buffer_size_)
    (hr : (s.upload_buffer_bytes_used_ + n) + (s.upload_buffer_bytes_used_ + n) / 2 < 4294967296) :
    allocate_upload_data s n
      = (0, { resize_upload_buffer s
                ((s.upload_buffer_bytes_used_ + n) + (s.upload_buffer_bytes_used_ + n) / 2) true
              with upload_buffer_bytes_used_ := n }) := by
  have h1 : u32 (n + s.upload_buffer_bytes_used_) = s.upload_buffer_bytes_used_ + n := by
    rw [Nat.add_comm]; exact u32_of_lt (by omega)
  have h2 : u32 n = n := u32_of_lt (by omega)
  have h3 : u32 ((s.upload_buffer_bytes_used_ + n) + (s.upload_buffer_bytes_used_ + n) / 2)
      = (s.upload_buffer_bytes_used_ + n) + (s.upload_buffer_bytes_used_ + n) / 2 := u32_of_lt hr
  simp only [allocate_upload_data, h1, h3, hgrow, if_true]
  simp [resize_upload_buffer, h2]



/-- The padding of the aligned allocation brings `used` to a multiple of the
alignment that fits 32 bits; without wrap-around it is the next multiple. -/
theorem padding_bytes_spec (used a : Nat) (hu : used < 4294967296) (ha : 0 < a) :
    ∃ m, a ∣ m ∧ m < 4294967296 ∧ padding_bytes used a = u32 (m + 4294967296 - used) ∧
      (used + a - 1 < 4294967296 → m = (used + a - 1) / a * a) := by
  refine ⟨u32_sub (u32 (used + a)) 1 / a * a, Nat.dvd_mul_left _ _, ?_, ?_, ?_⟩
  · exact lt_of_le_of_lt (Nat.div_mul_le_self _ _) (u32_lt _)
  · have hm : u32_sub (u32 (used + a)) 1 / a * a < 4294967296 :=
      lt_of_le_of_lt (Nat.div_mul_le_self _ _) (u32_lt _)
    unfold padding_bytes
    rw [u32_of_lt hm]
    unfold u32_sub
    rw [u32_of_lt hu]
  · intro h
    have : u32_sub (u32 (used + a)) 1 = used + a - 1 := by
      unfold u32_sub u32
      omega
    rw [this]

theorem u32_used_add_padding (used a : Nat) (hu : used < 4294967296) (ha : 0 < a) :
    a ∣ u32 (used + padding_bytes used a) ∧
      (used + a - 1 < 4294967296 →
        u32 (used + padding_bytes used a) = (used + a - 1) / a * a) := by
  obtain ⟨m, hdvd, hm, hp, hround⟩ := padding_bytes_spec used a hu ha
  have : u32 (used + padding_bytes used a) = m := by
    rw [hp]; unfold u32; omega
  rw [this]
  exact ⟨hdvd, hround⟩

theorem inner_allocate_no_growth (s : RmlRenderInterface_RT64) (n a : Nat)
    (hfit : aligned_growth s n a = false) :
    allocate_upload_data s (u32 (padding_bytes s.upload_buffer_bytes_used_ a + n))
      = (s.upload_buffer_bytes_used_,
          { s with
            upload_buffer_bytes_used_ :=
              u32 (s.upload_buffer_bytes_used_
                + u32 (padding_bytes s.upload_buffer_bytes_used_ a + n)) }) := by
  have hno : ¬ (u32 (u32 (padding_bytes s.upload_buffer_bytes_used_ a + n)
      + s.upload_buffer_bytes_used_) > s.upload_buffer_size_) := by
    have h := hfit
    simp only [aligned_growth, decide_eq_false_iff_not] at h
    have e : u32 (u32 (padding_bytes s.upload_buffer_bytes_used_ a + n)
        + s.upload_buffer_bytes_used_)
        = u32 (u32 (n + s.upload_buffer_bytes_used_)
          + padding_bytes s.upload_buffer_bytes_used_ a) := by
      unfold u32; omega
    rw [e]; exact h
  simp only [allocate_upload_data, hno, if_false]

theorem aligned_fit (s : RmlRenderInterface_RT64) (n a : Nat) (ha : 0 < a)
    (hfit : aligned_growth s n a = false) :
    allocate_upload_data_aligned s n a
      = .ok (u32 (s.upload_buffer_bytes_used_ + padding_bytes s.upload_buffer_bytes_used_ a),
          { s with
            upload_buffer_bytes_used_ :=
              u32 (s.upload_buffer_bytes_used_
                + u32 (padding_bytes s.upload_buffer_bytes_used_ a + n)) }) := by
  have ha0 : a ≠ 0 := by omega
  simp only [allocate_upload_data_aligned, ha0, if_false, hfit, inner_allocate_no_growth s n a hfit]
  rfl

theorem aligned_grow (s : RmlRenderInterface_RT64) (n a : Nat) (ha : 0 < a)
    (hgrow : aligned_growth s n a = true) :
    allocate_upload_data_aligned s n a
      = .ok (0, { resize_upload_buffer s
            (u32 (u32 (n + s.upload_buffer_bytes_used_)
              + u32 (n + s.upload_buffer_bytes_used_) / 2)) true
          with upload_buffer_bytes_used_ := u32 n }) := by
  have ha0 : a ≠ 0 := by omega
  simp only [allocate_upload_data_aligned, ha0, if_false, hgrow, if_true]
  simp [resize_upload_buffer]

theorem round_up_bounds (used a : Nat) (ha : 0 < a) :
    used ≤ round_up used a ∧ round_up used a ≤ used + a - 1 ∧ a ∣ round_up used a := by
  refine ⟨?_, Nat.div_mul_le_self _ _, Nat.dvd_mul_left _ _⟩
  have := Nat.lt_div_mul_add (a := used + a - 1) ha
  unfold round_up
  omega

theorem padding_bytes_in_range (used a : Nat) (ha : 0 < a) (h1 : used + a - 1 < 4294967296) :
    padding_bytes used a = round_up used a - used := by
  have hu : used < 4294967296 := by omega
  obtain ⟨m, -, hm, hp, hround⟩ := padding_bytes_spec used a hu ha
  have hb := round_up_bounds used a ha
  have e : m = round_up used a := hround h1
  rw [hp, e]
  unfold u32
  omega

theorem aligned_growth_in_range (s : RmlRenderInterface_RT64) (n a : Nat) (ha : 0 < a)
    (h1 : s.upload_buffer_bytes_used_ + a - 1 < 4294967296)
    (h2 : round_up s.upload_buffer_bytes_used_ a + n < 4294967296) :
    aligned_growth s n a
      = decide (round_up s.upload_buffer_bytes_used_ a + n > s.upload_buffer_size_) := by
  have hb := round_up_bounds s.upload_buffer_bytes_used_ a ha
  have e : u32 (u32 (n + s.upload_buffer_bytes_used_)
      + padding_bytes s.upload_buffer_bytes_used_ a)
      = round_up s.upload_buffer_bytes_used_ a + n := by
    rw [padding_bytes_in_range _ _ ha h1]
    unfold u32
    omega
  simp only [aligned_growth, e]

theorem aligned_fit_in_range (s : RmlRenderInterface_RT64) (n a : Nat) (ha : 0 < a)
    (h1 : s.upload_buffer_bytes_used_ + a - 1 < 4294967296)
    (h2 : round_up s.upload_buffer_bytes_used_ a + n < 4294967296)
    (hfit : round_up s.upload_buffer_bytes_used_ a + n ≤ s.upload_buffer_size_) :
    allocate_upload_data_aligned s n a
      = .ok (round_up s.upload_buffer_bytes_used_ a,
          { s with upload_buffer_bytes_used_ := round_up s.upload_buffer_bytes_used_ a + n }) := by
  have hb := round_up_bounds s.upload_buffer_bytes_used_ a ha
  have hg : aligned_growth s n a = false := by
    rw [aligned_growth_in_range s n a ha h1 h2]
    simpa using hfit
  rw [aligned_fit s n a ha hg, padding_bytes_in_range _ _ ha h1]
  have e1 : u32 (s.upload_buffer_bytes_used_
      + (round_up s.upload_buffer_bytes_used_ a - s.upload_buffer_bytes_used_))
      = round_up s.upload_buffer_bytes_used_ a := by
    unfold u32; omega
  have e2 : u32 (s.upload_buffer_bytes_used_
      + u32 (round_up s.upload_buffer_bytes_used_ a - s.upload_buffer_bytes_used_ + n))
      = round_up s.upload_buffer_bytes_used_ a + n := by
    unfold u32; omega
  rw [e1, e2]

theorem aligned_grow_in_range (s : RmlRenderInterface_RT64) (n a : Nat) (ha : 0 < a)
    (h1 : s.upload_buffer_bytes_used_ + a - 1 < 4294967296)
    (h2 : round_up s.upload_buffer_bytes_used_ a + n < 4294967296)
    (hgrow : round_up s.upload_buffer_bytes_used_ a + n > s.upload_buffer_size_)
    (h3 : (s.upload_buffer_bytes_used_ + n) + (s.upload_buffer_bytes_used_ + n) / 2
      < 4294967296) :
    allocate_upload_data_aligned s n a
      = .ok (0, { resize_upload_buffer s
            ((s.upload_buffer_bytes_used_ + n) + (s.upload_buffer_bytes_used_ + n) / 2) true
          with upload_buffer_bytes_used_ := n }) := by
  have hg : aligned_growth s n a = true := by
    rw [aligned_growth_in_range s n a ha h1 h2]
    simpa using hgrow
  rw [aligned_grow s n a ha hg]
  have e1 : u32 (n + s.upload_buffer_bytes_used_) = s.upload_buffer_bytes_used_ + n := by
    unfold u32; omega
  have e2 : u32 n = n := by unfold u32; omega
  rw [e1, e2, u32_of_lt h3]


/-! ## Arena claims -/

/-- One in-range call from a state with `used ≤ capacity < 2^32` returns, keeps
that invariant and yields an offset with `offset + n ≤ capacity`; with a modest
alignment the capacity does not decrease. -/
theorem run_call_in_range (s : RmlRenderInterface_RT64) (c : ArenaCall)
    (hs : s.upload_buffer_size_ < 4294967296)
    (hu : s.upload_buffer_bytes_used_ ≤ s.upload_buffer_size_)
    (hr : call_in_range s c = true) :
    ∃ r, run_call s c = .ok r ∧ r.2.upload_buffer_size_ < 4294967296 ∧
      r.2.upload_buffer_bytes_used_ ≤ r.2.upload_buffer_size_ ∧
      (∀ offset, r.1 = some offset → offset + c.num_bytes ≤ r.2.upload_buffer_size_) ∧
      (alignment_modest s c = true → s.upload_buffer_size_ ≤ r.2.upload_buffer_size_) := by
  cases c with
  | start w h =>
    exact ⟨_, rfl, hs, Nat.zero_le _, (by intro offset h; cases h), fun _ => Nat.le_refl _⟩
  | allocate n =>
    simp only [call_in_range, Bool.and_eq_true, decide_eq_true_eq] at hr
    obtain ⟨h1, h2⟩ := hr
    refine ⟨_, rfl, ?_⟩
    by_cases hfit : s.upload_buffer_bytes_used_ + n ≤ s.upload_buffer_size_
    · rw [allocate_fit s n hs hfit]
      refine ⟨hs, hfit, ?_, fun _ => Nat.le_refl _⟩
      intro offset h
      cases h
      exact hfit
    · have hgrow : s.upload_buffer_bytes_used_ + n > s.upload_buffer_size_ := by omega
      rw [allocate_grow s n hgrow (h2 hgrow)]
      refine ⟨h2 hgrow, ?_, ?_, ?_⟩
      · show n ≤ _
        simp only [resize_upload_buffer]
        omega
      · intro offset h
        cases h
        show 0 + n ≤ _
        simp only [resize_upload_buffer]
        omega
      · intro _
        simp only [resize_upload_buffer]
        omega
  | allocate_aligned n a =>
    simp only [call_in_range, Bool.and_eq_true, decide_eq_true_eq] at hr
    obtain ⟨⟨⟨ha, h1⟩, h2⟩, h3⟩ := hr
    have hb := round_up_bounds s.upload_buffer_bytes_used_ a ha
    by_cases hfit : round_up s.upload_buffer_bytes_used_ a + n ≤ s.upload_buffer_size_
    · refine ⟨_, by simp only [run_call, aligned_fit_in_range s n a ha h1 h2 hfit]; rfl,
        hs, hfit, ?_, fun _ => Nat.le_refl _⟩
      intro offset h
      cases h
      exact hfit
    · have hgrow : round_up s.upload_buffer_bytes_used_ a + n > s.upload_buffer_size_ := by
        omega
      refine ⟨_, by simp only [run_call, aligned_grow_in_range s n a ha h1 h2 hgrow (h3 hgrow)]; rfl,
        h3 hgrow, ?_, ?_, ?_⟩
      · show n ≤ _
        simp only [resize_upload_buffer]
        omega
      · intro offset h
        cases h
        show 0 + n ≤ _
        simp only [resize_upload_buffer]
        omega
      · intro hm
        simp only [alignment_modest, decide_eq_true_eq] at hm
        simp only [resize_upload_buffer]
        omega

/-- C1 (amended): over every sequence of `start`, `allocate_upload_data` and
`allocate_upload_data_aligned` calls in which no 32-bit computation wraps around
and every alignment is nonzero, started from an arena with
`bytesUsed ≤ capacity < 2^32` (such as the constructed 1 MiB arena), every call
returns, each returned offset satisfies `offset + n ≤ capacity`, and
`bytesUsed ≤ capacity` holds after each call. -/
theorem arena_offsets_within_capacity (s : RmlRenderInterface_RT64) (cs : List ArenaCall)
    (hs : s.upload_buffer_size_ < 4294967296)
    (hu : s.upload_buffer_bytes_used_ ≤ s.upload_buffer_size_)
    (hr : calls_satisfy call_in_range s cs = true) :
    (run_calls s cs).length = cs.length ∧
      ∀ e ∈ run_calls s cs, within_capacity e = true := by
  induction cs generalizing s with
  | nil => exact ⟨rfl, by intro e he; cases he⟩
  | cons c cs ih =>
    simp only [calls_satisfy, Bool.and_eq_true] at hr
    obtain ⟨hc, hrest⟩ := hr
    obtain ⟨r, hrun, hs1, hu1, hoff, -⟩ := run_call_in_range s c hs hu hc
    rw [hrun] at hrest
    obtain ⟨hlen, hall⟩ := ih r.2 hs1 hu1 hrest
    simp only [run_calls, hrun, List.length_cons, hlen, List.mem_cons, true_and]
    rintro e (rfl | he)
    · simp only [within_capacity, Bool.and_eq_true, decide_eq_true_eq]
      refine ⟨?_, hu1⟩
      cases hr1 : r.1 with
      | none => rfl
      | some offset => simpa using hoff offset hr1
    · exact hall e he

/-- C1 witness: the amended claim at the constructed 1 MiB arena and a sequence
with a plain, an aligned and a growing allocation. -/
theorem arena_offsets_within_capacity_witness :
    (construct example_device 20).upload_buffer_size_ = 1048576 ∧
    (run_calls (construct example_device 20)
        [.start 640 480, .allocate 100, .allocate_aligned 50 512, .allocate 2000000]).length = 4 ∧
    ∀ e ∈ run_calls (construct example_device 20)
        [.start 640 480, .allocate 100, .allocate_aligned 50 512, .allocate 2000000],
      within_capacity e = true :=
  ⟨rfl, arena_offsets_within_capacity (construct example_device 20)
    [.start 640 480, .allocate 100, .allocate_aligned 50 512, .allocate 2000000]
    (by decide) (by decide) (by decide)⟩

/-- C1 counterexample: on the constructed 1 MiB arena, after `start` and
`allocate(1)`, the call `allocate(4294967295)` wraps `total_bytes` to zero,
returns offset 1 and leaves the capacity at 1 MiB, so `offset + n` exceeds the
capacity; and `allocate(3000000000)` on the fresh arena wraps the new size to
205032704, below the 3000000000 bytes then marked used. -/
theorem arena_offsets_within_capacity_counterexample :
    (run_calls (construct example_device 20)
        [.start 640 480, .allocate 1, .allocate 4294967295]).map
      (fun e => (e.2.1, e.1.num_bytes, e.2.2.upload_buffer_size_, within_capacity e))
      = [(none, 0, 1048576, true), (some 0, 1, 1048576, true),
         (some 1, 4294967295, 1048576, false)] ∧
    (run_calls (construct example_device 20) [.start 640 480, .allocate 3000000000]).map
      (fun e => (e.2.2.upload_buffer_bytes_used_, e.2.2.upload_buffer_size_, within_capacity e))
      = [(0, 1048576, true), (3000000000, 205032704, false)] := by
  decide

/-- C2 (amended): for every arena state with a 32-bit `bytesUsed`, every `n`
and every alignment > 0, `allocate_upload_data_aligned(n, alignment)` returns an
offset that is a multiple of the alignment: 0 on the growth path; on the fitting
path the inner `allocate_upload_data(padding + n)` does not grow (buffer,
capacity and retirement list are unchanged) and, provided
`bytesUsed + alignment - 1` does not wrap around 32 bits, the offset is
`bytesUsed` rounded up to the next multiple of the alignment. -/
theorem aligned_offset_is_multiple (s : RmlRenderInterface_RT64) (n a : Nat)
    (hu : s.upload_buffer_bytes_used_ < 4294967296) (ha : 0 < a) :
    ∃ offset s1, allocate_upload_data_aligned s n a = .ok (offset, s1) ∧ a ∣ offset ∧
      (aligned_growth s n a = true → offset = 0) ∧
      (aligned_growth s n a = false →
        (allocate_upload_data s (u32 (padding_bytes s.upload_buffer_bytes_used_ a + n))).2
            = s1 ∧
        s1.upload_buffer_ = s.upload_buffer_ ∧
        s1.upload_buffer_size_ = s.upload_buffer_size_ ∧
        s1.stale_buffers_ = s.stale_buffers_ ∧
        (s.upload_buffer_bytes_used_ + a - 1 < 4294967296 →
          offset = round_up s.upload_buffer_bytes_used_ a)) := by
  cases hg : aligned_growth s n a with
  | true =>
    refine ⟨_, _, aligned_grow s n a ha hg, Nat.dvd_zero a, fun _ => rfl, ?_⟩
    intro h
    cases h
  | false =>
    obtain ⟨hdvd, hround⟩ := u32_used_add_padding s.upload_buffer_bytes_used_ a hu ha
    refine ⟨_, _, aligned_fit s n a ha hg, hdvd, ?_, ?_⟩
    · intro h
      cases h
    · intro _
      refine ⟨?_, rfl, rfl, rfl, hround⟩
      rw [inner_allocate_no_growth s n a hg]

/-- C2 witness: the amended claim at the example session after 10 bytes were
allocated, for `allocate_upload_data_aligned(100, 512)`. -/
theorem aligned_offset_is_multiple_witness :
    ∃ offset s1,
      allocate_upload_data_aligned (allocate_upload_data example_session 10).2 100 512
        = .ok (offset, s1) ∧ 512 ∣ offset ∧
      (aligned_growth (allocate_upload_data example_session 10).2 100 512 = true →
        offset = 0) ∧
      (aligned_growth (allocate_upload_data example_session 10).2 100 512 = false →
        (allocate_upload_data (allocate_upload_data example_session 10).2
          (u32 (padding_bytes 10 512 + 100))).2 = s1 ∧
        s1.upload_buffer_ = (allocate_upload_data example_session 10).2.upload_buffer_ ∧
        s1.upload_buffer_size_ = 1048576 ∧
        s1.stale_buffers_ = [] ∧
        (10 + 512 - 1 < 4294967296 → offset = round_up 10 512)) :=
  aligned_offset_is_multiple (allocate_upload_data example_session 10).2 100 512
    (by decide) (by decide)

/-- C2 counterexample: with 10 bytes used in the 1 MiB arena,
`allocate_upload_data_aligned(0, 4294967295)` takes the fitting path
(`bytesUsed + alignment - 1` wraps to 8) and returns offset 0, which is below
`bytesUsed` and not `bytesUsed` rounded up to the next multiple, 4294967295. -/
theorem aligned_offset_is_multiple_counterexample :
    (allocate_upload_data example_session 10).2.upload_buffer_bytes_used_ = 10 ∧
    aligned_growth (allocate_upload_data example_session 10).2 0 4294967295 = false ∧
    (value_of (allocate_upload_data_aligned (allocate_upload_data example_session 10).2
      0 4294967295)).map Prod.fst = some 0 ∧
    round_up 10 4294967295 = 4294967295 := by
  decide

theorem resize_upload_buffer_stale (s : RmlRenderInterface_RT64) (new_size : Nat) (map : Bool) :
    (resize_upload_buffer s new_size map).stale_buffers_
      = s.stale_buffers_ ++ s.upload_buffer_.toList := by
  unfold resize_upload_buffer
  cases s.upload_buffer_ <;> simp

/-- Capacities along an in-range trace with modest alignments never decrease. -/
theorem run_calls_capacity_chain (s : RmlRenderInterface_RT64) (cs : List ArenaCall)
    (hs : s.upload_buffer_size_ < 4294967296)
    (hu : s.upload_buffer_bytes_used_ ≤ s.upload_buffer_size_)
    (hr : calls_satisfy (fun t c => call_in_range t c && alignment_modest t c) s cs = true) :
    (run_calls s cs).length = cs.length ∧
      List.Chain (fun x y => x ≤ y) s.upload_buffer_size_ (capacities (run_calls s cs)) := by
  induction cs generalizing s with
  | nil => exact ⟨rfl, List.Chain.nil⟩
  | cons c cs ih =>
    simp only [calls_satisfy, Bool.and_eq_true] at hr
    obtain ⟨⟨hc, hm⟩, hrest⟩ := hr
    obtain ⟨r, hrun, hs1, hu1, -, hmono⟩ := run_call_in_range s c hs hu hc
    rw [hrun] at hrest
    obtain ⟨hlen, hchain⟩ := ih r.2 hs1 hu1 hrest
    simp only [run_calls, hrun, List.length_cons, hlen, capacities, List.map_cons, true_and]
    exact List.Chain.cons (hmono hm) hchain

/-- C3 (amended): when `allocate_upload_data` or `allocate_upload_data_aligned`
triggers growth and no 32-bit computation wraps around, exactly one buffer is
created and the old one retired, and the capacity becomes
`req + floor(req / 2)` for the requirement `req = bytesUsed + n`, which is at
least `1.5 * req - 0.5`; and across every sequence of in-range calls whose
alignments are at most a third of the current capacity, the capacity never
decreases. -/
theorem growth_capacity :
    (∀ (s : RmlRenderInterface_RT64) (n : Nat),
      s.upload_buffer_bytes_used_ + n > s.upload_buffer_size_ →
      (s.upload_buffer_bytes_used_ + n) + (s.upload_buffer_bytes_used_ + n) / 2 < 4294967296 →
      (allocate_upload_data s n).2.upload_buffer_size_
        = (s.upload_buffer_bytes_used_ + n) + (s.upload_buffer_bytes_used_ + n) / 2 ∧
      3 * (s.upload_buffer_bytes_used_ + n)
        ≤ 2 * (allocate_upload_data s n).2.upload_buffer_size_ + 1 ∧
      (allocate_upload_data s n).2.stale_buffers_
        = s.stale_buffers_ ++ s.upload_buffer_.toList ∧
      (allocate_upload_data s n).2.device.next_id = s.device.next_id + 1) ∧
    (∀ (s : RmlRenderInterface_RT64) (n a : Nat), 0 < a →
      s.upload_buffer_bytes_used_ + a - 1 < 4294967296 →
      round_up s.upload_buffer_bytes_used_ a + n < 4294967296 →
      round_up s.upload_buffer_bytes_used_ a + n > s.upload_buffer_size_ →
      (s.upload_buffer_bytes_used_ + n) + (s.upload_buffer_bytes_used_ + n) / 2 < 4294967296 →
      ∃ r, allocate_upload_data_aligned s n a = .ok r ∧
        r.2.upload_buffer_size_
          = (s.upload_buffer_bytes_used_ + n) + (s.upload_buffer_bytes_used_ + n) / 2 ∧
        3 * (s.upload_buffer_bytes_used_ + n) ≤ 2 * r.2.upload_buffer_size_ + 1 ∧
        r.2.stale_buffers_ = s.stale_buffers_ ++ s.upload_buffer_.toList ∧
        r.2.device.next_id = s.device.next_id + 1) ∧
    (∀ (s : RmlRenderInterface_RT64) (cs : List ArenaCall),
      s.upload_buffer_size_ < 4294967296 →
      s.upload_buffer_bytes_used_ ≤ s.upload_buffer_size_ →
      calls_satisfy (fun t c => call_in_range t c && alignment_modest t c) s cs = true →
      (run_calls s cs).length = cs.length ∧
        List.Chain (fun x y => x ≤ y) s.upload_buffer_size_ (capacities (run_calls s cs))) := by
  refine ⟨?_, ?_, run_calls_capacity_chain⟩
  · intro s n hgrow hr
    rw [allocate_grow s n hgrow hr]
    refine ⟨rfl, ?_, ?_, rfl⟩
    · show _ ≤ 2 * ((s.upload_buffer_bytes_used_ + n)
        + (s.upload_buffer_bytes_used_ + n) / 2) + 1
      omega
    · exact resize_upload_buffer_stale s
        ((s.upload_buffer_bytes_used_ + n) + (s.upload_buffer_bytes_used_ + n) / 2) true
  · intro s n a ha h1 h2 hgrow h3
    refine ⟨_, aligned_grow_in_range s n a ha h1 h2 hgrow h3, rfl, ?_, ?_, rfl⟩
    · show _ ≤ 2 * ((s.upload_buffer_bytes_used_ + n)
        + (s.upload_buffer_bytes_used_ + n) / 2) + 1
      omega
    · exact resize_upload_buffer_stale s
        ((s.upload_buffer_bytes_used_ + n) + (s.upload_buffer_bytes_used_ + n) / 2) true

/-- C3 witness: the three parts of the amended claim at the example session:
`allocate(2000000)` and `allocate_aligned(2000000, 512)` both grow the 1 MiB
arena to 3000000 bytes, and a sequence of calls keeps the capacities ascending. -/
theorem growth_capacity_witness :
    ((allocate_upload_data example_session 2000000).2.upload_buffer_size_ = 3000000 ∧
      3 * 2000000 ≤ 2 * (allocate_upload_data example_session 2000000).2.upload_buffer_size_ + 1 ∧
      (allocate_upload_data example_session 2000000).2.stale_buffers_
        = [] ++ example_session.upload_buffer_.toList ∧
      (allocate_upload_data example_session 2000000).2.device.next_id = 3 + 1) ∧
    (∃ r, allocate_upload_data_aligned example_session 2000000 512 = .ok r ∧
      r.2.upload_buffer_size_ = 3000000 ∧
      3 * 2000000 ≤ 2 * r.2.upload_buffer_size_ + 1 ∧
      r.2.stale_buffers_ = [] ++ example_session.upload_buffer_.toList ∧
      r.2.device.next_id = 3 + 1) ∧
    ((run_calls example_session
        [.allocate 100, .allocate_aligned 50 512, .allocate 2000000, .start 640 480]).length = 4 ∧
      List.Chain (fun x y => x ≤ y) 1048576
        (capacities (run_calls example_session
          [.allocate 100, .allocate_aligned 50 512, .allocate 2000000, .start 640 480]))) :=
  ⟨growth_capacity.1 example_session 2000000 (by decide) (by decide),
   growth_capacity.2.1 example_session 2000000 512 (by decide) (by decide) (by decide)
     (by decide) (by decide),
   growth_capacity.2.2 example_session
     [.allocate 100, .allocate_aligned 50 512, .allocate 2000000, .start 640 480]
     (by decide) (by decide) (by decide)⟩

/-- C3 counterexample: (1) on the fresh 1 MiB arena `allocate(1048577)` grows to
1572865 bytes, less than 1.5 times the requirement 1048577; (2) with one byte
used, `allocate_upload_data_aligned(1, 1048576)` takes the growth path and
shrinks the capacity from 1048576 to 3; (3) after growing to 300000000 bytes,
`allocate(3000000000)` wraps the new size and shrinks the capacity to 205032704. -/
theorem growth_capacity_counterexample :
    ((allocate_upload_data example_session 1048577).2.upload_buffer_size_ = 1572865 ∧
      2 * 1572865 < 3 * 1048577) ∧
    capacities (run_calls example_session [.allocate 1, .allocate_aligned 1 1048576])
      = [1048576, 3] ∧
    capacities (run_calls example_session
        [.allocate 200000000, .start 640 480, .allocate 3000000000])
      = [300000000, 300000000, 205032704] := by
  decide

/-- C4: for every arena state (capacity a 32-bit value) and `n` with
`bytesUsed + n ≤ capacity`, `allocate_upload_data(n)` returns the old
`bytesUsed` and changes nothing in the state but `bytesUsed`, which becomes the
old `bytesUsed + n`; capacity and retirement list are unchanged. -/
theorem allocate_within_capacity (s : RmlRenderInterface_RT64) (n : Nat)
    (hs : s.upload_buffer_size_ < 4294967296)
    (hfit : s.upload_buffer_bytes_used_ + n ≤ s.upload_buffer_size_) :
    allocate_upload_data s n
        = (s.upload_buffer_bytes_used_,
           { s with upload_buffer_bytes_used_ := s.upload_buffer_bytes_used_ + n }) ∧
      (allocate_upload_data s n).2.upload_buffer_size_ = s.upload_buffer_size_ ∧
      (allocate_upload_data s n).2.stale_buffers_ = s.stale_buffers_ := by
  rw [allocate_fit s n hs hfit]
  exact ⟨rfl, rfl, rfl⟩

/-- C4 witness: on the fresh 1024-byte arena `allocate(100)` gives offset 0 and
leaves 100 bytes used; then `allocate(50)` gives offset 100 and leaves 150 used. -/
theorem allocate_within_capacity_witness :
    (allocate_upload_data arena_1024 100
        = (0, { arena_1024 with upload_buffer_bytes_used_ := 100 }) ∧
      (allocate_upload_data arena_1024 100).2.upload_buffer_size_ = 1024 ∧
      (allocate_upload_data arena_1024 100).2.stale_buffers_ = []) ∧
    (allocate_upload_data { arena_1024 with upload_buffer_bytes_used_ := 100 } 50
        = (100, { arena_1024 with upload_buffer_bytes_used_ := 150 }) ∧
      (allocate_upload_data { arena_1024 with upload_buffer_bytes_used_ := 100 } 50).2.upload_buffer_size_
        = 1024 ∧
      (allocate_upload_data { arena_1024 with upload_buffer_bytes_used_ := 100 } 50).2.stale_buffers_
        = []) :=
  ⟨allocate_within_capacity arena_1024 100 (by decide) (by decide),
   allocate_within_capacity { arena_1024 with upload_buffer_bytes_used_ := 100 } 50
     (by decide) (by decide)⟩

/-- C5 (amended): when a request does not fit (`bytesUsed + n > capacity` for
`allocate_upload_data`; `bytesUsed + padding + n > capacity` for
`allocate_upload_data_aligned`) and no 32-bit computation wraps around, the call
grows the arena to `1.5 * (bytesUsed + n)` rounded down, appends the old buffer
to the retirement list, returns offset 0 and leaves `bytesUsed` equal to `n`. -/
theorem growth_on_unfitting_request :
    (∀ (s : RmlRenderInterface_RT64) (n : Nat) (b : RenderBuffer),
      s.upload_buffer_ = some b →
      s.upload_buffer_bytes_used_ + n > s.upload_buffer_size_ →
      (s.upload_buffer_bytes_used_ + n) + (s.upload_buffer_bytes_used_ + n) / 2 < 4294967296 →
      (allocate_upload_data s n).1 = 0 ∧
      (allocate_upload_data s n).2.upload_buffer_size_
        = 3 * (s.upload_buffer_bytes_used_ + n) / 2 ∧
      (allocate_upload_data s n).2.stale_buffers_ = s.stale_buffers_ ++ [b] ∧
      (allocate_upload_data s n).2.upload_buffer_bytes_used_ = n) ∧
    (∀ (s : RmlRenderInterface_RT64) (n a : Nat) (b : RenderBuffer),
      s.upload_buffer_ = some b → 0 < a →
      s.upload_buffer_bytes_used_ + a - 1 < 4294967296 →
      round_up s.upload_buffer_bytes_used_ a + n < 4294967296 →
      s.upload_buffer_bytes_used_ + (round_up s.upload_buffer_bytes_used_ a
        - s.upload_buffer_bytes_used_) + n > s.upload_buffer_size_ →
      (s.upload_buffer_bytes_used_ + n) + (s.upload_buffer_bytes_used_ + n) / 2 < 4294967296 →
      ∃ r, allocate_upload_data_aligned s n a = .ok r ∧
        r.1 = 0 ∧
        r.2.upload_buffer_size_ = 3 * (s.upload_buffer_bytes_used_ + n) / 2 ∧
        r.2.stale_buffers_ = s.stale_buffers_ ++ [b] ∧
        r.2.upload_buffer_bytes_used_ = n) := by
  constructor
  · intro s n b hb hgrow hr
    rw [allocate_grow s n hgrow hr]
    refine ⟨rfl, ?_, ?_, rfl⟩
    · show (s.upload_buffer_bytes_used_ + n) + (s.upload_buffer_bytes_used_ + n) / 2 = _
      omega
    · have h := resize_upload_buffer_stale s
        ((s.upload_buffer_bytes_used_ + n) + (s.upload_buffer_bytes_used_ + n) / 2) true
      rw [hb] at h
      exact h
  · intro s n a b hb ha h1 h2 hgrow hr
    have hbound := round_up_bounds s.upload_buffer_bytes_used_ a ha
    have hgrow2 : round_up s.upload_buffer_bytes_used_ a + n > s.upload_buffer_size_ := by
      omega
    refine ⟨_, aligned_grow_in_range s n a ha h1 h2 hgrow2 hr, rfl, ?_, ?_, rfl⟩
    · show (s.upload_buffer_bytes_used_ + n) + (s.upload_buffer_bytes_used_ + n) / 2 = _
      omega
    · have h := resize_upload_buffer_stale s
        ((s.upload_buffer_bytes_used_ + n) + (s.upload_buffer_bytes_used_ + n) / 2) true
      rw [hb] at h
      exact h

/-- C5 witness: on the 1024-byte arena with 900 bytes used, `allocate(200)` and
`allocate_aligned(200, 512)` both return offset 0, grow the capacity to 1650,
retire the old buffer and leave 200 bytes used. -/
theorem growth_on_unfitting_request_witness :
    (allocate_upload_data arena_1024 900).2.upload_buffer_bytes_used_ = 900 ∧
    ((allocate_upload_data (allocate_upload_data arena_1024 900).2 200).1 = 0 ∧
      (allocate_upload_data (allocate_upload_data arena_1024 900).2 200).2.upload_buffer_size_
        = 1650 ∧
      (allocate_upload_data (allocate_upload_data arena_1024 900).2 200).2.stale_buffers_
        = [] ++ [RenderBuffer.mk 0 BufferKind.upload 1024] ∧
      (allocate_upload_data (allocate_upload_data arena_1024 900).2 200).2.upload_buffer_bytes_used_
        = 200) ∧
    (∃ r, allocate_upload_data_aligned (allocate_upload_data arena_1024 900).2 200 512 = .ok r ∧
      r.1 = 0 ∧
      r.2.upload_buffer_size_ = 1650 ∧
      r.2.stale_buffers_ = [] ++ [RenderBuffer.mk 0 BufferKind.upload 1024] ∧
      r.2.upload_buffer_bytes_used_ = 200) :=
  ⟨by decide,
   growth_on_unfitting_request.1 (allocate_upload_data arena_1024 900).2 200
     (RenderBuffer.mk 0 BufferKind.upload 1024) (by decide) (by decide) (by decide),
   growth_on_unfitting_request.2 (allocate_upload_data arena_1024 900).2 200 512
     (RenderBuffer.mk 0 BufferKind.upload 1024) (by decide) (by decide) (by decide) (by decide)
     (by decide) (by decide)⟩

/-- C5 counterexample: (1) with one byte used in the 1 MiB arena,
`allocate(4294967295)` does not fit (`bytesUsed + n = 2^32`), yet `total_bytes`
wraps to zero: the call returns offset 1, keeps the capacity, retires nothing
and leaves zero bytes used; (2) `allocate(1048577)` on the fresh arena grows to
1572865, which is not 1.5 times 1048577. -/
theorem growth_on_unfitting_request_counterexample :
    ((allocate_upload_data example_session 1).2.upload_buffer_bytes_used_ + 4294967295
        > (allocate_upload_data example_session 1).2.upload_buffer_size_ ∧
      (allocate_upload_data (allocate_upload_data example_session 1).2 4294967295).1 = 1 ∧
      (allocate_upload_data (allocate_upload_data example_session 1).2
        4294967295).2.upload_buffer_size_ = 1048576 ∧
      (allocate_upload_data (allocate_upload_data example_session 1).2
        4294967295).2.stale_buffers_ = [] ∧
      (allocate_upload_data (allocate_upload_data example_session 1).2
        4294967295).2.upload_buffer_bytes_used_ = 0) ∧
    ((allocate_upload_data example_session 1048577).2.upload_buffer_size_ = 1572865 ∧
      2 * 1572865 ≠ 3 * 1048577) := by
  decide

/-! ## Decoder claims -/

theorem read_byte_of_lt (file_data : List Nat) (i : Nat) (h : i < file_data.length) :
    read_byte file_data i = .ok (byte_at file_data i) := by
  simp [read_byte, byte_at, List.getD, List.getElem?_eq_getElem h]

theorem from_bytes_le_u16_of_lt (file_data : List Nat) (i : Nat) (h : i + 1 < file_data.length) :
    from_bytes_le_u16 file_data i = .ok (le16_at file_data i) := by
  simp [from_bytes_le_u16, le16_at, read_byte_of_lt file_data i (by omega),
    read_byte_of_lt file_data (i + 1) h]

/-- The state in which `LoadTexture` calls `create_texture` once the header
checks up to the bit depth have passed: the descriptor diagnostics printed, the
handle counter advanced. -/
theorem LoadTexture_of_header (pw : PointerWidth) (s : RmlRenderInterface_RT64)
    (file_data : List Nat) (hlen : 18 ≤ file_data.length) :
    LoadTexture pw s ".tga" file_data =
      if byte_at file_data 0 ≠ 0 then
        .ok (load_failed, print s "  Nonzero ID length not supported\n")
      else if byte_at file_data 1 ≠ 0 then
        .ok (load_failed, print s "  Color maps not supported\n")
      else if byte_at file_data 2 ≠ 2 then
        .ok (load_failed, print s "  Only uncompressed tga files supported\n")
      else if le16_at file_data 8 ≠ 0 ∨ le16_at file_data 10 ≠ 0 then
        .ok (load_failed, print s "  Nonzero origin not supported\n")
      else if byte_at file_data 16 ≠ 32 then
        .ok (load_failed, print s "  Only 32bpp images supported\n")
      else
        match create_texture pw
            (take_texture_handle pw (check_descriptor s (byte_at file_data 17))).2
            (take_texture_handle pw (check_descriptor s (byte_at file_data 17))).1
            (file_source file_data 18) (le16_at file_data 12) (le16_at file_data 14) true with
        | .error f => .error f
        | .ok created =>
          .ok (LoadTextureResult.mk true
            (some (take_texture_handle pw (check_descriptor s (byte_at file_data 17))).1)
            (some (le16_at file_data 12, le16_at file_data 14)), created.2) := by
  have hne : file_data.isEmpty = false := by
    cases file_data with
    | nil => simp at hlen
    | cons x xs => rfl
  simp only [LoadTexture, hne, read_byte_of_lt file_data 0 (by omega),
    read_byte_of_lt file_data 1 (by omega), read_byte_of_lt file_data 2 (by omega),
    read_byte_of_lt file_data 16 (by omega), read_byte_of_lt file_data 17 (by omega),
    from_bytes_le_u16_of_lt file_data 8 (by omega), from_bytes_le_u16_of_lt file_data 10 (by omega),
    from_bytes_le_u16_of_lt file_data 12 (by omega),
    from_bytes_le_u16_of_lt file_data 14 (by omega), bind, Except.bind, pure, Except.pure,
    if_true]
  simp only [Bool.false_eq_true, if_false]
  split_ifs <;> first | rfl | (split <;> simp_all)

/-- C6: for every `.tga` file of at least 18 bytes, `LoadTexture` fails with the
diagnostic of the first violated check among: id length (byte 0) nonzero,
colour-map type (byte 1) nonzero, image type (byte 2) other than 2, origin X
(bytes 8-9) or origin Y (bytes 10-11) nonzero, bits per pixel (byte 16) other
than 32; the five diagnostics are pairwise distinct; and whenever one of the
conditions holds the call returns `false`, prints exactly one of them, creates
no texture and leaves the handle counter unchanged. -/
theorem load_texture_rejects_header (pw : PointerWidth) (s : RmlRenderInterface_RT64)
    (file_data : List Nat) (hlen : 18 ≤ file_data.length) :
    (byte_at file_data 0 ≠ 0 →
      LoadTexture pw s ".tga" file_data
        = .ok (load_failed, print s "  Nonzero ID length not supported\n")) ∧
    (byte_at file_data 0 = 0 → byte_at file_data 1 ≠ 0 →
      LoadTexture pw s ".tga" file_data
        = .ok (load_failed, print s "  Color maps not supported\n")) ∧
    (byte_at file_data 0 = 0 → byte_at file_data 1 = 0 → byte_at file_data 2 ≠ 2 →
      LoadTexture pw s ".tga" file_data
        = .ok (load_failed, print s "  Only uncompressed tga files supported\n")) ∧
    (byte_at file_data 0 = 0 → byte_at file_data 1 = 0 → byte_at file_data 2 = 2 →
      (le16_at file_data 8 ≠ 0 ∨ le16_at file_data 10 ≠ 0) →
      LoadTexture pw s ".tga" file_data
        = .ok (load_failed, print s "  Nonzero origin not supported\n")) ∧
    (byte_at file_data 0 = 0 → byte_at file_data 1 = 0 → byte_at file_data 2 = 2 →
      le16_at file_data 8 = 0 → le16_at file_data 10 = 0 → byte_at file_data 16 ≠ 32 →
      LoadTexture pw s ".tga" file_data
        = .ok (load_failed, print s "  Only 32bpp images supported\n")) ∧
    header_diagnostics.Nodup ∧
    ((byte_at file_data 0 ≠ 0 ∨ byte_at file_data 1 ≠ 0 ∨ byte_at file_data 2 ≠ 2 ∨
        le16_at file_data 8 ≠ 0 ∨ le16_at file_data 10 ≠ 0 ∨ byte_at file_data 16 ≠ 32) →
      ∃ line ∈ header_diagnostics, ∃ r, LoadTexture pw s ".tga" file_data = .ok r ∧
        r.1.ok = false ∧ r.2.stdout = s.stdout ++ [line] ∧
        r.2.textures_ = s.textures_ ∧ r.2.texture_count_ = s.texture_count_ ∧
        r.2.device.next_id = s.device.next_id) := by
  have hL := LoadTexture_of_header pw s file_data hlen
  refine ⟨?_, ?_, ?_, ?_, ?_, by decide, ?_⟩
  · intro h0
    rw [hL, if_pos h0]
  · intro h0 h1
    rw [hL, if_neg (by simp [h0]), if_pos h1]
  · intro h0 h1 h2
    rw [hL, if_neg (by simp [h0]), if_neg (by simp [h1]), if_pos h2]
  · intro h0 h1 h2 ho
    rw [hL, if_neg (by simp [h0]), if_neg (by simp [h1]), if_neg (by simp [h2]), if_pos ho]
  · intro h0 h1 h2 hx hy hd
    rw [hL, if_neg (by simp [h0]), if_neg (by simp [h1]), if_neg (by simp [h2]),
      if_neg (by simp [hx, hy]), if_pos hd]
  · intro hbad
    rw [hL]
    by_cases h0 : byte_at file_data 0 ≠ 0
    · rw [if_pos h0]
      exact ⟨_, by simp [header_diagnostics], _, rfl, rfl, rfl, rfl, rfl, rfl⟩
    rw [if_neg h0]
    by_cases h1 : byte_at file_data 1 ≠ 0
    · rw [if_pos h1]
      exact ⟨_, by simp [header_diagnostics], _, rfl, rfl, rfl, rfl, rfl, rfl⟩
    rw [if_neg h1]
    by_cases h2 : byte_at file_data 2 ≠ 2
    · rw [if_pos h2]
      exact ⟨_, by simp [header_diagnostics], _, rfl, rfl, rfl, rfl, rfl, rfl⟩
    rw [if_neg h2]
    by_cases ho : le16_at file_data 8 ≠ 0 ∨ le16_at file_data 10 ≠ 0
    · rw [if_pos ho]
      exact ⟨_, by simp [header_diagnostics], _, rfl, rfl, rfl, rfl, rfl, rfl⟩
    rw [if_neg ho]
    by_cases hd : byte_at file_data 16 ≠ 32
    · rw [if_pos hd]
      exact ⟨_, by simp [header_diagnostics], _, rfl, rfl, rfl, rfl, rfl, rfl⟩
    exfalso
    rcases hbad with h | h | h | h | h | h
    · exact h0 h
    · exact h1 h
    · exact h2 h
    · exact ho (Or.inl h)
    · exact ho (Or.inr h)
    · exact hd h

/-- C6 witness: the 20×10 container of the spec's example with its colour-map
byte set to 1 is rejected with "Color maps not supported". -/
theorem load_texture_rejects_header_witness :
    18 ≤ (tga_file 0 1 2 0 0 20 10 32 8 (List.replicate 800 255)).length ∧
    LoadTexture PointerWidth.bits64 example_session ".tga"
        (tga_file 0 1 2 0 0 20 10 32 8 (List.replicate 800 255))
      = .ok (load_failed, print example_session "  Color maps not supported\n") :=
  ⟨by simp only [tga_file, List.length_append, List.length_cons, List.length_nil,
      List.length_replicate]; decide,
   (load_texture_rejects_header PointerWidth.bits64 example_session
      (tga_file 0 1 2 0 0 20 10 32 8 (List.replicate 800 255))
      (by simp only [tga_file, List.length_append, List.length_cons, List.length_nil,
        List.length_replicate]; decide)).2.1
      (by decide) (by decide)⟩

/-- C7 (evaluation at the failing inputs): a 1×1 file whose header is valid
except for descriptor byte 0 (alpha depth 0), and one with descriptor byte 40
(alpha depth 8, bit 5 set: top-to-bottom rows), are both accepted: `LoadTexture`
prints the diagnostic, returns `true`, registers texture handle 1 and advances
the handle counter to 2. -/
theorem load_texture_accepts_bad_descriptor :
    (value_of (LoadTexture PointerWidth.bits64 example_session ".tga"
        (tga_file 0 0 2 0 0 1 1 32 0 [1, 2, 3, 4]))).map
      (fun r => (r.1, r.2.stdout, r.2.textures_.map Prod.fst, r.2.texture_count_))
      = some (LoadTextureResult.mk true (some 1) (some (1, 1)),
          ["  Only 8bpp alpha supported\n"], [1], 2) ∧
    (value_of (LoadTexture PointerWidth.bits64 example_session ".tga"
        (tga_file 0 0 2 0 0 1 1 32 40 [1, 2, 3, 4]))).map
      (fun r => (r.1, r.2.stdout, r.2.textures_.map Prod.fst, r.2.texture_count_))
      = some (LoadTextureResult.mk true (some 1) (some (1, 1)),
          ["  Only bottom-to-top, left-to-right pixel order supported\n"], [1], 2) := by
  decide

/-! ## Staging copy lemmas -/

theorem memory_frame_refl (s : RmlRenderInterface_RT64) : memory_frame s s := rfl

theorem memory_frame_trans {s s1 s2 : RmlRenderInterface_RT64}
    (h1 : memory_frame s s1) (h2 : memory_frame s1 s2) : memory_frame s s2 := by
  unfold memory_frame at *
  rw [h2, h1]

theorem source_readable_iff (source : Nat → Option Nat) (src n : Nat) :
    source_readable source src n = true ↔ ∀ i, i < n → (source (src + i)).isSome = true := by
  simp [source_readable]

theorem source_readable_sub (source : Nat → Option Nat) (total src n : Nat)
    (h : source_readable source 0 total = true) (hle : src + n ≤ total) :
    source_readable source src n = true := by
  rw [source_readable_iff] at *
  intro i hi
  have := h (src + i) (by omega)
  simpa using this

theorem memcpy_ok (s : RmlRenderInterface_RT64) (dst : Nat) (source : Nat → Option Nat)
    (src n : Nat) (hmap : n = 0 ∨ s.upload_buffer_mapped_data_ = true)
    (hread : source_readable source src n = true)
    (hdst : dst + n ≤ s.upload_buffer_size_) :
    ∃ s1, memcpy s dst source src n = .ok s1 ∧ memory_frame s s1 ∧
      ∀ a, s1.upload_memory a
        = if dst ≤ a ∧ a < dst + n then (source (src + (a - dst))).getD 0
          else s.upload_memory a := by
  by_cases hn : n = 0
  · refine ⟨s, by simp [memcpy, hn], memory_frame_refl s, ?_⟩
    intro a
    have : ¬ (dst ≤ a ∧ a < dst + n) := by omega
    rw [if_neg this]
  · have hm : s.upload_buffer_mapped_data_ = true := by
      rcases hmap with h | h
      · exact absurd h hn
      · exact h
    have hd : ¬ (dst + n > s.upload_buffer_size_) := by omega
    refine ⟨{ s with
      upload_memory := fun a =>
        if dst ≤ a ∧ a < dst + n then (source (src + (a - dst))).getD 0
        else s.upload_memory a }, ?_, rfl, fun a => rfl⟩
    unfold memcpy
    rw [if_neg hn, if_neg (by simp [hm]), if_neg (by simp [hread]), if_neg hd]

theorem row_width_padding (rp : Nat) (h : rp + 255 < 4294967296) :
    (CalculateTextureRowWidthPadding rp).1 = rp + (CalculateTextureRowWidthPadding rp).2 ∧
    (CalculateTextureRowWidthPadding rp).1 % 256 = 0 ∧
    (CalculateTextureRowWidthPadding rp).2 < 256 ∧
    ((CalculateTextureRowWidthPadding rp).2 = 0 ↔ rp % 256 = 0) := by
  unfold CalculateTextureRowWidthPadding u32_sub u32
  by_cases h0 : rp % 256 = 0
  · simp only [h0, ne_eq, not_true_eq_false, if_false]
    refine ⟨by omega, by omega, by omega, by simp⟩
  · simp only [ne_eq, h0, not_false_eq_true, if_true]
    refine ⟨by omega, by omega, by omega, ?_⟩
    constructor
    · intro h1
      omega
    · intro h1
      exact absurd h1 (by simp)

/-- The padded row loop: if the source offsets follow `f` and each row is
readable, every destination row `j` receives the row at `f j`, and nothing
outside the destination region changes. -/
theorem padded_rows_ok (pw : PointerWidth) (source : Nat → Option Nat)
    (row_pitch row_byte_width src_stride : Nat) (hrp : row_pitch ≤ row_byte_width) :
    ∀ (count dst_data src_data : Nat) (s : RmlRenderInterface_RT64) (f : Nat → Nat),
      (0 < count → f 0 = src_data) →
      (∀ j, j + 1 < count → pointer_add pw (f j) src_stride = f (j + 1)) →
      (row_pitch = 0 ∨ s.upload_buffer_mapped_data_ = true) →
      (∀ j, j < count → source_readable source (f j) row_pitch = true) →
      dst_data + row_byte_width * count ≤ s.upload_buffer_size_ →
      ∃ s1, padded_rows pw source row_pitch row_byte_width src_stride count dst_data src_data s
          = .ok s1 ∧ memory_frame s s1 ∧
        (∀ j, j < count → ∀ i, i < row_pitch →
          s1.upload_memory (dst_data + row_byte_width * j + i)
            = (source (f j + i)).getD 0) ∧
        (∀ a, a < dst_data ∨ dst_data + row_byte_width * count ≤ a →
          s1.upload_memory a = s.upload_memory a) := by
  intro count
  induction count with
  | zero =>
    intro dst_data src_data s f _ _ _ _ _
    refine ⟨s, rfl, memory_frame_refl s, ?_, fun a _ => rfl⟩
    intro j hj
    omega
  | succ count ih =>
    intro dst_data src_data s f hf0 hstep hmap hread hdst
    have hmul : row_byte_width * (count + 1) = row_byte_width * count + row_byte_width :=
      Nat.mul_succ _ _
    have hsrc : f 0 = src_data := hf0 (Nat.succ_pos _)
    obtain ⟨s1, hcopy, hframe1, hmem1⟩ := memcpy_ok s dst_data source src_data row_pitch hmap
      (by rw [← hsrc]; exact hread 0 (Nat.succ_pos _)) (by omega)
    have hsize1 : s1.upload_buffer_size_ = s.upload_buffer_size_ := by
      rw [hframe1]
    have hmap1 : row_pitch = 0 ∨ s1.upload_buffer_mapped_data_ = true := by
      rw [hframe1]; exact hmap
    obtain ⟨s2, hrest, hframe2, hrows2, hout2⟩ :=
      ih (dst_data + row_byte_width) (pointer_add pw src_data src_stride) s1
        (fun j => f (j + 1))
        (fun hc => by rw [← hsrc]; exact (hstep 0 (by omega)).symm)
        (fun j hj => hstep (j + 1) (by omega))
        hmap1
        (fun j hj => hread (j + 1) (by omega))
        (by rw [hsize1]; omega)
    refine ⟨s2, ?_, memory_frame_trans hframe1 hframe2, ?_, ?_⟩
    · simp only [padded_rows, hcopy, hrest]
    · intro j hj i hi
      cases j with
      | zero =>
        rw [hout2 _ (Or.inl (by omega)), hmem1, if_pos (by omega), hsrc]
        congr 2
        omega
      | succ j =>
        have hmulj : row_byte_width * (j + 1) = row_byte_width * j + row_byte_width :=
          Nat.mul_succ _ _
        have := hrows2 j (by omega) i hi
        rw [← this]
        congr 1
        omega
    · intro a ha
      rw [hout2 a (by omega), hmem1, if_neg (by omega)]

/-- The flipped, unpadded row loop: destination row `height - 1 - r` receives
source row `r`, and nothing outside the destination region changes. -/
theorem flipped_rows_ok (source : Nat → Option Nat) (dst_data row_byte_width height : Nat)
    (hh : height < 4294967296) (hN : row_byte_width * height < 4294967296)
    (hread : source_readable source 0 (row_byte_width * height) = true) :
    ∀ (count row : Nat) (s : RmlRenderInterface_RT64),
      row + count = height →
      (row_byte_width = 0 ∨ s.upload_buffer_mapped_data_ = true) →
      dst_data + row_byte_width * height ≤ s.upload_buffer_size_ →
      ∃ s1, flipped_rows source dst_data row_byte_width height count row s = .ok s1 ∧
        memory_frame s s1 ∧
        (∀ r, row ≤ r → r < height → ∀ i, i < row_byte_width →
          s1.upload_memory (dst_data + row_byte_width * (height - 1 - r) + i)
            = (source (row_byte_width * r + i)).getD 0) ∧
        (∀ a, a < dst_data ∨ dst_data + row_byte_width * (height - row) ≤ a →
          s1.upload_memory a = s.upload_memory a) := by
  intro count
  induction count with
  | zero =>
    intro row s hrow _ _
    refine ⟨s, rfl, memory_frame_refl s, ?_, fun a _ => rfl⟩
    intro r h1 h2
    omega
  | succ count ih =>
    intro row s hrow hmap hdst
    have hlt : row < height := by omega
    have e1 : u32_sub (u32_sub height row) 1 = height - 1 - row := by
      unfold u32_sub u32
      omega
    have hle1 : row_byte_width * (height - 1 - row) + row_byte_width
        = row_byte_width * (height - row) := by
      have e : height - row = (height - 1 - row) + 1 := by omega
      rw [e, Nat.mul_succ]
    have hle2 : row_byte_width * (height - row) ≤ row_byte_width * height :=
      Nat.mul_le_mul_left _ (by omega)
    have hle3 : row_byte_width * row + row_byte_width ≤ row_byte_width * height := by
      rw [← Nat.mul_succ]
      exact Nat.mul_le_mul_left _ (by omega)
    have hnext : row_byte_width * (height - (row + 1)) = row_byte_width * (height - 1 - row) := by
      have e : height - (row + 1) = height - 1 - row := by omega
      rw [e]
    have e2 : u32 (row_byte_width * (height - 1 - row)) = row_byte_width * (height - 1 - row) :=
      u32_of_lt (by omega)
    have e3 : u32 (row_byte_width * row) = row_byte_width * row := u32_of_lt (by omega)
    obtain ⟨s1, hcopy, hframe1, hmem1⟩ := memcpy_ok s
      (dst_data + row_byte_width * (height - 1 - row)) source (row_byte_width * row)
      row_byte_width hmap (source_readable_sub source _ _ _ hread hle3) (by omega)
    have hsize1 : s1.upload_buffer_size_ = s.upload_buffer_size_ := by
      rw [hframe1]
    have hmap1 : row_byte_width = 0 ∨ s1.upload_buffer_mapped_data_ = true := by
      rw [hframe1]; exact hmap
    obtain ⟨s2, hrest, hframe2, hrows2, hout2⟩ :=
      ih (row + 1) s1 (by omega) hmap1 (by rw [hsize1]; exact hdst)
    refine ⟨s2, ?_, memory_frame_trans hframe1 hframe2, ?_, ?_⟩
    · simp only [flipped_rows, e1, e2, e3, hcopy, hrest]
    · intro r hr1 hr2 i hi
      by_cases hr : r = row
      · subst hr
        rw [hout2 _ (Or.inr (by omega)), hmem1, if_pos (by omega)]
        have e : row_byte_width * r
            + (dst_data + row_byte_width * (height - 1 - r) + i
              - (dst_data + row_byte_width * (height - 1 - r)))
            = row_byte_width * r + i := by omega
        rw [e]
      · exact hrows2 r (by omega) hr2 i hi
    · intro a ha
      rw [hout2 a (by omega), hmem1, if_neg (by omega)]

/-- The copy of `create_texture` when nothing wraps around: destination row `r`
receives source row `r` (or `height - 1 - r` when flipped).  A flipped copy with
row padding is covered for a single row or 32-bit pointers. -/
theorem copy_pixels_ok (pw : PointerWidth) (s : RmlRenderInterface_RT64)
    (offset : Nat) (source : Nat → Option Nat) (width height : Nat) (flip_y : Bool)
    (hw : width * 4 + 255 < 4294967296) (hh : height < 4294967296)
    (hN : (CalculateTextureRowWidthPadding (width * 4)).1 * height < 4294967296)
    (hmap : s.upload_buffer_mapped_data_ = true)
    (hdst : offset + (CalculateTextureRowWidthPadding (width * 4)).1 * height
      ≤ s.upload_buffer_size_)
    (hread : source_readable source 0 (width * 4 * height) = true)
    (hflip : flip_y = true →
      (CalculateTextureRowWidthPadding (width * 4)).2 = 0 ∨ height ≤ 1 ∨
        pw = PointerWidth.bits32) :
    ∃ s1, copy_pixels pw s offset source width height flip_y = .ok s1 ∧ memory_frame s s1 ∧
      (∀ r, r < height → ∀ i, i < width * 4 →
        s1.upload_memory (offset + (CalculateTextureRowWidthPadding (width * 4)).1 * r + i)
          = (source (width * 4 * (if flip_y = true then height - 1 - r else r) + i)).getD 0) ∧
      (∀ a, a < offset ∨
          offset + (CalculateTextureRowWidthPadding (width * 4)).1 * height ≤ a →
        s1.upload_memory a = s.upload_memory a) := by
  obtain ⟨hsum, -, hpadlt, hpad0⟩ := row_width_padding (width * 4) hw
  have hrp : u32 (width * 4) = width * 4 := u32_of_lt (by omega)
  have hrple : width * 4 ≤ (CalculateTextureRowWidthPadding (width * 4)).1 := by omega
  have hmulle : width * 4 * height
      ≤ (CalculateTextureRowWidthPadding (width * 4)).1 * height :=
    Nat.mul_le_mul_right _ hrple
  by_cases hpad : (CalculateTextureRowWidthPadding (width * 4)).2 = 0
  · -- no padding: the padded row width is the row pitch
    have hrbw : (CalculateTextureRowWidthPadding (width * 4)).1 = width * 4 := by omega
    rw [hrbw] at hN hdst ⊢
    cases flip_y with
    | true =>
      obtain ⟨s1, hrun, hframe, hrows, hout⟩ :=
        flipped_rows_ok source offset (width * 4) height hh hN hread height 0 s
          (by omega) (Or.inr hmap) hdst
      refine ⟨s1, ?_, hframe, ?_, ?_⟩
      · simp only [copy_pixels, RmlTextureFormatBytesPerPixel, hrp, hpad, hrbw, if_true]
        exact hrun
      · intro r hr i hi
        have := hrows (height - 1 - r) (Nat.zero_le _) (by omega) i hi
        have e : height - 1 - (height - 1 - r) = r := by omega
        rw [e] at this
        simpa using this
      · intro a ha
        exact hout a (by simpa using ha)
    | false =>
      have himg : u32 (width * height * 4) = width * 4 * height := by
        have e : width * height * 4 = width * 4 * height := by ring
        rw [e]
        exact u32_of_lt hN
      obtain ⟨s1, hrun, hframe, hmem⟩ := memcpy_ok s offset source 0 (width * 4 * height)
        (Or.inr hmap) hread hdst
      refine ⟨s1, ?_, hframe, ?_, ?_⟩
      · simp only [copy_pixels, RmlTextureFormatBytesPerPixel, hrp, hpad, himg, if_true]
        exact hrun
      · intro r hr i hi
        have hle : width * 4 * r + width * 4 ≤ width * 4 * height := by
          rw [← Nat.mul_succ]
          exact Nat.mul_le_mul_left _ (by omega)
        rw [hmem, if_pos (by omega)]
        have e : 0 + (offset + width * 4 * r + i - offset) = width * 4 * r + i := by omega
        rw [e]
        simp
      · intro a ha
        rw [hmem, if_neg (by omega)]
  · -- padding: row by row
    have hstart : ∀ k, k < height → width * 4 * k + width * 4 ≤ width * 4 * height := by
      intro k hk
      rw [← Nat.mul_succ]
      exact Nat.mul_le_mul_left _ (by omega)
    have hmod : (4294967296 : Nat) ≤ pw.modulus := by
      cases pw <;> decide
    cases flip_y with
    | false =>
      obtain ⟨s1, hrun, hframe, hrows, hout⟩ :=
        padded_rows_ok pw source (width * 4) (CalculateTextureRowWidthPadding (width * 4)).1
          (width * 4) hrple height offset 0 s (fun j => width * 4 * j)
          (fun _ => by simp)
          (fun j hj => by
            have := hstart (j + 1) hj
            have e : width * 4 * (j + 1) = width * 4 * j + width * 4 := Nat.mul_succ _ _
            show (width * 4 * j + width * 4) % pw.modulus = width * 4 * (j + 1)
            rw [Nat.mod_eq_of_lt (by omega), e])
          (Or.inr hmap)
          (fun j hj => source_readable_sub source _ _ _ hread (hstart j hj))
          hdst
      refine ⟨s1, ?_, hframe, ?_, hout⟩
      · simp only [copy_pixels, RmlTextureFormatBytesPerPixel, hrp, hpad, if_false]
        exact hrun
      · intro r hr i hi
        simpa using hrows r hr i hi
    | true =>
      have hcases : height ≤ 1 ∨ pw = PointerWidth.bits32 := by
        rcases hflip rfl with h | h
        · exact absurd h hpad
        · exact h
      have hsrc0 : 0 < height →
          pointer_add pw 0 (u32 (width * 4 * u32_sub height 1)) = width * 4 * (height - 1) := by
        intro hpos
        have e1 : u32_sub height 1 = height - 1 := by
          unfold u32_sub u32
          omega
        have := hstart (height - 1) (by omega)
        rw [e1, u32_of_lt (by omega)]
        show (0 + width * 4 * (height - 1)) % pw.modulus = _
        rw [Nat.mod_eq_of_lt (by omega)]
        omega
      obtain ⟨s1, hrun, hframe, hrows, hout⟩ :=
        padded_rows_ok pw source (width * 4) (CalculateTextureRowWidthPadding (width * 4)).1
          (u32_neg (width * 4)) hrple height offset
          (pointer_add pw 0 (u32 (width * 4 * u32_sub height 1))) s
          (fun j => width * 4 * (height - 1 - j))
          (fun hpos => by
            show width * 4 * (height - 1 - 0) = _
            rw [hsrc0 hpos, Nat.sub_zero])
          (fun j hj => by
            rcases hcases with h1 | h32
            · omega
            · subst h32
              have h1 := hstart (height - 1 - j) (by omega)
              have h2 : width * 4 * (height - 1 - j)
                  = width * 4 * (height - 1 - (j + 1)) + width * 4 := by
                have e : height - 1 - j = (height - 1 - (j + 1)) + 1 := by omega
                rw [e, Nat.mul_succ]
              show (width * 4 * (height - 1 - j) + u32_neg (width * 4)) % 4294967296
                = width * 4 * (height - 1 - (j + 1))
              unfold u32_neg u32
              omega)
          (Or.inr hmap)
          (fun j hj => source_readable_sub source _ _ _ hread (hstart (height - 1 - j) (by omega)))
          hdst
      refine ⟨s1, ?_, hframe, ?_, hout⟩
      · simp only [copy_pixels, RmlTextureFormatBytesPerPixel, hrp, hpad, if_false, if_true]
        exact hrun
      · intro r hr i hi
        simpa using hrows r hr i hi

/-- An in-range aligned allocation: the offset depends only on the bytes used
and the capacity, the request fits behind it, and the fields outside the arena
are untouched. -/
theorem aligned_in_range_result (s : RmlRenderInterface_RT64) (n a : Nat)
    (hr : call_in_range s (.allocate_aligned n a) = true) :
    ∃ s1, allocate_upload_data_aligned s n a
        = .ok (if round_up s.upload_buffer_bytes_used_ a + n ≤ s.upload_buffer_size_
            then round_up s.upload_buffer_bytes_used_ a else 0, s1) ∧
      (if round_up s.upload_buffer_bytes_used_ a + n ≤ s.upload_buffer_size_
          then round_up s.upload_buffer_bytes_used_ a else 0) + n ≤ s1.upload_buffer_size_ ∧
      a ∣ (if round_up s.upload_buffer_bytes_used_ a + n ≤ s.upload_buffer_size_
          then round_up s.upload_buffer_bytes_used_ a else 0) ∧
      s1.list_ = s.list_ ∧ s1.textures_ = s.textures_ ∧
      s1.texture_count_ = s.texture_count_ ∧ s1.stdout = s.stdout ∧
      s1.stale_buffers_ = s.stale_buffers_ ++
        (if round_up s.upload_buffer_bytes_used_ a + n ≤ s.upload_buffer_size_
          then [] else s.upload_buffer_.toList) ∧
      (s.upload_buffer_mapped_data_ = true → s1.upload_buffer_mapped_data_ = true) := by
  simp only [call_in_range, Bool.and_eq_true, decide_eq_true_eq] at hr
  obtain ⟨⟨⟨ha, h1⟩, h2⟩, h3⟩ := hr
  have hb := round_up_bounds s.upload_buffer_bytes_used_ a ha
  by_cases hfit : round_up s.upload_buffer_bytes_used_ a + n ≤ s.upload_buffer_size_
  · simp only [if_pos hfit]
    exact ⟨_, aligned_fit_in_range s n a ha h1 h2 hfit, hfit, hb.2.2, rfl, rfl, rfl, rfl,
      by simp, fun h => h⟩
  · have hgrow : round_up s.upload_buffer_bytes_used_ a + n > s.upload_buffer_size_ := by
      omega
    simp only [if_neg hfit]
    refine ⟨_, aligned_grow_in_range s n a ha h1 h2 hgrow (h3 hgrow), ?_, Nat.dvd_zero a,
      rfl, rfl, rfl, rfl, ?_, fun _ => rfl⟩
    · show 0 + n ≤ (s.upload_buffer_bytes_used_ + n) + (s.upload_buffer_bytes_used_ + n) / 2
      omega
    · exact resize_upload_buffer_stale s
        ((s.upload_buffer_bytes_used_ + n) + (s.upload_buffer_bytes_used_ + n) / 2) true

theorem padded_row_width_eq (width : Nat) (hw : width * 4 + 255 < 4294967296) :
    padded_row_width width = (CalculateTextureRowWidthPadding (width * 4)).1 := by
  unfold padded_row_width RmlTextureFormatBytesPerPixel
  rw [u32_of_lt (by omega)]

theorem staging_offset_eq (s : RmlRenderInterface_RT64) (width height : Nat)
    (hrange : upload_in_range s width height = true) :
    staging_offset s width height
      = if round_up s.upload_buffer_bytes_used_ 512 + padded_row_width width * height
          ≤ s.upload_buffer_size_
        then round_up s.upload_buffer_bytes_used_ 512 else 0 := by
  simp only [upload_in_range, Bool.and_eq_true, decide_eq_true_eq] at hrange
  obtain ⟨⟨⟨hw, hh⟩, hN⟩, hcall⟩ := hrange
  obtain ⟨s1, hrun, -⟩ := aligned_in_range_result s _ 512 hcall
  unfold staging_offset
  rw [u32_of_lt hN, hrun]

/-- Running `create_texture` in an open session, with the device serving the texture,
the source holding the whole image and nothing wrapping around: the call returns
`true`; the staged rows hold the source rows (reversed when flipped); the staged
region lies inside the upload buffer at a multiple of 512; the copy command for
it is recorded; and the texture is registered under the handle. -/
theorem create_texture_ok (pw : PointerWidth) (s : RmlRenderInterface_RT64) (handle : Nat)
    (source : Nat → Option Nat) (width height : Nat) (flip_y : Bool)
    (hdev : s.device.texture_available width height = true)
    (hopen : session_open s = true)
    (hrange : upload_in_range s width height = true)
    (hread : source_readable source 0 (width * 4 * height) = true)
    (hflip : flip_y = true →
      (width * 4) % 256 = 0 ∨ height ≤ 1 ∨ pw = PointerWidth.bits32) :
    ∃ s1, create_texture pw s handle source width height flip_y = .ok (true, s1) ∧
      (∀ r, r < height → ∀ i, i < width * 4 →
        s1.upload_memory (staging_offset s width height + padded_row_width width * r + i)
          = (source (width * 4 * (if flip_y = true then height - 1 - r else r) + i)).getD 0) ∧
      staging_offset s width height + padded_row_width width * height
        ≤ s1.upload_buffer_size_ ∧
      512 ∣ staging_offset s width height ∧
      (∃ commands texture buffer, s.list_ = some commands ∧
        s1.list_ = some (commands ++
          [Command.textureBarrier texture true,
           Command.copyTextureRegion texture buffer width height (padded_row_width width / 4)
             (staging_offset s width height),
           Command.textureBarrier texture false])) ∧
      (∃ heap, s1.textures_
        = emplace s.textures_ handle
            (TextureHandle.mk (RenderTexture.mk s.device.next_id width height) heap)) ∧
      s1.texture_count_ = s.texture_count_ ∧ s1.stdout = s.stdout := by
  have hoff := staging_offset_eq s width height hrange
  simp only [upload_in_range, Bool.and_eq_true, decide_eq_true_eq] at hrange
  obtain ⟨⟨⟨hw, hh⟩, hN⟩, hcall⟩ := hrange
  simp only [session_open, Bool.and_eq_true] at hopen
  obtain ⟨hmap, hlist⟩ := hopen
  obtain ⟨commands, hcmds⟩ := Option.isSome_iff_exists.mp hlist
  have hprw := padded_row_width_eq width hw
  obtain ⟨-, -, -, hpad0⟩ := row_width_padding (width * 4) hw
  -- the aligned allocation, made after the texture was created
  obtain ⟨s1, halloc, hfits, hdvd, hl1, ht1, hc1, ho1, -, hm1⟩ :=
    aligned_in_range_result
      { s with device := { s.device with next_id := s.device.next_id + 1 } }
      (padded_row_width width * height) 512 hcall
  rw [← hoff] at halloc hfits hdvd
  -- the copy of the pixels
  obtain ⟨s2, hcopy, hframe, hrows, -⟩ :=
    copy_pixels_ok pw s1 (staging_offset s width height) source width height flip_y hw hh
      (by rw [← hprw]; exact hN) (hm1 hmap) (by rw [← hprw]; exact hfits) hread
      (fun hf => by
        rcases hflip hf with h | h
        · exact Or.inl (hpad0.mpr h)
        · exact Or.inr h)
  have hs2 : s2.list_ = some commands := by
    rw [hframe]
    show s1.list_ = _
    rw [hl1]
    exact hcmds
  refine ⟨{ s2 with
      device := { s2.device with next_id := s2.device.next_id + 1 }
      list_ := some (commands ++
        [Command.textureBarrier s.device.next_id true,
         Command.copyTextureRegion s.device.next_id
           (match s2.upload_buffer_ with
            | some b => b.id
            | none => 0)
           width height (padded_row_width width / 4) (staging_offset s width height),
         Command.textureBarrier s.device.next_id false])
      textures_ := emplace s2.textures_ handle
        (TextureHandle.mk (RenderTexture.mk s.device.next_id width height)
          s2.device.next_id) },
    ?_, ?_, ?_, hdvd, ⟨commands, _, _, hcmds, rfl⟩, ⟨s2.device.next_id, ?_⟩, ?_, ?_⟩
  · simp only [create_texture, createTexture, hdev, if_true]
    have e : u32 (padded_row_width width * height) = padded_row_width width * height :=
      u32_of_lt hN
    simp only [padded_row_width] at e halloc
    simp only [e, halloc, hcopy, hs2]
    rfl
  · intro r hr i hi
    rw [hprw]
    exact hrows r hr i hi
  · have : s2.upload_buffer_size_ = s1.upload_buffer_size_ := by rw [hframe]
    show _ ≤ s2.upload_buffer_size_
    rw [this]
    exact hfits
  · show emplace s2.textures_ _ _ = _
    have : s2.textures_ = s.textures_ := by
      rw [hframe]
      exact ht1
    rw [this]
  · show s2.texture_count_ = _
    rw [hframe]
    exact hc1
  · show s2.stdout = _
    rw [hframe]
    exact ho1

/-! ## Texture claims -/

/-- The byte a readable source holds, from its default-valued read. -/
theorem source_byte_of_readable (source : Nat → Option Nat) (total j : Nat)
    (hread : source_readable source 0 total = true) (hj : j < total) (b : Nat)
    (hb : b = (source j).getD 0) : source j = some b := by
  rw [source_readable_iff] at hread
  have h := hread j hj
  rw [Nat.zero_add] at h
  obtain ⟨v, hv⟩ := Option.isSome_iff_exists.mp h
  rw [hb, hv]
  rfl

/-- C10 (amended): for every width `w` and height `h` whose upload stays within
32-bit arithmetic (`4 * w + 255`, `h`, the staged size `paddedRowWidth * h` and
the aligned allocation of that size do not wrap around), in an open frame
session, with the device creating the texture and the source holding
`4 * w * h` bytes, `create_texture` with `flipY = false` returns `true` and
writes the staging region so that destination row `r` (at byte offset
`r * paddedRowWidth`) holds in its first `4 * w` bytes exactly source row `r`;
when the row pitch is a multiple of 256 the whole `w * h * 4`-byte region equals
the source byte for byte.  The region starts at the offset recorded in the
texture copy command. -/
theorem create_texture_unflipped_rows (pw : PointerWidth) (s : RmlRenderInterface_RT64)
    (handle : Nat) (source : Nat → Option Nat) (width height : Nat)
    (hdev : s.device.texture_available width height = true)
    (hopen : session_open s = true)
    (hrange : upload_in_range s width height = true)
    (hread : source_readable source 0 (width * 4 * height) = true) :
    ∃ s1, create_texture pw s handle source width height false = .ok (true, s1) ∧
      (∀ r, r < height → ∀ i, i < 4 * width →
        source (r * (4 * width) + i)
          = some (s1.upload_memory
              (staging_offset s width height + r * padded_row_width width + i))) ∧
      ((4 * width) % 256 = 0 → ∀ j, j < width * height * 4 →
        source j = some (s1.upload_memory (staging_offset s width height + j))) ∧
      (∃ commands texture buffer, s.list_ = some commands ∧
        s1.list_ = some (commands ++
          [Command.textureBarrier texture true,
           Command.copyTextureRegion texture buffer width height (padded_row_width width / 4)
             (staging_offset s width height),
           Command.textureBarrier texture false])) := by
  obtain ⟨s1, hrun, hrows, -, -, hcmd, -, -, -⟩ :=
    create_texture_ok pw s handle source width height false hdev hopen hrange hread
      (fun h => by cases h)
  have hrow : ∀ r, r < height → ∀ i, i < 4 * width →
      source (r * (4 * width) + i)
        = some (s1.upload_memory
            (staging_offset s width height + r * padded_row_width width + i)) := by
    intro r hr i hi
    have hle : width * 4 * r + width * 4 ≤ width * 4 * height := by
      rw [← Nat.mul_succ]
      exact Nat.mul_le_mul_left _ (by omega)
    have e1 : r * (4 * width) = width * 4 * r := by ring
    have e2 : r * padded_row_width width = padded_row_width width * r := Nat.mul_comm _ _
    have h := hrows r hr i (by omega)
    simp only [Bool.false_eq_true, if_false] at h
    rw [e1, e2]
    exact source_byte_of_readable source _ _ hread (by omega) _ h
  refine ⟨s1, hrun, hrow, ?_, hcmd⟩
  intro hmult j hj
  simp only [upload_in_range, Bool.and_eq_true, decide_eq_true_eq] at hrange
  obtain ⟨⟨⟨hw, -⟩, -⟩, -⟩ := hrange
  have hwpos : 0 < 4 * width := by
    rcases Nat.eq_zero_or_pos width with h0 | h0
    · subst h0
      simp at hj
    · omega
  have hprw : padded_row_width width = 4 * width := by
    rw [padded_row_width_eq width hw]
    obtain ⟨hsum, -, -, hpad0⟩ := row_width_padding (width * 4) hw
    have : (CalculateTextureRowWidthPadding (width * 4)).2 = 0 :=
      hpad0.mpr (by omega)
    omega
  have hr : j / (4 * width) < height := by
    apply Nat.div_lt_of_lt_mul
    have e : 4 * width * height = width * height * 4 := by ring
    rw [e]
    exact hj
  have h := hrow (j / (4 * width)) hr (j % (4 * width)) (Nat.mod_lt _ hwpos)
  have hdm : j / (4 * width) * (4 * width) + j % (4 * width) = j := by
    rw [Nat.mul_comm]
    exact Nat.div_add_mod j (4 * width)
  rw [hprw, hdm, Nat.add_assoc, hdm] at h
  exact h

/-- C10 witness: a 2×2 image (8-byte rows, padded to 256) staged from a 16-byte
source in the example session. -/
theorem create_texture_unflipped_rows_witness :
    ∃ s1, create_texture PointerWidth.bits64 example_session 7
        (file_source [1, 2, 3, 4, 5, 6, 7, 8, 9, 10, 11, 12, 13, 14, 15, 16] 0) 2 2 false
        = .ok (true, s1) ∧
      (∀ r, r < 2 → ∀ i, i < 4 * 2 →
        file_source [1, 2, 3, 4, 5, 6, 7, 8, 9, 10, 11, 12, 13, 14, 15, 16] 0 (r * (4 * 2) + i)
          = some (s1.upload_memory
              (staging_offset example_session 2 2 + r * padded_row_width 2 + i))) := by
  obtain ⟨s1, h1, h2, -⟩ := create_texture_unflipped_rows PointerWidth.bits64 example_session 7
    (file_source [1, 2, 3, 4, 5, 6, 7, 8, 9, 10, 11, 12, 13, 14, 15, 16] 0) 2 2
    (by decide) (by decide) (by decide) (by decide)
  exact ⟨s1, h1, h2⟩

/-- C10 counterexample: for a 1073741824 × 1 image the row pitch `4 * w` wraps
to zero: `create_texture` returns `true` without copying a byte, so the first
staged byte (offset 0 of the 1 MiB buffer) still holds 0 while the source row
starts with 7, and the 4 GiB region does not even fit the buffer. -/
theorem create_texture_unflipped_rows_counterexample :
    (value_of (create_texture PointerWidth.bits64 example_session 7
        (constant_source 4294967296 7) 1073741824 1 false)).map
      (fun r => (r.1, r.2.upload_memory 0, r.2.upload_buffer_size_))
      = some (true, 0, 1048576) ∧
    staging_offset example_session 1073741824 1 = 0 ∧
    constant_source 4294967296 7 0 = some 7 := by
  decide

/-- The flipped copy where the source walk is right: for every width `w` and
height `h` whose upload stays within 32-bit arithmetic, in an open frame
session, with the device creating the texture and the source holding
`4 * w * h` bytes, `create_texture` with `flipY = true` returns `true` and
destination row `r` (at byte offset `r * paddedRowWidth`) holds in its first
`4 * w` bytes exactly source row `h - 1 - r`, when the row needs no padding, the
image has at most one row, or pointers are 32 bits wide. -/
theorem create_texture_flipped_rows (pw : PointerWidth) (s : RmlRenderInterface_RT64)
    (handle : Nat) (source : Nat → Option Nat) (width height : Nat)
    (hdev : s.device.texture_available width height = true)
    (hopen : session_open s = true)
    (hrange : upload_in_range s width height = true)
    (hread : source_readable source 0 (width * 4 * height) = true)
    (hpath : (4 * width) % 256 = 0 ∨ height ≤ 1 ∨ pw = PointerWidth.bits32) :
    ∃ s1, create_texture pw s handle source width height true = .ok (true, s1) ∧
      (∀ r, r < height → ∀ i, i < 4 * width →
        source ((height - 1 - r) * (4 * width) + i)
          = some (s1.upload_memory
              (staging_offset s width height + r * padded_row_width width + i))) ∧
      (∃ commands texture buffer, s.list_ = some commands ∧
        s1.list_ = some (commands ++
          [Command.textureBarrier texture true,
           Command.copyTextureRegion texture buffer width height (padded_row_width width / 4)
             (staging_offset s width height),
           Command.textureBarrier texture false])) := by
  obtain ⟨s1, hrun, hrows, -, -, hcmd, -, -, -⟩ :=
    create_texture_ok pw s handle source width height true hdev hopen hrange hread
      (fun _ => by
        rcases hpath with h | h
        · exact Or.inl (by omega)
        · exact Or.inr h)
  refine ⟨s1, hrun, ?_, hcmd⟩
  intro r hr i hi
  have hle : width * 4 * (height - 1 - r) + width * 4 ≤ width * 4 * height := by
    rw [← Nat.mul_succ]
    exact Nat.mul_le_mul_left _ (by omega)
  have e1 : (height - 1 - r) * (4 * width) = width * 4 * (height - 1 - r) := by ring
  have e2 : r * padded_row_width width = padded_row_width width * r := Nat.mul_comm _ _
  have h := hrows r hr i (by omega)
  simp only [if_true] at h
  rw [e1, e2]
  exact source_byte_of_readable source _ _ hread (by omega) _ h

/-- Example of the unpadded flipped copy: a 64×2 image (256-byte rows) staged
flipped on a 64-bit target in the example session. -/
theorem create_texture_flipped_rows_witness :
    ∃ s1, create_texture PointerWidth.bits64 example_session 7
        (constant_source 512 9) 64 2 true = .ok (true, s1) ∧
      (∀ r, r < 2 → ∀ i, i < 4 * 64 →
        constant_source 512 9 ((2 - 1 - r) * (4 * 64) + i)
          = some (s1.upload_memory
              (staging_offset example_session 64 2 + r * padded_row_width 64 + i))) := by
  obtain ⟨s1, h1, h2, -⟩ := create_texture_flipped_rows PointerWidth.bits64 example_session 7
    (constant_source 512 9) 64 2 (by decide) (by decide) (by decide)
    (by simp [source_readable, constant_source]) (Or.inl (by decide))
  exact ⟨s1, h1, h2⟩

/-- The padded row loop with a second row outside the source: the first row is
copied, then the next `memcpy` reads out of bounds. -/
theorem padded_rows_second_fault (pw : PointerWidth) (source : Nat → Option Nat)
    (row_pitch row_byte_width src_stride count dst_data src_data : Nat)
    (s : RmlRenderInterface_RT64)
    (hrp : row_pitch ≠ 0) (hmap : s.upload_buffer_mapped_data_ = true)
    (hread : source_readable source src_data row_pitch = true)
    (hdst : dst_data + row_pitch ≤ s.upload_buffer_size_)
    (hbad : source_readable source (pointer_add pw src_data src_stride) row_pitch = false) :
    padded_rows pw source row_pitch row_byte_width src_stride (count + 2) dst_data src_data s
      = .error Fault.out_of_bounds_read := by
  obtain ⟨s1, hrun, hframe, -⟩ :=
    memcpy_ok s dst_data source src_data row_pitch (Or.inr hmap) hread hdst
  have hmap1 : s1.upload_buffer_mapped_data_ = true := by
    rw [hframe]
    exact hmap
  have h2 : memcpy s1 (dst_data + row_byte_width) source (pointer_add pw src_data src_stride)
      row_pitch = .error Fault.out_of_bounds_read := by
    unfold memcpy
    rw [if_neg hrp, if_neg (by simp [hmap1]), if_pos hbad]
  simp only [padded_rows, hrun, h2]

/-- The flipped, padded copy on a 64-bit target: the `uint32_t` stride
`-row_pitch` is zero-extended when it is added to the source pointer, so after
the last source row the pointer stands at `2^32 + row_pitch * (height - 2)`
instead of at row `height - 2`; with no source byte there the second `memcpy`
reads out of bounds. -/
theorem copy_pixels_flipped_padded_fault (s : RmlRenderInterface_RT64)
    (offset : Nat) (source : Nat → Option Nat) (width height : Nat)
    (hw : width * 4 + 255 < 4294967296)
    (hN : (CalculateTextureRowWidthPadding (width * 4)).1 * height < 4294967296)
    (hmap : s.upload_buffer_mapped_data_ = true)
    (hdst : offset + (CalculateTextureRowWidthPadding (width * 4)).1 * height
      ≤ s.upload_buffer_size_)
    (hread : source_readable source 0 (width * 4 * height) = true)
    (hout : ∀ j, 4294967296 ≤ j → source j = none)
    (hpad : (CalculateTextureRowWidthPadding (width * 4)).2 ≠ 0) (hrows : 2 ≤ height) :
    copy_pixels PointerWidth.bits64 s offset source width height true
      = .error Fault.out_of_bounds_read := by
  obtain ⟨c, rfl⟩ : ∃ c, height = c + 2 := ⟨height - 2, by omega⟩
  obtain ⟨hsum, -, hpadlt, hpad0⟩ := row_width_padding (width * 4) hw
  have hrp : u32 (width * 4) = width * 4 := u32_of_lt (by omega)
  have hrp0 : width * 4 ≠ 0 := by
    intro h0
    exact hpad (hpad0.mpr (by rw [h0]))
  have hrple : width * 4 ≤ (CalculateTextureRowWidthPadding (width * 4)).1 := by omega
  have e1 : (CalculateTextureRowWidthPadding (width * 4)).1 * (c + 2)
      = (CalculateTextureRowWidthPadding (width * 4)).1 * c
        + 2 * (CalculateTextureRowWidthPadding (width * 4)).1 := by ring
  have e2 : width * 4 * (c + 2) = width * 4 * c + 2 * (width * 4) := by ring
  have e3 : width * 4 * (c + 1) = width * 4 * c + width * 4 := by ring
  have hle : width * 4 * c ≤ (CalculateTextureRowWidthPadding (width * 4)).1 * c :=
    Nat.mul_le_mul_right _ hrple
  have hh : c + 2 ≤ (CalculateTextureRowWidthPadding (width * 4)).1 * (c + 2) :=
    Nat.le_mul_of_pos_left _ (by omega)
  have hsub : u32_sub (c + 2) 1 = c + 1 := by
    unfold u32_sub u32
    omega
  have hsrc : pointer_add PointerWidth.bits64 0 (u32 (width * 4 * u32_sub (c + 2) 1))
      = width * 4 * (c + 1) := by
    rw [hsub, u32_of_lt (by omega)]
    show (0 + width * 4 * (c + 1)) % 18446744073709551616 = _
    omega
  have hstride : u32_neg (width * 4) = 4294967296 - width * 4 := by
    unfold u32_neg u32
    omega
  have hnext : pointer_add PointerWidth.bits64 (width * 4 * (c + 1)) (4294967296 - width * 4)
      = 4294967296 + width * 4 * c := by
    show (width * 4 * (c + 1) + (4294967296 - width * 4)) % 18446744073709551616 = _
    omega
  simp only [copy_pixels, RmlTextureFormatBytesPerPixel, hrp, hpad, if_false, if_true,
    hsrc, hstride]
  apply padded_rows_second_fault
  · exact hrp0
  · exact hmap
  · exact source_readable_sub source _ _ _ hread (by omega)
  · omega
  · rw [hnext, ← Bool.not_eq_true, source_readable_iff]
    intro hall
    have h0 := hall 0 (by omega)
    rw [hout _ (by omega)] at h0
    cases h0

/-- C9 (the defect in general): on a target with 64-bit pointers, for every
width whose rows need padding (`4 * w` not a multiple of 256) and every height
of at least 2, with the upload within 32-bit arithmetic, an open frame session,
the device creating the texture and a source that holds the `4 * w * h` image
bytes and is smaller than 4 GiB, `create_texture` with `flipY = true` does not
stage the reversed rows: after the last source row has been copied the source
pointer is advanced by the `uint32_t` stride `2^32 - rowPitch` instead of moved
back by `rowPitch`, and the copy of the next row reads outside the source. -/
theorem create_texture_flipped_padded_faults (s : RmlRenderInterface_RT64)
    (handle : Nat) (source : Nat → Option Nat) (width height : Nat)
    (hdev : s.device.texture_available width height = true)
    (hopen : session_open s = true)
    (hrange : upload_in_range s width height = true)
    (hread : source_readable source 0 (width * 4 * height) = true)
    (hout : ∀ j, 4294967296 ≤ j → source j = none)
    (hpad : (4 * width) % 256 ≠ 0) (hrows : 2 ≤ height) :
    create_texture PointerWidth.bits64 s handle source width height true
      = .error Fault.out_of_bounds_read := by
  have hoff := staging_offset_eq s width height hrange
  simp only [upload_in_range, Bool.and_eq_true, decide_eq_true_eq] at hrange
  obtain ⟨⟨⟨hw, hh⟩, hN⟩, hcall⟩ := hrange
  simp only [session_open, Bool.and_eq_true] at hopen
  obtain ⟨hmap, hlist⟩ := hopen
  have hprw := padded_row_width_eq width hw
  obtain ⟨-, -, -, hpad0⟩ := row_width_padding (width * 4) hw
  obtain ⟨s1, halloc, hfits, -, -, -, -, -, -, hm1⟩ :=
    aligned_in_range_result
      { s with device := { s.device with next_id := s.device.next_id + 1 } }
      (padded_row_width width * height) 512 hcall
  rw [← hoff] at halloc hfits
  have hcopy := copy_pixels_flipped_padded_fault s1 (staging_offset s width height) source
    width height hw (by rw [← hprw]; exact hN) (hm1 hmap) (by rw [← hprw]; exact hfits)
    hread hout (fun h => hpad (by have := hpad0.mp h; omega)) hrows
  simp only [create_texture, createTexture, hdev, if_true]
  have e : u32 (padded_row_width width * height) = padded_row_width width * height :=
    u32_of_lt hN
  simp only [padded_row_width] at e halloc
  simp only [e, halloc, hcopy]

/-- C9 witness: in the example session on a 64-bit target a flipped 1×2 image
(4-byte rows, padded to 256) read from an 8-byte source ends in the
out-of-bounds read; and with a source that is readable everywhere the call
returns, but destination row 1 receives the bytes at source offset 2^32 (value
2), not source row 0 (value 1). -/
theorem create_texture_flipped_padded_faults_witness :
    create_texture PointerWidth.bits64 example_session 7
        (file_source [1, 2, 3, 4, 5, 6, 7, 8] 0) 1 2 true
      = .error Fault.out_of_bounds_read ∧
    ((value_of (create_texture PointerWidth.bits64 example_session 7
        banded_source 1 2 true)).map
      (fun r => (r.1, [0, 1, 2, 3].map (fun i =>
        r.2.upload_memory (staging_offset example_session 1 2 + 1 * padded_row_width 1 + i))))
      = some (true, [2, 2, 2, 2]) ∧
      [0, 1, 2, 3].map (fun i => banded_source ((2 - 1 - 1) * (4 * 1) + i))
        = [some 1, some 1, some 1, some 1]) :=
  ⟨create_texture_flipped_padded_faults example_session 7
      (file_source [1, 2, 3, 4, 5, 6, 7, 8] 0) 1 2 (by decide) (by decide) (by decide)
      (by decide)
      (fun j hj => by
        have h : ([1, 2, 3, 4, 5, 6, 7, 8] : List Nat)[0 + j]? = none :=
          List.getElem?_eq_none (by simp only [List.length_cons, List.length_nil]; omega)
        simp only [file_source, h, Option.map_none'])
      (by decide) (by decide),
    by decide⟩

theorem file_source_readable (file_data : List Nat) (offset n : Nat)
    (h : offset + n ≤ file_data.length) :
    source_readable (file_source file_data offset) 0 n = true := by
  rw [source_readable_iff]
  intro i hi
  have hlt : offset + i < file_data.length := by omega
  simp [file_source, List.getElem?_eq_getElem hlt]

theorem file_source_getD (file_data : List Nat) (offset i : Nat) :
    (file_source file_data offset i).getD 0 = byte_at file_data (offset + i) := by
  unfold file_source byte_at
  cases h : file_data[offset + i]? with
  | none => simp [List.getD, h]
  | some b => simp [List.getD, h]

/-- Valid headers where the flipped copy is right: for every `.tga` file with a
valid header (bytes 0, 1 = 0, byte 2 = 2, zero origin, byte 16 = 32,
byte 17 = 8) that holds at least `18 + 4 * width * height` bytes, loaded in an
open frame session with the device creating the texture and the upload staying
within 32-bit arithmetic, and whose rows need no padding or number at most one
(or with 32-bit pointers), `LoadTexture` returns `true`, hands out the current
handle counter, reports width = little-endian u16 at offsets 12-13 and height =
little-endian u16 at offsets 14-15, and uploads the pixel data starting at
offset 18 through `create_texture` with `flipY = true`: staged row `r` holds
file row `height - 1 - r`. -/
theorem load_texture_valid_header (pw : PointerWidth) (s : RmlRenderInterface_RT64)
    (file_data : List Nat)
    (h0 : byte_at file_data 0 = 0) (h1 : byte_at file_data 1 = 0)
    (h2 : byte_at file_data 2 = 2)
    (hx : le16_at file_data 8 = 0) (hy : le16_at file_data 10 = 0)
    (hdepth : byte_at file_data 16 = 32) (hdesc : byte_at file_data 17 = 8)
    (hlen : 18 + le16_at file_data 12 * 4 * le16_at file_data 14 ≤ file_data.length)
    (hdev : s.device.texture_available (le16_at file_data 12) (le16_at file_data 14) = true)
    (hopen : session_open s = true)
    (hrange : upload_in_range s (le16_at file_data 12) (le16_at file_data 14) = true)
    (hpath : (4 * le16_at file_data 12) % 256 = 0 ∨ le16_at file_data 14 ≤ 1 ∨
      pw = PointerWidth.bits32) :
    ∃ s1, LoadTexture pw s ".tga" file_data
        = .ok (LoadTextureResult.mk true (some s.texture_count_)
            (some (le16_at file_data 12, le16_at file_data 14)), s1) ∧
      create_texture pw (take_texture_handle pw s).2 s.texture_count_
          (file_source file_data 18) (le16_at file_data 12) (le16_at file_data 14) true
        = .ok (true, s1) ∧
      (∀ r, r < le16_at file_data 14 → ∀ i, i < 4 * le16_at file_data 12 →
        s1.upload_memory (staging_offset s (le16_at file_data 12) (le16_at file_data 14)
            + r * padded_row_width (le16_at file_data 12) + i)
          = byte_at file_data
              (18 + ((le16_at file_data 14 - 1 - r) * (4 * le16_at file_data 12) + i))) ∧
      s1.texture_count_ = (s.texture_count_ + 1) % pw.modulus ∧
      s1.stdout = s.stdout := by
  have hlen18 : 18 ≤ file_data.length := by omega
  have hcheck : check_descriptor s (byte_at file_data 17) = s := by
    simp [check_descriptor, hdesc]
  have hread := file_source_readable file_data 18
    (le16_at file_data 12 * 4 * le16_at file_data 14) hlen
  have hoff : staging_offset (take_texture_handle pw s).2 (le16_at file_data 12)
      (le16_at file_data 14)
      = staging_offset s (le16_at file_data 12) (le16_at file_data 14) := by
    have e1 := staging_offset_eq (take_texture_handle pw s).2 (le16_at file_data 12)
      (le16_at file_data 14) hrange
    have e2 := staging_offset_eq s (le16_at file_data 12) (le16_at file_data 14) hrange
    rw [e1, e2]
    rfl
  obtain ⟨s1, hrun, hrows, -, -, -, -, hcount, hout⟩ :=
    create_texture_ok pw (take_texture_handle pw s).2 s.texture_count_
      (file_source file_data 18) (le16_at file_data 12) (le16_at file_data 14) true
      hdev hopen hrange hread
      (fun _ => by
        rcases hpath with h | h
        · exact Or.inl (by omega)
        · exact Or.inr h)
  refine ⟨s1, ?_, hrun, ?_, hcount, hout⟩
  · rw [LoadTexture_of_header pw s file_data hlen18, if_neg (by simp [h0]),
      if_neg (by simp [h1]), if_neg (by simp [h2]), if_neg (by simp [hx, hy]),
      if_neg (by simp [hdepth]), hcheck]
    have hrun1 : create_texture pw (take_texture_handle pw s).2 (take_texture_handle pw s).1
        (file_source file_data 18) (le16_at file_data 12) (le16_at file_data 14) true
        = .ok (true, s1) := hrun
    rw [hrun1]
    rfl
  · intro r hr i hi
    have h := hrows r hr i (by omega)
    simp only [if_true] at h
    rw [hoff, file_source_getD] at h
    have e1 : (le16_at file_data 14 - 1 - r) * (4 * le16_at file_data 12)
        = le16_at file_data 12 * 4 * (le16_at file_data 14 - 1 - r) := by ring
    have e2 : r * padded_row_width (le16_at file_data 12)
        = padded_row_width (le16_at file_data 12) * r := Nat.mul_comm _ _
    rw [e1, e2]
    exact h

/-- Examples of valid headers: a 20×10 container (80-byte rows, padded) with
32-bit pointers, and a 64×2 container (256-byte rows) on a 64-bit target, both
loaded in the example session: width and height are reported as stored and
handle 1 is handed out. -/
theorem load_texture_valid_header_witness :
    (∃ s1, LoadTexture PointerWidth.bits32 example_session ".tga"
        (tga_file 0 0 2 0 0 20 10 32 8 (List.replicate 800 255))
      = .ok (LoadTextureResult.mk true (some 1) (some (20, 10)), s1)) ∧
    (∃ s1, LoadTexture PointerWidth.bits64 example_session ".tga"
        (tga_file 0 0 2 0 0 64 2 32 8 (List.replicate 512 255))
      = .ok (LoadTextureResult.mk true (some 1) (some (64, 2)), s1)) := by
  constructor
  · obtain ⟨s1, h, -⟩ := load_texture_valid_header PointerWidth.bits32 example_session
      (tga_file 0 0 2 0 0 20 10 32 8 (List.replicate 800 255))
      (by decide) (by decide) (by decide) (by decide) (by decide) (by decide) (by decide)
      (by simp only [tga_file, List.length_append, List.length_cons, List.length_nil,
        List.length_replicate]; decide)
      (by decide) (by decide) (by decide) (Or.inr (Or.inr rfl))
    exact ⟨s1, h⟩
  · obtain ⟨s1, h, -⟩ := load_texture_valid_header PointerWidth.bits64 example_session
      (tga_file 0 0 2 0 0 64 2 32 8 (List.replicate 512 255))
      (by decide) (by decide) (by decide) (by decide) (by decide) (by decide) (by decide)
      (by simp only [tga_file, List.length_append, List.length_cons, List.length_nil,
        List.length_replicate]; decide)
      (by decide) (by decide) (by decide) (Or.inl (by decide))
    exact ⟨s1, h⟩

set_option maxRecDepth 20000 in
/-- C8 (evaluation at the failing input): the 20×10 container of the spec's
example, with a valid header (bytes 0, 1 = 0, byte 2 = 2, zero origin, width 20,
height 10, byte 16 = 32, byte 17 = 8) and all of its 800 pixel bytes, loaded in
the example session on a target with 64-bit pointers: `LoadTexture` does not
succeed.  The flipped, padded copy of `create_texture` copies the last file row,
then advances the source pointer by the `uint32_t` stride 4294967216 and reads
outside the file. -/
theorem load_texture_spec_example_faults :
    (tga_file 0 0 2 0 0 20 10 32 8 (List.replicate 800 255)).length = 18 + 4 * 20 * 10 ∧
    (byte_at (tga_file 0 0 2 0 0 20 10 32 8 (List.replicate 800 255)) 0 = 0 ∧
      byte_at (tga_file 0 0 2 0 0 20 10 32 8 (List.replicate 800 255)) 1 = 0 ∧
      byte_at (tga_file 0 0 2 0 0 20 10 32 8 (List.replicate 800 255)) 2 = 2 ∧
      le16_at (tga_file 0 0 2 0 0 20 10 32 8 (List.replicate 800 255)) 8 = 0 ∧
      le16_at (tga_file 0 0 2 0 0 20 10 32 8 (List.replicate 800 255)) 10 = 0 ∧
      le16_at (tga_file 0 0 2 0 0 20 10 32 8 (List.replicate 800 255)) 12 = 20 ∧
      le16_at (tga_file 0 0 2 0 0 20 10 32 8 (List.replicate 800 255)) 14 = 10 ∧
      byte_at (tga_file 0 0 2 0 0 20 10 32 8 (List.replicate 800 255)) 16 = 32 ∧
      byte_at (tga_file 0 0 2 0 0 20 10 32 8 (List.replicate 800 255)) 17 = 8) ∧
    session_open example_session = true ∧
    fault_of (LoadTexture PointerWidth.bits64 example_session ".tga"
        (tga_file 0 0 2 0 0 20 10 32 8 (List.replicate 800 255)))
      = some Fault.out_of_bounds_read ∧
    u32_neg (u32 (20 * RmlTextureFormatBytesPerPixel)) = 4294967216 := by
  refine ⟨?_, ?_, ?_, ?_, ?_⟩
  · simp only [tga_file, List.length_append, List.length_cons, List.length_nil,
      List.length_replicate]
  · decide
  · decide
  · decide
  · decide

/-! ## Frame lemmas -/

theorem arena_step_refl (s : RmlRenderInterface_RT64) : arena_step s s :=
  ⟨rfl, rfl, rfl, rfl, rfl, rfl, rfl, rfl, rfl, List.prefix_refl _⟩

theorem arena_step_trans {s s1 s2 : RmlRenderInterface_RT64}
    (h1 : arena_step s s1) (h2 : arena_step s1 s2) : arena_step s s2 := by
  obtain ⟨a1, a2, a3, a4, a5, a6, a7, a8, a9, a10⟩ := h1
  obtain ⟨b1, b2, b3, b4, b5, b6, b7, b8, b9, b10⟩ := h2
  exact ⟨b1.trans a1, b2.trans a2, b3.trans a3, b4.trans a4, b5.trans a5, b6.trans a6,
    b7.trans a7, b8.trans a8, b9.trans a9, a10.trans b10⟩

theorem arena_step_of_memory_frame {s s1 : RmlRenderInterface_RT64}
    (h : memory_frame s s1) : arena_step s s1 := by
  unfold memory_frame at h
  rw [h]
  exact ⟨rfl, rfl, rfl, rfl, rfl, rfl, rfl, rfl, rfl, List.prefix_refl _⟩

theorem arena_step_resize_upload_buffer (s : RmlRenderInterface_RT64) (new_size : Nat)
    (map : Bool) : arena_step s (resize_upload_buffer s new_size map) := by
  refine ⟨rfl, rfl, rfl, rfl, rfl, rfl, rfl, rfl, rfl, ?_⟩
  rw [resize_upload_buffer_stale]
  exact List.prefix_append _ _

theorem arena_step_used (s : RmlRenderInterface_RT64) (used : Nat) :
    arena_step s { s with upload_buffer_bytes_used_ := used } :=
  ⟨rfl, rfl, rfl, rfl, rfl, rfl, rfl, rfl, rfl, List.prefix_refl _⟩

theorem arena_step_allocate (s : RmlRenderInterface_RT64) (n : Nat) :
    arena_step s (allocate_upload_data s n).2 := by
  unfold allocate_upload_data
  simp only []
  split
  · exact arena_step_trans (arena_step_resize_upload_buffer s _ true) (arena_step_used _ _)
  · exact arena_step_used _ _

theorem arena_step_allocate_aligned (s : RmlRenderInterface_RT64) (n a : Nat)
    (r : Nat × RmlRenderInterface_RT64)
    (h : allocate_upload_data_aligned s n a = .ok r) : arena_step s r.2 := by
  unfold allocate_upload_data_aligned at h
  simp only [] at h
  split at h
  · cases h
  · split at h
    · cases h
      exact arena_step_trans (arena_step_resize_upload_buffer s _ true) (arena_step_used _ _)
    · cases h
      exact arena_step_allocate s _

theorem memory_frame_of_memcpy (s s1 : RmlRenderInterface_RT64) (dst : Nat)
    (source : Nat → Option Nat) (src n : Nat) (h : memcpy s dst source src n = .ok s1) :
    memory_frame s s1 := by
  unfold memcpy at h
  split at h
  · cases h
    exact memory_frame_refl s
  · split at h
    · cases h
    · split at h
      · cases h
      · split at h
        · cases h
        · cases h
          rfl

theorem memory_frame_of_flipped_rows (source : Nat → Option Nat)
    (dst_data row_byte_width height : Nat) :
    ∀ (count row : Nat) (s s1 : RmlRenderInterface_RT64),
      flipped_rows source dst_data row_byte_width height count row s = .ok s1 →
      memory_frame s s1 := by
  intro count
  induction count with
  | zero =>
    intro row s s1 h
    simp only [flipped_rows] at h
    cases h
    exact memory_frame_refl s
  | succ count ih =>
    intro row s s1 h
    simp only [flipped_rows] at h
    split at h
    · cases h
    · rename_i s2 hcopy
      exact memory_frame_trans (memory_frame_of_memcpy _ _ _ _ _ _ hcopy) (ih _ _ _ h)

theorem memory_frame_of_padded_rows (pw : PointerWidth) (source : Nat → Option Nat)
    (row_pitch row_byte_width src_stride : Nat) :
    ∀ (count dst_data src_data : Nat) (s s1 : RmlRenderInterface_RT64),
      padded_rows pw source row_pitch row_byte_width src_stride count dst_data src_data s
        = .ok s1 →
      memory_frame s s1 := by
  intro count
  induction count with
  | zero =>
    intro dst_data src_data s s1 h
    simp only [padded_rows] at h
    cases h
    exact memory_frame_refl s
  | succ count ih =>
    intro dst_data src_data s s1 h
    simp only [padded_rows] at h
    split at h
    · cases h
    · rename_i s2 hcopy
      exact memory_frame_trans (memory_frame_of_memcpy _ _ _ _ _ _ hcopy) (ih _ _ _ _ h)

theorem memory_frame_of_copy_pixels (pw : PointerWidth) (s s1 : RmlRenderInterface_RT64)
    (offset : Nat) (source : Nat → Option Nat) (width height : Nat) (flip_y : Bool)
    (h : copy_pixels pw s offset source width height flip_y = .ok s1) :
    memory_frame s s1 := by
  unfold copy_pixels at h
  simp only [] at h
  split at h
  · split at h
    · exact memory_frame_of_flipped_rows _ _ _ _ _ _ _ _ h
    · exact memory_frame_of_memcpy _ _ _ _ _ _ h
  · exact memory_frame_of_padded_rows _ _ _ _ _ _ _ _ _ _ h

/-- Every returning `create_texture` leaves the handle counter, the geometry
buffers and the printed output alone, only extends the retirement list, and
either reports failure with the texture map unchanged or registers a texture of
the requested size under the handle (unless the handle is taken). -/
theorem create_texture_frame (pw : PointerWidth) (s : RmlRenderInterface_RT64) (handle : Nat)
    (source : Nat → Option Nat) (width height : Nat) (flip_y : Bool) (r : Bool)
    (s1 : RmlRenderInterface_RT64)
    (hrun : create_texture pw s handle source width height flip_y = .ok (r, s1)) :
    s1.texture_count_ = s.texture_count_ ∧
    s1.vertex_buffer_ = s.vertex_buffer_ ∧ s1.index_buffer_ = s.index_buffer_ ∧
    s1.vertex_buffer_size_ = s.vertex_buffer_size_ ∧
    s1.index_buffer_size_ = s.index_buffer_size_ ∧
    s1.stdout = s.stdout ∧
    s1.device.texture_available = s.device.texture_available ∧
    s.stale_buffers_ <+: s1.stale_buffers_ ∧
    ((r = false ∧ s1.textures_ = s.textures_ ∧ s1.list_ = s.list_) ∨
      (r = true ∧ ∃ v : TextureHandle, v.texture.width = width ∧ v.texture.height = height ∧
        s1.textures_ = emplace s.textures_ handle v)) := by
  unfold create_texture at hrun
  split at hrun
  · rename_i d hdev
    cases hrun
    have hd : d.texture_available = s.device.texture_available := by
      unfold createTexture at hdev
      split at hdev
      · cases hdev
      · cases hdev
        rfl
    exact ⟨rfl, rfl, rfl, rfl, rfl, rfl, hd, List.prefix_refl _, Or.inl ⟨rfl, rfl, rfl⟩⟩
  · rename_i texture d hdev
    have hd : d.texture_available = s.device.texture_available ∧ texture.width = width ∧
        texture.height = height := by
      unfold createTexture at hdev
      split at hdev
      · cases hdev
        exact ⟨rfl, rfl, rfl⟩
      · cases hdev
    simp only [] at hrun
    split at hrun
    · cases hrun
    · rename_i offset s2 halloc
      have hstep1 := arena_step_allocate_aligned _ _ _ _ halloc
      split at hrun
      · cases hrun
      · rename_i s3 hcopy
        have hstep2 := arena_step_of_memory_frame (memory_frame_of_copy_pixels _ _ _ _ _ _ _ _ hcopy)
        obtain ⟨c1, c2, c3, c4, c5, c6, c7, c8, c9, c10⟩ := arena_step_trans hstep1 hstep2
        split at hrun
        · cases hrun
        · cases hrun
          refine ⟨c2, c3, c4, c5, c6, c8, c9.trans hd.1, c10, Or.inr ⟨rfl, TextureHandle.mk texture s3.device.next_id, hd.2.1, hd.2.2, ?_⟩⟩
          show emplace s3.textures_ _ _ = _
          rw [c1]

theorem resize_vertex_buffer_stale (s : RmlRenderInterface_RT64) (new_size : Nat) :
    (resize_vertex_buffer s new_size).stale_buffers_
      = s.stale_buffers_ ++ s.vertex_buffer_.toList := by
  unfold resize_vertex_buffer
  cases s.vertex_buffer_ <;> simp

theorem resize_index_buffer_stale (s : RmlRenderInterface_RT64) (new_size : Nat) :
    (resize_index_buffer s new_size).stale_buffers_
      = s.stale_buffers_ ++ s.index_buffer_.toList := by
  unfold resize_index_buffer
  cases s.index_buffer_ <;> simp

/-- The growth checks of `RenderGeometry`: the new capacities, the retired
buffers, and the fields they leave alone. -/
theorem grow_geometry_buffers_spec (s : RmlRenderInterface_RT64) (v i : Nat) :
    (grow_geometry_buffers s v i).vertex_buffer_size_
      = (if v > s.vertex_buffer_size_ then u32 (v + v / 2) else s.vertex_buffer_size_) ∧
    (grow_geometry_buffers s v i).index_buffer_size_
      = (if i > s.index_buffer_size_ then u32 (i + i / 2) else s.index_buffer_size_) ∧
    (grow_geometry_buffers s v i).stale_buffers_
      = s.stale_buffers_
        ++ (if v > s.vertex_buffer_size_ then s.vertex_buffer_.toList else [])
        ++ (if i > s.index_buffer_size_ then s.index_buffer_.toList else []) ∧
    (v ≤ s.vertex_buffer_size_ →
      (grow_geometry_buffers s v i).vertex_buffer_ = s.vertex_buffer_) ∧
    (i ≤ s.index_buffer_size_ →
      (grow_geometry_buffers s v i).index_buffer_ = s.index_buffer_) ∧
    (s.vertex_buffer_.isSome = true → (grow_geometry_buffers s v i).vertex_buffer_.isSome = true) ∧
    (s.index_buffer_.isSome = true → (grow_geometry_buffers s v i).index_buffer_.isSome = true) ∧
    (grow_geometry_buffers s v i).textures_ = s.textures_ ∧
    (grow_geometry_buffers s v i).texture_count_ = s.texture_count_ ∧
    (grow_geometry_buffers s v i).list_ = s.list_ ∧
    (grow_geometry_buffers s v i).upload_buffer_ = s.upload_buffer_ ∧
    (grow_geometry_buffers s v i).upload_buffer_size_ = s.upload_buffer_size_ ∧
    (grow_geometry_buffers s v i).upload_buffer_mapped_data_ = s.upload_buffer_mapped_data_ := by
  unfold grow_geometry_buffers
  by_cases hv : v > s.vertex_buffer_size_
  · by_cases hi : i > s.index_buffer_size_
    · have hi1 : i > (resize_vertex_buffer s (u32 (v + v / 2))).index_buffer_size_ := hi
      simp only [hv, hi, hi1, if_true]
      refine ⟨rfl, rfl, ?_, fun h => absurd hv (by omega), fun h => absurd hi (by omega),
        fun _ => rfl, fun _ => rfl, rfl, rfl, rfl, rfl, rfl, rfl⟩
      rw [resize_index_buffer_stale, resize_vertex_buffer_stale]
      rfl
    · have hi1 : ¬ i > (resize_vertex_buffer s (u32 (v + v / 2))).index_buffer_size_ := hi
      simp only [hv, hi, hi1, if_true, if_false]
      refine ⟨rfl, rfl, ?_, fun h => absurd hv (by omega), fun _ => rfl,
        fun _ => rfl, fun h => h, rfl, rfl, rfl, rfl, rfl, rfl⟩
      rw [resize_vertex_buffer_stale, List.append_nil]
  · by_cases hi : i > s.index_buffer_size_
    · simp only [hv, hi, if_true, if_false]
      refine ⟨rfl, rfl, ?_, fun _ => rfl, fun h => absurd hi (by omega),
        fun h => h, fun _ => rfl, rfl, rfl, rfl, rfl, rfl, rfl⟩
      rw [resize_index_buffer_stale, List.append_nil]
    · simp [hv, hi]

theorem record_draw_frame (s s1 : RmlRenderInterface_RT64)
    (offset v i texture num_indices : Nat)
    (h : record_draw s offset v i texture num_indices = .ok s1) :
    (∃ commands,
      s1 = { s with list_ := some (commands ++ [Command.draw texture num_indices]) }) ∧
    (lookup s.textures_ texture).isSome = true := by
  unfold record_draw at h
  split at h
  · rename_i commands vb ib ub hl hv hi hu
    split at h
    · cases h
    · rename_i t ht
      cases h
      refine ⟨⟨commands ++
        [Command.bufferBarriers vb.id ib.id true,
         Command.copyBufferRegion vb.id ub.id offset v,
         Command.copyBufferRegion ib.id ub.id (u32 (offset + v)) i,
         Command.bufferBarriers vb.id ib.id false], ?_⟩, by rw [ht]; rfl⟩
      simp
  · cases h

/-- Every returning `render_batch`: the capacities follow the two growth
checks, the superseded buffers are appended to the retirement list, the texture
map and the handle counter are unchanged, and the draw is the last command. -/
theorem render_batch_frame (sizeof_Vertex : Nat) (s s1 : RmlRenderInterface_RT64)
    (vertices : Nat → Option Nat) (num_vertices : Nat)
    (indices : Nat → Option Nat) (num_indices : Nat) (texture : Nat)
    (h : render_batch sizeof_Vertex s vertices num_vertices indices num_indices texture
      = .ok s1) :
    s1.textures_ = s.textures_ ∧ s1.texture_count_ = s.texture_count_ ∧
    s1.vertex_buffer_size_
      = (if u32 (num_vertices * sizeof_Vertex) > s.vertex_buffer_size_
          then u32 (u32 (num_vertices * sizeof_Vertex) + u32 (num_vertices * sizeof_Vertex) / 2)
          else s.vertex_buffer_size_) ∧
    s1.index_buffer_size_
      = (if u32 (num_indices * sizeof_int) > s.index_buffer_size_
          then u32 (u32 (num_indices * sizeof_int) + u32 (num_indices * sizeof_int) / 2)
          else s.index_buffer_size_) ∧
    s1.stale_buffers_
      = (allocate_upload_data s
          (u32 (u32 (num_vertices * sizeof_Vertex) + u32 (num_indices * sizeof_int)))).2.stale_buffers_
        ++ (if u32 (num_vertices * sizeof_Vertex) > s.vertex_buffer_size_
            then s.vertex_buffer_.toList else [])
        ++ (if u32 (num_indices * sizeof_int) > s.index_buffer_size_
            then s.index_buffer_.toList else []) ∧
    s.stale_buffers_ <+: s1.stale_buffers_ ∧
    (u32 (num_vertices * sizeof_Vertex) ≤ s.vertex_buffer_size_ →
      s1.vertex_buffer_ = s.vertex_buffer_) ∧
    (u32 (num_indices * sizeof_int) ≤ s.index_buffer_size_ →
      s1.index_buffer_ = s.index_buffer_) ∧
    (∃ commands, s1.list_ = some (commands ++ [Command.draw texture num_indices])) ∧
    (lookup s.textures_ texture).isSome = true := by
  unfold render_batch at h
  simp only [] at h
  split at h
  · cases h
  · rename_i s2 hcopy1
    split at h
    · cases h
    · rename_i s3 hcopy2
      have hf1 := memory_frame_of_memcpy _ _ _ _ _ _ hcopy1
      have hf2 := memory_frame_of_memcpy _ _ _ _ _ _ hcopy2
      obtain ⟨m1, m2, m3, m4, m5, m6, m7, m8, m9, m10⟩ :=
        arena_step_of_memory_frame (memory_frame_trans hf1 hf2)
      have hstale3 : s3.stale_buffers_ = (grow_geometry_buffers
          (allocate_upload_data s
            (u32 (u32 (num_vertices * sizeof_Vertex) + u32 (num_indices * sizeof_int)))).2
          (u32 (num_vertices * sizeof_Vertex)) (u32 (num_indices * sizeof_int))).stale_buffers_ := by
        rw [memory_frame_trans hf1 hf2]
      obtain ⟨a1, a2, a3, a4, a5, a6, a7, a8, a9, a10⟩ := arena_step_allocate s
        (u32 (u32 (num_vertices * sizeof_Vertex) + u32 (num_indices * sizeof_int)))
      obtain ⟨g1, g2, g3, g4, g5, g6, g7, g8, g9, g10, g11, g12, g13⟩ :=
        grow_geometry_buffers_spec
          (allocate_upload_data s
            (u32 (u32 (num_vertices * sizeof_Vertex) + u32 (num_indices * sizeof_int)))).2
          (u32 (num_vertices * sizeof_Vertex)) (u32 (num_indices * sizeof_int))
      obtain ⟨⟨commands, hs1⟩, hlook⟩ := record_draw_frame _ _ _ _ _ _ _ h
      rw [a5] at g1 g3 g4
      rw [a6] at g2 g3 g5
      rw [a3] at g3 g4 g6
      rw [a4] at g3 g5 g7
      rw [hs1]
      refine ⟨?_, ?_, ?_, ?_, ?_, ?_, ?_, ?_, ⟨_, rfl⟩, ?_⟩
      · show s3.textures_ = _
        rw [m1, g8, a1]
      · show s3.texture_count_ = _
        rw [m2, g9, a2]
      · show s3.vertex_buffer_size_ = _
        rw [m5, g1]
      · show s3.index_buffer_size_ = _
        rw [m6, g2]
      · show s3.stale_buffers_ = _
        rw [hstale3, g3]
      · show _ <+: s3.stale_buffers_
        rw [hstale3, g3, List.append_assoc]
        exact a10.trans (List.prefix_append _ _)
      · intro hle
        show s3.vertex_buffer_ = _
        rw [m3]
        exact g4 hle
      · intro hle
        show s3.index_buffer_ = _
        rw [m4]
        exact g5 hle
      · rw [← a1, ← g8, ← m1]
        exact hlook

theorem lookup_isSome (m : List (Nat × TextureHandle)) (key : Nat) :
    (lookup m key).isSome = contains m key := by
  unfold lookup contains
  induction m with
  | nil => rfl
  | cons e m ih =>
    by_cases h : (e.1 == key) = true
    · simp [List.find?, h]
    · simp only [Bool.not_eq_true] at h
      simp only [List.find?, h, List.any_cons, Bool.false_or]
      exact ih

theorem emplace_absent (m : List (Nat × TextureHandle)) (key : Nat) (value : TextureHandle)
    (h : contains m key = false) : emplace m key value = m ++ [(key, value)] := by
  unfold emplace
  unfold contains at h
  rw [h]
  rfl

theorem contains_append_self (m : List (Nat × TextureHandle)) (key : Nat)
    (value : TextureHandle) : contains (m ++ [(key, value)]) key = true := by
  simp [contains]

/-- Every returning texture check of `RenderGeometry`: a known handle leaves
the state as it is; otherwise either the handle is 0 and `create_texture` ran,
or the build has no assertions and the state is as it was. -/
theorem ensure_texture_frame (pw : PointerWidth) (ndebug : Bool) (s s1 : RmlRenderInterface_RT64)
    (texture : Nat) (h : ensure_texture pw ndebug s texture = .ok s1) :
    s1.texture_count_ = s.texture_count_ ∧
    s1.vertex_buffer_ = s.vertex_buffer_ ∧ s1.index_buffer_ = s.index_buffer_ ∧
    s1.vertex_buffer_size_ = s.vertex_buffer_size_ ∧
    s1.index_buffer_size_ = s.index_buffer_size_ ∧
    s.stale_buffers_ <+: s1.stale_buffers_ ∧
    (contains s.textures_ texture = true → s1 = s) ∧
    (contains s.textures_ texture = false →
      (texture = 0 ∧ ∃ r, create_texture pw s 0 white_pixel 1 1 false = .ok (r, s1)) ∨
      (texture ≠ 0 ∧ ndebug = true ∧ s1 = s)) := by
  unfold ensure_texture at h
  split at h
  · rename_i hc
    cases h
    exact ⟨rfl, rfl, rfl, rfl, rfl, List.prefix_refl _, fun _ => rfl,
      fun hn => by rw [hc] at hn; cases hn⟩
  · rename_i hc
    split at h
    · rename_i h0
      split at h
      · cases h
      · rename_i r hrun
        cases h
        obtain ⟨c1, c2, c3, c4, c5, -, -, c8, -⟩ :=
          create_texture_frame pw s 0 white_pixel 1 1 false r.1 r.2 hrun
        exact ⟨c1, c2, c3, c4, c5, c8, fun ht => absurd ht hc,
          fun _ => Or.inl ⟨h0, r.1, hrun⟩⟩
    · rename_i h0
      split at h
      · rename_i hnd
        cases h
        exact ⟨rfl, rfl, rfl, rfl, rfl, List.prefix_refl _, fun _ => rfl,
          fun _ => Or.inr ⟨h0, hnd, rfl⟩⟩
      · cases h

/-- A batch reaches the command recording when the session is open, the three
buffers exist, both sources hold the batch, and the combined upload allocation
stays within 32-bit arithmetic: the command list and the buffers are in place
there and the texture map is the one the batch started with. -/
theorem render_batch_ready (sizeof_Vertex : Nat) (s : RmlRenderInterface_RT64)
    (vertices : Nat → Option Nat) (num_vertices : Nat)
    (indices : Nat → Option Nat) (num_indices : Nat) (texture : Nat)
    (hopen : session_open s = true)
    (hvb : s.vertex_buffer_.isSome = true) (hib : s.index_buffer_.isSome = true)
    (hub : s.upload_buffer_.isSome = true)
    (hvalid : arena_valid s = true)
    (hcall : call_in_range s
      (.allocate (u32 (num_vertices * sizeof_Vertex) + u32 (num_indices * sizeof_int))) = true)
    (hreadv : source_readable vertices 0 (u32 (num_vertices * sizeof_Vertex)) = true)
    (hreadi : source_readable indices 0 (u32 (num_indices * sizeof_int)) = true) :
    ∃ s3 offset commands vb ib ub,
      render_batch sizeof_Vertex s vertices num_vertices indices num_indices texture
        = record_draw s3 offset (u32 (num_vertices * sizeof_Vertex))
            (u32 (num_indices * sizeof_int)) texture num_indices ∧
      s3.list_ = some commands ∧ s3.vertex_buffer_ = some vb ∧
      s3.index_buffer_ = some ib ∧ s3.upload_buffer_ = some ub ∧
      s3.textures_ = s.textures_ := by
  simp only [session_open, Bool.and_eq_true] at hopen
  obtain ⟨hmap, hlist⟩ := hopen
  simp only [arena_valid, Bool.and_eq_true, decide_eq_true_eq] at hvalid
  obtain ⟨hs, hu⟩ := hvalid
  have hcall2 := hcall
  simp only [call_in_range, Bool.and_eq_true, decide_eq_true_eq] at hcall2
  have htotal : u32 (u32 (num_vertices * sizeof_Vertex) + u32 (num_indices * sizeof_int))
      = u32 (num_vertices * sizeof_Vertex) + u32 (num_indices * sizeof_int) :=
    u32_of_lt (by omega)
  -- the combined allocation
  obtain ⟨r, hrun, hs1, hu1, hoff, -⟩ := run_call_in_range s _ hs hu hcall
  have hr : r = (some (allocate_upload_data s
      (u32 (num_vertices * sizeof_Vertex) + u32 (num_indices * sizeof_int))).1,
      (allocate_upload_data s
        (u32 (num_vertices * sizeof_Vertex) + u32 (num_indices * sizeof_int))).2) := by
    simp only [run_call, Except.ok.injEq] at hrun
    exact hrun.symm
  have hfit := hoff _ (by rw [hr])
  simp only [ArenaCall.num_bytes, hr] at hfit
  obtain ⟨a1, -, a3, a4, -, -, a7, -, -, -⟩ := arena_step_allocate s
    (u32 (num_vertices * sizeof_Vertex) + u32 (num_indices * sizeof_int))
  have hmapa : (allocate_upload_data s
      (u32 (num_vertices * sizeof_Vertex) + u32 (num_indices * sizeof_int))).2.upload_buffer_mapped_data_
      = true := by
    unfold allocate_upload_data
    simp only []
    split
    · rfl
    · exact hmap
  have huba : (allocate_upload_data s
      (u32 (num_vertices * sizeof_Vertex) + u32 (num_indices * sizeof_int))).2.upload_buffer_.isSome
      = true := by
    unfold allocate_upload_data
    simp only []
    split
    · rfl
    · exact hub
  obtain ⟨-, -, -, -, -, g6, g7, g8, -, g10, g11, g12, g13⟩ :=
    grow_geometry_buffers_spec
      (allocate_upload_data s
        (u32 (num_vertices * sizeof_Vertex) + u32 (num_indices * sizeof_int))).2
      (u32 (num_vertices * sizeof_Vertex)) (u32 (num_indices * sizeof_int))
  -- the two copies
  obtain ⟨s2, hcopy1, hf1, -⟩ := memcpy_ok
    (grow_geometry_buffers
      (allocate_upload_data s
        (u32 (num_vertices * sizeof_Vertex) + u32 (num_indices * sizeof_int))).2
      (u32 (num_vertices * sizeof_Vertex)) (u32 (num_indices * sizeof_int)))
    (allocate_upload_data s
      (u32 (num_vertices * sizeof_Vertex) + u32 (num_indices * sizeof_int))).1
    vertices 0 (u32 (num_vertices * sizeof_Vertex))
    (Or.inr (by rw [g13]; exact hmapa)) hreadv (by rw [g12]; omega)
  have hsz2 : s2.upload_buffer_size_ = (allocate_upload_data s
      (u32 (num_vertices * sizeof_Vertex) + u32 (num_indices * sizeof_int))).2.upload_buffer_size_ := by
    rw [hf1]; exact g12
  have hmap2 : s2.upload_buffer_mapped_data_ = true := by
    rw [hf1]
    show (grow_geometry_buffers _ _ _).upload_buffer_mapped_data_ = true
    rw [g13]; exact hmapa
  obtain ⟨s3, hcopy2, hf2, -⟩ := memcpy_ok s2
    ((allocate_upload_data s
      (u32 (num_vertices * sizeof_Vertex) + u32 (num_indices * sizeof_int))).1
      + u32 (num_vertices * sizeof_Vertex))
    indices 0 (u32 (num_indices * sizeof_int))
    (Or.inr hmap2) hreadi (by rw [hsz2]; omega)
  have hf := memory_frame_trans hf1 hf2
  -- the recording
  have hl3 : s3.list_.isSome = true := by
    rw [hf]
    show (grow_geometry_buffers _ _ _).list_.isSome = true
    rw [g10, a7]; exact hlist
  have hv3 : s3.vertex_buffer_.isSome = true := by
    rw [hf]
    exact g6 (by rw [a3]; exact hvb)
  have hi3 : s3.index_buffer_.isSome = true := by
    rw [hf]
    exact g7 (by rw [a4]; exact hib)
  have hu3 : s3.upload_buffer_.isSome = true := by
    rw [hf]
    show (grow_geometry_buffers _ _ _).upload_buffer_.isSome = true
    rw [g11]; exact huba
  have ht3 : s3.textures_ = s.textures_ := by
    rw [hf]
    show (grow_geometry_buffers _ _ _).textures_ = _
    rw [g8, a1]
  obtain ⟨commands, hcmds⟩ := Option.isSome_iff_exists.mp hl3
  obtain ⟨vb, hvbe⟩ := Option.isSome_iff_exists.mp hv3
  obtain ⟨ib, hibe⟩ := Option.isSome_iff_exists.mp hi3
  obtain ⟨ub, hube⟩ := Option.isSome_iff_exists.mp hu3
  refine ⟨s3, (allocate_upload_data s
      (u32 (num_vertices * sizeof_Vertex) + u32 (num_indices * sizeof_int))).1,
    commands, vb, ib, ub, ?_, hcmds, hvbe, hibe, hube, ht3⟩
  unfold render_batch
  simp only [htotal, hcopy1, hcopy2]

/-- A batch whose texture is known returns when the session is open, the three
buffers exist, both sources hold the batch, and the combined upload allocation
stays within 32-bit arithmetic. -/
theorem render_batch_ok (sizeof_Vertex : Nat) (s : RmlRenderInterface_RT64)
    (vertices : Nat → Option Nat) (num_vertices : Nat)
    (indices : Nat → Option Nat) (num_indices : Nat) (texture : Nat)
    (hopen : session_open s = true)
    (hvb : s.vertex_buffer_.isSome = true) (hib : s.index_buffer_.isSome = true)
    (hub : s.upload_buffer_.isSome = true)
    (htex : contains s.textures_ texture = true)
    (hvalid : arena_valid s = true)
    (hcall : call_in_range s
      (.allocate (u32 (num_vertices * sizeof_Vertex) + u32 (num_indices * sizeof_int))) = true)
    (hreadv : source_readable vertices 0 (u32 (num_vertices * sizeof_Vertex)) = true)
    (hreadi : source_readable indices 0 (u32 (num_indices * sizeof_int)) = true) :
    ∃ s1, render_batch sizeof_Vertex s vertices num_vertices indices num_indices texture
      = .ok s1 := by
  obtain ⟨s3, offset, commands, vb, ib, ub, hrun, hcmds, hvbe, hibe, hube, ht3⟩ :=
    render_batch_ready sizeof_Vertex s vertices num_vertices indices num_indices texture
      hopen hvb hib hub hvalid hcall hreadv hreadi
  have hl : (lookup s3.textures_ texture).isSome = true := by
    rw [lookup_isSome, ht3]
    exact htex
  obtain ⟨t, hte⟩ := Option.isSome_iff_exists.mp hl
  rw [hrun]
  unfold record_draw
  simp only [hcmds, hvbe, hibe, hube, hte]
  exact ⟨_, rfl⟩

/-- A batch whose texture is not in the map never draws: when it is ready as in
`render_batch_ready` it runs up to `textures_.at(texture)`, which throws
`std::out_of_range`. -/
theorem render_batch_unknown (sizeof_Vertex : Nat) (s : RmlRenderInterface_RT64)
    (vertices : Nat → Option Nat) (num_vertices : Nat)
    (indices : Nat → Option Nat) (num_indices : Nat) (texture : Nat)
    (hopen : session_open s = true)
    (hvb : s.vertex_buffer_.isSome = true) (hib : s.index_buffer_.isSome = true)
    (hub : s.upload_buffer_.isSome = true)
    (htex : contains s.textures_ texture = false)
    (hvalid : arena_valid s = true)
    (hcall : call_in_range s
      (.allocate (u32 (num_vertices * sizeof_Vertex) + u32 (num_indices * sizeof_int))) = true)
    (hreadv : source_readable vertices 0 (u32 (num_vertices * sizeof_Vertex)) = true)
    (hreadi : source_readable indices 0 (u32 (num_indices * sizeof_int)) = true) :
    render_batch sizeof_Vertex s vertices num_vertices indices num_indices texture
      = .error Fault.out_of_range_exception := by
  obtain ⟨s3, offset, commands, vb, ib, ub, hrun, hcmds, hvbe, hibe, hube, ht3⟩ :=
    render_batch_ready sizeof_Vertex s vertices num_vertices indices num_indices texture
      hopen hvb hib hub hvalid hcall hreadv hreadi
  have hl : lookup s3.textures_ texture = none := by
    have h := lookup_isSome s3.textures_ texture
    rw [ht3, htex] at h
    cases hlk : lookup s3.textures_ texture with
    | none => rfl
    | some v => rw [ht3] at hlk; rw [hlk] at h; cases h
  rw [hrun]
  unfold record_draw
  simp only [hcmds, hvbe, hibe, hube, hl]

theorem RenderGeometry_steps (pw : PointerWidth) (ndebug : Bool) (sizeof_Vertex : Nat)
    (s s2 : RmlRenderInterface_RT64) (vertices : Nat → Option Nat) (num_vertices : Nat)
    (indices : Nat → Option Nat) (num_indices : Nat) (texture : Nat)
    (h : RenderGeometry pw ndebug sizeof_Vertex s vertices num_vertices indices num_indices texture
      = .ok s2) :
    ∃ s1, ensure_texture pw ndebug s texture = .ok s1 ∧
      render_batch sizeof_Vertex s1 vertices num_vertices indices num_indices texture
        = .ok s2 := by
  unfold RenderGeometry at h
  split at h
  · cases h
  · rename_i s1 he
    exact ⟨s1, he, h⟩

/-! ## Retirement list -/

/-- C11: the retirement list is emptied only by `start`: a
`resize_upload_buffer`, `resize_vertex_buffer` or `resize_index_buffer` that
supersedes an existing buffer appends exactly that buffer; `allocate_upload_data`,
`allocate_upload_data_aligned`, `RenderGeometry` and `create_texture` (whenever
they return), `ReleaseTexture` and `end` keep the old list as a prefix of the new
one, so they remove nothing; and `start` leaves the list empty. -/
theorem retirement_list_emptied_only_by_start :
    (∀ (s : RmlRenderInterface_RT64) (new_size : Nat) (map : Bool) (b : RenderBuffer),
      s.upload_buffer_ = some b →
      (resize_upload_buffer s new_size map).stale_buffers_ = s.stale_buffers_ ++ [b]) ∧
    (∀ (s : RmlRenderInterface_RT64) (new_size : Nat) (b : RenderBuffer),
      s.vertex_buffer_ = some b →
      (resize_vertex_buffer s new_size).stale_buffers_ = s.stale_buffers_ ++ [b]) ∧
    (∀ (s : RmlRenderInterface_RT64) (new_size : Nat) (b : RenderBuffer),
      s.index_buffer_ = some b →
      (resize_index_buffer s new_size).stale_buffers_ = s.stale_buffers_ ++ [b]) ∧
    (∀ (s : RmlRenderInterface_RT64) (n : Nat),
      s.stale_buffers_ <+: (allocate_upload_data s n).2.stale_buffers_) ∧
    (∀ (s : RmlRenderInterface_RT64) (n a : Nat) (r : Nat × RmlRenderInterface_RT64),
      allocate_upload_data_aligned s n a = .ok r →
      s.stale_buffers_ <+: r.2.stale_buffers_) ∧
    (∀ (pw : PointerWidth) (ndebug : Bool) (sizeof_Vertex : Nat) (s s1 : RmlRenderInterface_RT64)
      (vertices : Nat → Option Nat) (num_vertices : Nat) (indices : Nat → Option Nat)
      (num_indices texture : Nat),
      RenderGeometry pw ndebug sizeof_Vertex s vertices num_vertices indices num_indices texture
        = .ok s1 →
      s.stale_buffers_ <+: s1.stale_buffers_) ∧
    (∀ (pw : PointerWidth) (s : RmlRenderInterface_RT64) (handle : Nat)
      (source : Nat → Option Nat) (width height : Nat) (flip_y : Bool)
      (r : Bool × RmlRenderInterface_RT64),
      create_texture pw s handle source width height flip_y = .ok r →
      s.stale_buffers_ <+: r.2.stale_buffers_) ∧
    (∀ (s : RmlRenderInterface_RT64) (texture : Nat),
      (ReleaseTexture s texture).stale_buffers_ = s.stale_buffers_) ∧
    (∀ s : RmlRenderInterface_RT64, (end_ s).stale_buffers_ = s.stale_buffers_) ∧
    (∀ (s : RmlRenderInterface_RT64) (image_width image_height : Nat),
      (start s image_width image_height).stale_buffers_ = []) := by
  refine ⟨?_, ?_, ?_, ?_, ?_, ?_, ?_, fun _ _ => rfl, fun _ => rfl, fun _ _ _ => rfl⟩
  · intro s new_size map b hb
    rw [resize_upload_buffer_stale, hb]
    rfl
  · intro s new_size b hb
    rw [resize_vertex_buffer_stale, hb]
    rfl
  · intro s new_size b hb
    rw [resize_index_buffer_stale, hb]
    rfl
  · intro s n
    exact (arena_step_allocate s n).2.2.2.2.2.2.2.2.2
  · intro s n a r h
    exact (arena_step_allocate_aligned s n a r h).2.2.2.2.2.2.2.2.2
  · intro pw ndebug sizeof_Vertex s s2 vertices num_vertices indices num_indices texture h
    obtain ⟨s1, he, hb⟩ := RenderGeometry_steps _ _ _ _ _ _ _ _ _ _ h
    obtain ⟨-, -, -, -, -, e6, -, -⟩ := ensure_texture_frame pw ndebug s s1 texture he
    obtain ⟨-, -, -, -, -, b6, -⟩ := render_batch_frame _ _ _ _ _ _ _ _ hb
    exact e6.trans b6
  · intro pw s handle source width height flip_y r h
    obtain ⟨-, -, -, -, -, -, -, c8, -⟩ :=
      create_texture_frame pw s handle source width height flip_y r.1 r.2 h
    exact c8

/-- C11 witness: in the example session with one retired buffer already on the
list, a `RenderGeometry` call of 3 vertices and 3 indices with handle 0 returns
a state whose list still holds that buffer, and the next `start` empties it. -/
theorem retirement_list_emptied_only_by_start_witness :
    (allocate_upload_data example_session 2000000).2.stale_buffers_
      = [RenderBuffer.mk 0 BufferKind.upload 1048576] ∧
    (∀ s1, RenderGeometry PointerWidth.bits64 false 20
        (allocate_upload_data example_session 2000000).2
        (constant_source 60 1) 3 (constant_source 12 1) 3 0 = .ok s1 →
      (allocate_upload_data example_session 2000000).2.stale_buffers_ <+: s1.stale_buffers_) ∧
    (value_of (RenderGeometry PointerWidth.bits64 false 20
        (allocate_upload_data example_session 2000000).2
        (constant_source 60 1) 3 (constant_source 12 1) 3 0)).map
      (fun s1 => (s1.stale_buffers_, (start s1 640 480).stale_buffers_))
      = some ([RenderBuffer.mk 0 BufferKind.upload 1048576], []) :=
  ⟨by decide,
   fun s1 h => retirement_list_emptied_only_by_start.2.2.2.2.2.1 PointerWidth.bits64 false 20
     (allocate_upload_data example_session 2000000).2 s1
     (constant_source 60 1) 3 (constant_source 12 1) 3 0 h,
   by decide⟩

/-! ## Geometry buffers -/

theorem source_readable_constant (length value n : Nat) (h : n ≤ length) :
    source_readable (constant_source length value) 0 n = true := by
  rw [source_readable_iff]
  intro i hi
  have : i < length := by omega
  simp [constant_source, this]

/-- A `RenderGeometry` call with a known texture returns when the session is
open, the buffers exist, the sources hold the batch and the combined upload
allocation stays within 32-bit arithmetic. -/
theorem RenderGeometry_known_ok (pw : PointerWidth) (ndebug : Bool) (sizeof_Vertex : Nat)
    (s : RmlRenderInterface_RT64) (vertices : Nat → Option Nat) (num_vertices : Nat)
    (indices : Nat → Option Nat) (num_indices : Nat) (texture : Nat)
    (hopen : session_open s = true)
    (hvb : s.vertex_buffer_.isSome = true) (hib : s.index_buffer_.isSome = true)
    (hub : s.upload_buffer_.isSome = true)
    (htex : contains s.textures_ texture = true)
    (hvalid : arena_valid s = true)
    (hcall : call_in_range s
      (.allocate (u32 (num_vertices * sizeof_Vertex) + u32 (num_indices * sizeof_int))) = true)
    (hreadv : source_readable vertices 0 (u32 (num_vertices * sizeof_Vertex)) = true)
    (hreadi : source_readable indices 0 (u32 (num_indices * sizeof_int)) = true) :
    ∃ s1, RenderGeometry pw ndebug sizeof_Vertex s vertices num_vertices indices num_indices texture
      = .ok s1 := by
  obtain ⟨s1, h⟩ := render_batch_ok sizeof_Vertex s vertices num_vertices indices num_indices
    texture hopen hvb hib hub htex hvalid hcall hreadv hreadi
  refine ⟨s1, ?_⟩
  unfold RenderGeometry ensure_texture
  simp only [htex, if_true]
  exact h

/-- Every returning `RenderGeometry`: the capacities follow the two growth
checks on the truncated byte sizes and the superseded buffers end the
retirement list. -/
theorem RenderGeometry_capacities (pw : PointerWidth) (ndebug : Bool) (sizeof_Vertex : Nat)
    (s s2 : RmlRenderInterface_RT64) (vertices : Nat → Option Nat) (num_vertices : Nat)
    (indices : Nat → Option Nat) (num_indices : Nat) (texture : Nat)
    (h : RenderGeometry pw ndebug sizeof_Vertex s vertices num_vertices indices num_indices texture
      = .ok s2) :
    s2.vertex_buffer_size_
      = (if u32 (num_vertices * sizeof_Vertex) > s.vertex_buffer_size_
          then u32 (u32 (num_vertices * sizeof_Vertex) + u32 (num_vertices * sizeof_Vertex) / 2)
          else s.vertex_buffer_size_) ∧
    s2.index_buffer_size_
      = (if u32 (num_indices * sizeof_int) > s.index_buffer_size_
          then u32 (u32 (num_indices * sizeof_int) + u32 (num_indices * sizeof_int) / 2)
          else s.index_buffer_size_) ∧
    (∃ retired, s.stale_buffers_ <+: retired ∧
      s2.stale_buffers_ = retired
        ++ (if u32 (num_vertices * sizeof_Vertex) > s.vertex_buffer_size_
            then s.vertex_buffer_.toList else [])
        ++ (if u32 (num_indices * sizeof_int) > s.index_buffer_size_
            then s.index_buffer_.toList else [])) ∧
    (u32 (num_vertices * sizeof_Vertex) ≤ s.vertex_buffer_size_ →
      s2.vertex_buffer_ = s.vertex_buffer_) ∧
    (u32 (num_indices * sizeof_int) ≤ s.index_buffer_size_ →
      s2.index_buffer_ = s.index_buffer_) := by
  obtain ⟨s1, he, hb⟩ := RenderGeometry_steps _ _ _ _ _ _ _ _ _ _ h
  obtain ⟨-, e2, e3, e4, e5, e6, -, -⟩ := ensure_texture_frame pw ndebug s s1 texture he
  obtain ⟨-, -, b3, b4, b5, -, b7, b8, -, -⟩ := render_batch_frame _ _ _ _ _ _ _ _ hb
  rw [e4] at b3 b5 b7
  rw [e5] at b4 b5 b8
  rw [e2] at b5 b7
  rw [e3] at b5 b8
  refine ⟨b3, b4, ⟨_, ?_, b5⟩, b7, b8⟩
  exact e6.trans (arena_step_allocate s1 _).2.2.2.2.2.2.2.2.2

/-- C12 (amended): every `RenderGeometry` call with a known texture, made in an
open session with the three buffers in place, sources holding the batch and the
upload allocation in 32-bit range, returns; and for every returning call whose
vertex byte size `v = num_vertices * sizeof(Vertex)` and index byte size
`i = num_indices * sizeof(int)` satisfy `1.5 * v < 2^32` and `1.5 * i < 2^32`:
if `v` (resp. `i`) exceeds the vertex (resp. index) capacity, that capacity
becomes `1.5 * v` (resp. `1.5 * i`) rounded down and the old buffer is appended
to the retirement list; otherwise capacity and buffer are unchanged; hence each
capacity is at least the batch's byte size afterwards and neither decreases. -/
theorem geometry_buffers_grow :
    (∀ (pw : PointerWidth) (ndebug : Bool) (sizeof_Vertex : Nat) (s : RmlRenderInterface_RT64)
      (vertices : Nat → Option Nat) (num_vertices : Nat) (indices : Nat → Option Nat)
      (num_indices texture : Nat),
      session_open s = true → s.vertex_buffer_.isSome = true →
      s.index_buffer_.isSome = true → s.upload_buffer_.isSome = true →
      contains s.textures_ texture = true → arena_valid s = true →
      call_in_range s
        (.allocate (u32 (num_vertices * sizeof_Vertex) + u32 (num_indices * sizeof_int)))
        = true →
      source_readable vertices 0 (u32 (num_vertices * sizeof_Vertex)) = true →
      source_readable indices 0 (u32 (num_indices * sizeof_int)) = true →
      ∃ s1, RenderGeometry pw ndebug sizeof_Vertex s vertices num_vertices indices num_indices texture
        = .ok s1) ∧
    (∀ (pw : PointerWidth) (ndebug : Bool) (sizeof_Vertex : Nat) (s s1 : RmlRenderInterface_RT64)
      (vertices : Nat → Option Nat) (num_vertices : Nat) (indices : Nat → Option Nat)
      (num_indices texture : Nat),
      RenderGeometry pw ndebug sizeof_Vertex s vertices num_vertices indices num_indices texture
        = .ok s1 →
      num_vertices * sizeof_Vertex + num_vertices * sizeof_Vertex / 2 < 4294967296 →
      num_indices * sizeof_int + num_indices * sizeof_int / 2 < 4294967296 →
      (num_vertices * sizeof_Vertex > s.vertex_buffer_size_ →
        s1.vertex_buffer_size_ = 3 * (num_vertices * sizeof_Vertex) / 2) ∧
      (num_vertices * sizeof_Vertex ≤ s.vertex_buffer_size_ →
        s1.vertex_buffer_size_ = s.vertex_buffer_size_ ∧
        s1.vertex_buffer_ = s.vertex_buffer_) ∧
      (num_indices * sizeof_int > s.index_buffer_size_ →
        s1.index_buffer_size_ = 3 * (num_indices * sizeof_int) / 2) ∧
      (num_indices * sizeof_int ≤ s.index_buffer_size_ →
        s1.index_buffer_size_ = s.index_buffer_size_ ∧
        s1.index_buffer_ = s.index_buffer_) ∧
      (∃ retired, s.stale_buffers_ <+: retired ∧
        s1.stale_buffers_ = retired
          ++ (if num_vertices * sizeof_Vertex > s.vertex_buffer_size_
              then s.vertex_buffer_.toList else [])
          ++ (if num_indices * sizeof_int > s.index_buffer_size_
              then s.index_buffer_.toList else [])) ∧
      num_vertices * sizeof_Vertex ≤ s1.vertex_buffer_size_ ∧
      num_indices * sizeof_int ≤ s1.index_buffer_size_ ∧
      s.vertex_buffer_size_ ≤ s1.vertex_buffer_size_ ∧
      s.index_buffer_size_ ≤ s1.index_buffer_size_) := by
  refine ⟨RenderGeometry_known_ok, ?_⟩
  intro pw ndebug sizeof_Vertex s s1 vertices num_vertices indices num_indices texture h hv hi
  obtain ⟨c1, c2, c3, c4, c5⟩ := RenderGeometry_capacities _ _ _ _ _ _ _ _ _ _ h
  have ev : u32 (num_vertices * sizeof_Vertex) = num_vertices * sizeof_Vertex :=
    u32_of_lt (by omega)
  have ei : u32 (num_indices * sizeof_int) = num_indices * sizeof_int :=
    u32_of_lt (by omega)
  rw [ev] at c1 c3 c4
  rw [ei] at c2 c3 c5
  rw [u32_of_lt hv] at c1
  rw [u32_of_lt hi] at c2
  refine ⟨?_, ?_, ?_, ?_, c3, ?_, ?_, ?_, ?_⟩
  · intro hgt
    rw [c1, if_pos hgt]
    omega
  · intro hle
    rw [c1, if_neg (by omega)]
    exact ⟨rfl, c4 hle⟩
  · intro hgt
    rw [c2, if_pos hgt]
    omega
  · intro hle
    rw [c2, if_neg (by omega)]
    exact ⟨rfl, c5 hle⟩
  · rw [c1]
    split <;> omega
  · rw [c2]
    split <;> omega
  · rw [c1]
    split <;> omega
  · rw [c2]
    split <;> omega

/-- C12 witness: in the textured example session a batch of 1000 vertices
(20000 bytes) and 2000 indices (8000 bytes) returns, the vertex capacity grows
from 10240 to 30000 and the index capacity from 4096 to 12000. -/
theorem geometry_buffers_grow_witness :
    ∃ s1, RenderGeometry PointerWidth.bits64 false 20 textured_session
        (constant_source 20000 1) 1000 (constant_source 8000 1) 2000 1 = .ok s1 ∧
      s1.vertex_buffer_size_ = 3 * (1000 * 20) / 2 ∧
      s1.index_buffer_size_ = 3 * (2000 * sizeof_int) / 2 ∧
      1000 * 20 ≤ s1.vertex_buffer_size_ ∧ 2000 * sizeof_int ≤ s1.index_buffer_size_ := by
  obtain ⟨s1, h⟩ := geometry_buffers_grow.1 PointerWidth.bits64 false 20 textured_session
    (constant_source 20000 1) 1000 (constant_source 8000 1) 2000 1
    (by decide) (by decide) (by decide) (by decide) (by decide) (by decide) (by decide)
    (source_readable_constant 20000 1 _ (by decide))
    (source_readable_constant 8000 1 _ (by decide))
  obtain ⟨h1, -, h3, -, -, h6, h7, -, -⟩ := geometry_buffers_grow.2 PointerWidth.bits64 false 20
    textured_session s1 (constant_source 20000 1) 1000 (constant_source 8000 1) 2000 1 h
    (by decide) (by decide)
  exact ⟨s1, h, h1 (by decide), h3 (by decide), h6, h7⟩

/-- C12 counterexample: (1) a batch of 214748365 vertices of 20 bytes has
4294967300 bytes, which `vert_size_bytes` truncates to 4: the call returns with
the vertex capacity still 10240, below the batch's byte size; (2) with an upload
arena of 3000000384 bytes, a batch of 150000000 vertices (3000000000 bytes)
returns with the vertex capacity wrapped to 205032704, below the batch's byte
size. -/
theorem geometry_buffers_grow_counterexample :
    ((value_of (RenderGeometry PointerWidth.bits64 false 20 textured_session
        (constant_source 4294967300 1) 214748365 (constant_source 12 1) 3 1)).map
      (fun s1 => s1.vertex_buffer_size_) = some 10240 ∧
      textured_session.vertex_buffer_size_ < 214748365 * 20) ∧
    (∃ s1, RenderGeometry PointerWidth.bits64 false 20 large_arena_session
        (constant_source 3000000000 1) 150000000 (constant_source 0 1) 0 1 = .ok s1 ∧
      large_arena_session.vertex_buffer_size_ < 150000000 * 20 ∧
      s1.vertex_buffer_size_ = 205032704 ∧
      s1.vertex_buffer_size_ < 150000000 * 20) := by
  refine ⟨by decide, ?_⟩
  obtain ⟨s1, h⟩ := RenderGeometry_known_ok PointerWidth.bits64 false 20 large_arena_session
    (constant_source 3000000000 1) 150000000 (constant_source 0 1) 0 1
    (by decide) (by decide) (by decide) (by decide) (by decide) (by decide) (by decide)
    (source_readable_constant 3000000000 1 _ (by decide))
    (source_readable_constant 0 1 _ (by decide))
  have hcap := (RenderGeometry_capacities _ _ _ _ _ _ _ _ _ _ h).1
  have hval : s1.vertex_buffer_size_ = 205032704 := hcap.trans (by decide)
  exact ⟨s1, h, by decide, hval, by rw [hval]; decide⟩

/-! ## Texture handles -/

/-- Every returning `LoadTexture` either hands out no handle and leaves the
handle counter and the texture map alone, or hands out the current counter and
ends in the state `create_texture` returned. -/
theorem LoadTexture_outcome (pw : PointerWidth) (s : RmlRenderInterface_RT64) (extension : String)
    (file_data : List Nat) (r : LoadTextureResult × RmlRenderInterface_RT64)
    (h : LoadTexture pw s extension file_data = .ok r) :
    (r.1.texture_handle = none ∧ r.2.texture_count_ = s.texture_count_ ∧
      r.2.textures_ = s.textures_) ∨
    (∃ created, create_texture pw (take_texture_handle pw (check_descriptor s (byte_at file_data 17))).2
        (take_texture_handle pw (check_descriptor s (byte_at file_data 17))).1
        (file_source file_data 18) (le16_at file_data 12) (le16_at file_data 14) true
        = .ok created ∧ r.2 = created.2 ∧
      r.1.texture_handle = some s.texture_count_) := by
  by_cases hlen : 18 ≤ file_data.length
  · by_cases hext : extension = ".tga"
    · subst hext
      rw [LoadTexture_of_header pw s file_data hlen] at h
      split_ifs at h
      all_goals first
        | (cases h; exact Or.inl ⟨rfl, rfl, rfl⟩)
        | skip
      split at h
      · cases h
      · rename_i created hc
        cases h
        exact Or.inr ⟨created, hc, rfl, by
          unfold take_texture_handle check_descriptor print
          split_ifs <;> rfl⟩
    · unfold LoadTexture at h
      rw [if_neg hext] at h
      cases h
      exact Or.inl ⟨rfl, rfl, rfl⟩
  · have h17 : read_byte file_data 17 = .error Fault.out_of_bounds_read := by
      unfold read_byte
      rw [List.getElem?_eq_none (by omega)]
    unfold LoadTexture at h
    simp only [bind, Except.bind, pure, Except.pure, h17] at h
    repeat' split at h
    all_goals first
      | (cases h; done)
      | (cases h; exact Or.inl ⟨rfl, rfl, rfl⟩)

theorem keys_below_counter_iff (s : RmlRenderInterface_RT64) :
    keys_below_counter s = true ↔
      ∀ e ∈ s.textures_, e.1 = 0 ∨ e.1 < s.texture_count_ := by
  simp [keys_below_counter, List.all_eq_true]

theorem mem_emplace (m : List (Nat × TextureHandle)) (key : Nat) (value : TextureHandle)
    (e : Nat × TextureHandle) (h : e ∈ emplace m key value) : e ∈ m ∨ e.1 = key := by
  unfold emplace at h
  split at h
  · exact Or.inl h
  · rcases List.mem_append.mp h with h1 | h1
    · exact Or.inl h1
    · simp only [List.mem_singleton] at h1
      rw [h1]
      exact Or.inr rfl

/-- One call of the texture interface, made while the handle counter cannot
wrap: the counter moves by at most one, a returned handle is the old counter
(and the counter then moves), and the keys stay below the counter. -/
theorem run_texture_call_step (pw : PointerWidth) (s : RmlRenderInterface_RT64)
    (c : TextureCall) (r : Option Nat × RmlRenderInterface_RT64)
    (h : run_texture_call pw s c = .ok r)
    (hM : s.texture_count_ + 1 < pw.modulus) :
    s.texture_count_ ≤ r.2.texture_count_ ∧
    r.2.texture_count_ ≤ s.texture_count_ + 1 ∧
    (∀ x, r.1 = some x → x = s.texture_count_ ∧ r.2.texture_count_ = s.texture_count_ + 1) ∧
    (keys_below_counter s = true → keys_below_counter r.2 = true) := by
  have hmod : (s.texture_count_ + 1) % pw.modulus = s.texture_count_ + 1 :=
    Nat.mod_eq_of_lt hM
  -- what `create_texture` after taking a handle does to the counter and the keys
  have hcreate : ∀ (s0 : RmlRenderInterface_RT64) (source : Nat → Option Nat)
      (w ht : Nat) (flip : Bool) (created : Bool × RmlRenderInterface_RT64),
      s0.texture_count_ = s.texture_count_ → s0.textures_ = s.textures_ →
      create_texture pw (take_texture_handle pw s0).2 (take_texture_handle pw s0).1
        source w ht flip = .ok created →
      created.2.texture_count_ = s.texture_count_ + 1 ∧
      (keys_below_counter s = true → keys_below_counter created.2 = true) := by
    intro s0 source w ht flip created hc0 ht0 hrun
    obtain ⟨c1, -, -, -, -, -, -, -, c9⟩ :=
      create_texture_frame pw _ _ source w ht flip created.1 created.2 hrun
    have hcount : created.2.texture_count_ = s.texture_count_ + 1 := by
      rw [c1]
      show (s0.texture_count_ + 1) % pw.modulus = _
      rw [hc0, hmod]
    refine ⟨hcount, ?_⟩
    intro hk
    rw [keys_below_counter_iff] at hk ⊢
    intro e he
    rw [hcount]
    rcases c9 with ⟨-, htex, -⟩ | ⟨-, v, -, -, htex⟩
    · rw [htex] at he
      have he' : e ∈ s.textures_ := by
        have : (take_texture_handle pw s0).2.textures_ = s.textures_ := ht0
        rw [this] at he
        exact he
      rcases hk e he' with h0 | h0
      · exact Or.inl h0
      · exact Or.inr (by omega)
    · rw [htex] at he
      rcases mem_emplace _ _ _ _ he with h1 | h1
      · have he' : e ∈ s.textures_ := by
          have : (take_texture_handle pw s0).2.textures_ = s.textures_ := ht0
          rw [this] at h1
          exact h1
        rcases hk e he' with h0 | h0
        · exact Or.inl h0
        · exact Or.inr (by omega)
      · have : (take_texture_handle pw s0).1 = s.texture_count_ := hc0
        rw [this] at h1
        exact Or.inr (by omega)
  cases c with
  | load extension file_data =>
    simp only [run_texture_call] at h
    split at h
    · cases h
    · rename_i r0 hload
      cases h
      dsimp only
      rcases LoadTexture_outcome pw s extension file_data r0 hload with
        ⟨hnone, hcount, htex⟩ | ⟨created, hrun, hstate, hsome⟩
      · refine ⟨by rw [hcount], by rw [hcount]; omega, ?_, ?_⟩
        · intro x hx
          rw [hnone] at hx
          cases hx
        · intro hk
          rw [keys_below_counter_iff] at hk ⊢
          rw [hcount, htex]
          exact hk
      · have hcd : (check_descriptor s (byte_at file_data 17)).texture_count_
            = s.texture_count_ ∧
            (check_descriptor s (byte_at file_data 17)).textures_ = s.textures_ := by
          unfold check_descriptor print
          split_ifs <;> exact ⟨rfl, rfl⟩
        obtain ⟨hcount, hkeys⟩ := hcreate _ _ _ _ _ created hcd.1 hcd.2 hrun
        rw [← hstate] at hcount hkeys
        refine ⟨by omega, by omega, ?_, hkeys⟩
        intro x hx
        rw [hsome] at hx
        cases hx
        exact ⟨rfl, hcount⟩
  | generate source width height =>
    simp only [run_texture_call] at h
    split at h
    · cases h
    · rename_i r0 hgen
      cases h
      unfold GenerateTexture at hgen
      simp only [] at hgen
      split at hgen
      · cases hgen
      · rename_i b s1 hrun
        cases hgen
        obtain ⟨hcount, hkeys⟩ := hcreate s source width height false (b, s1) rfl rfl hrun
        dsimp only at hcount hkeys ⊢
        refine ⟨by omega, by omega, ?_, hkeys⟩
        intro x hx
        cases hx
        exact ⟨rfl, hcount⟩
  | release texture =>
    simp only [run_texture_call] at h
    cases h
    refine ⟨Nat.le_refl _, Nat.le_succ _, ?_, ?_⟩
    · intro x hx
      cases hx
    · intro hk
      rw [keys_below_counter_iff] at hk ⊢
      intro e he
      have he' : e ∈ s.textures_ := by
        simp only [ReleaseTexture, List.mem_filter] at he
        exact he.1
      exact hk e he'

/-- Along a trace on which the handle counter cannot wrap, the returned handles
ascend strictly from the initial counter and the keys stay below the counter. -/
theorem run_texture_calls_ascending (pw : PointerWidth) :
    ∀ (cs : List TextureCall) (s : RmlRenderInterface_RT64),
      keys_below_counter s = true →
      s.texture_count_ + cs.length < pw.modulus →
      (returned_handles (run_texture_calls pw s cs)).Pairwise (fun x y => x < y) ∧
      (∀ x ∈ returned_handles (run_texture_calls pw s cs), s.texture_count_ ≤ x) ∧
      (∀ e ∈ run_texture_calls pw s cs, keys_below_counter e.2 = true) := by
  intro cs
  induction cs with
  | nil =>
    intro s _ _
    exact ⟨List.Pairwise.nil, (by intro x hx; cases hx), (by intro e he; cases he)⟩
  | cons c cs ih =>
    intro s hk hM
    simp only [List.length_cons] at hM
    simp only [run_texture_calls]
    split
    · exact ⟨List.Pairwise.nil, (by intro x hx; cases hx), (by intro e he; cases he)⟩
    · rename_i r hrun
      obtain ⟨h1, h2, h3, h4⟩ := run_texture_call_step pw s c r hrun (by omega)
      obtain ⟨ih1, ih2, ih3⟩ := ih r.2 (h4 hk) (by omega)
      refine ⟨?_, ?_, ?_⟩
      · cases hr : r.1 with
        | none =>
          simp only [returned_handles, List.filterMap_cons, hr]
          exact ih1
        | some x =>
          simp only [returned_handles, List.filterMap_cons, hr]
          refine List.Pairwise.cons ?_ ih1
          intro y hy
          have := ih2 y hy
          have := h3 x hr
          omega
      · intro x hx
        cases hr : r.1 with
        | none =>
          simp only [returned_handles, List.filterMap_cons, hr] at hx
          have := ih2 x hx
          omega
        | some y =>
          simp only [returned_handles, List.filterMap_cons, hr, List.mem_cons] at hx
          rcases hx with rfl | hx
          · have := h3 x hr
            omega
          · have := ih2 x hx
            omega
      · intro e he
        rcases List.mem_cons.mp he with rfl | he
        · exact h4 hk
        · exact ih3 e he

/-- C13 (amended): across every sequence of `LoadTexture`, `GenerateTexture`
and `ReleaseTexture` calls that starts with a nonzero handle counter and all
nonzero keys of the texture map below it (as after construction) and is short
enough for the `uintptr_t` counter not to wrap (counter + number of calls below
2^32 resp. 2^64), every handle returned by `LoadTexture` or `GenerateTexture` is
nonzero and different from every handle returned earlier, also after releases,
and after every call every key of the texture map other than 0 is below the
handle counter. -/
theorem texture_handles_unique (pw : PointerWidth) (s : RmlRenderInterface_RT64)
    (cs : List TextureCall)
    (hstart : 1 ≤ s.texture_count_) (hkeys : keys_below_counter s = true)
    (hwrap : s.texture_count_ + cs.length < pw.modulus) :
    (returned_handles (run_texture_calls pw s cs)).Nodup ∧
    (∀ x ∈ returned_handles (run_texture_calls pw s cs), x ≠ 0) ∧
    (∀ e ∈ run_texture_calls pw s cs, keys_below_counter e.2 = true) := by
  obtain ⟨h1, h2, h3⟩ := run_texture_calls_ascending pw cs s hkeys hwrap
  refine ⟨?_, ?_, h3⟩
  · exact h1.imp (fun hlt => Nat.ne_of_lt hlt)
  · intro x hx
    have := h2 x hx
    omega

/-- C13 witness: in the example session the sequence generate, load (a valid
1×1 file), release 1, generate hands out distinct nonzero handles. -/
theorem texture_handles_unique_witness :
    (returned_handles (run_texture_calls PointerWidth.bits64 example_session
      [.generate white_pixel 1 1, .load ".tga" (tga_file 0 0 2 0 0 1 1 32 8 [1, 2, 3, 4]),
       .release 1, .generate white_pixel 1 1])).Nodup ∧
    (∀ x ∈ returned_handles (run_texture_calls PointerWidth.bits64 example_session
      [.generate white_pixel 1 1, .load ".tga" (tga_file 0 0 2 0 0 1 1 32 8 [1, 2, 3, 4]),
       .release 1, .generate white_pixel 1 1]), x ≠ 0) ∧
    (∀ e ∈ run_texture_calls PointerWidth.bits64 example_session
      [.generate white_pixel 1 1, .load ".tga" (tga_file 0 0 2 0 0 1 1 32 8 [1, 2, 3, 4]),
       .release 1, .generate white_pixel 1 1], keys_below_counter e.2 = true) ∧
    returned_handles (run_texture_calls PointerWidth.bits64 example_session
      [.generate white_pixel 1 1, .load ".tga" (tga_file 0 0 2 0 0 1 1 32 8 [1, 2, 3, 4]),
       .release 1, .generate white_pixel 1 1]) = [1, 2, 3] := by
  obtain ⟨h1, h2, h3⟩ := texture_handles_unique PointerWidth.bits64 example_session
    [.generate white_pixel 1 1, .load ".tga" (tga_file 0 0 2 0 0 1 1 32 8 [1, 2, 3, 4]),
     .release 1, .generate white_pixel 1 1] (by decide) (by decide) (by decide)
  exact ⟨h1, h2, h3, by decide⟩

/-- On a device that serves no texture, `GenerateTexture` only takes a handle. -/
theorem GenerateTexture_refused (pw : PointerWidth) (s : RmlRenderInterface_RT64)
    (source : Nat → Option Nat) (width height : Nat)
    (hdev : s.device.texture_available width height = false) :
    GenerateTexture pw s source width height
      = .ok ((false, s.texture_count_), (take_texture_handle pw s).2) := by
  unfold GenerateTexture create_texture createTexture
  have : (take_texture_handle pw s).2.device.texture_available width height = false := hdev
  simp only [this]
  rfl

/-- On a device that serves no texture, `n` calls of `GenerateTexture` return
the handles `counter, counter + 1, ...` reduced modulo the pointer range. -/
theorem generate_refused_handles (pw : PointerWidth) (source : Nat → Option Nat)
    (width height : Nat) :
    ∀ (n : Nat) (s : RmlRenderInterface_RT64),
      s.device.texture_available width height = false →
      s.texture_count_ < pw.modulus →
      returned_handles (run_texture_calls pw s
          (List.replicate n (TextureCall.generate source width height)))
        = (List.range n).map (fun k => (s.texture_count_ + k) % pw.modulus) := by
  intro n
  induction n with
  | zero =>
    intro s _ _
    rfl
  | succ n ih =>
    intro s hdev hlt
    have hpos : 0 < pw.modulus := by omega
    have hnext := ih (take_texture_handle pw s).2 hdev (Nat.mod_lt _ hpos)
    simp only [List.replicate_succ, run_texture_calls, run_texture_call,
      GenerateTexture_refused pw s source width height hdev, returned_handles,
      List.filterMap_cons]
    rw [List.range_succ_eq_map, List.map_cons, List.map_map]
    have h0 : (s.texture_count_ + 0) % pw.modulus = s.texture_count_ :=
      Nat.mod_eq_of_lt hlt
    rw [h0]
    congr 1
    unfold returned_handles at hnext
    rw [hnext]
    apply List.map_congr_left
    intro k _
    show ((s.texture_count_ + 1) % pw.modulus + k) % pw.modulus
      = (s.texture_count_ + (k + 1)) % pw.modulus
    rw [Nat.mod_add_mod]
    congr 1
    omega

/-- C13 counterexample: on a device that serves no texture, starting from the
constructed renderer (counter 1, empty texture map), the last of 4294967296
`GenerateTexture` calls on a target with 32-bit pointers returns handle 0: the
`uintptr_t` counter has wrapped; likewise the last of 18446744073709551616 calls
on a 64-bit target. -/
theorem texture_handles_unique_counterexample :
    (construct refusing_device 20).texture_count_ = 1 ∧
    keys_below_counter (construct refusing_device 20) = true ∧
    0 ∈ returned_handles (run_texture_calls PointerWidth.bits32 (construct refusing_device 20)
      (List.replicate 4294967296 (TextureCall.generate white_pixel 1 1))) ∧
    0 ∈ returned_handles (run_texture_calls PointerWidth.bits64 (construct refusing_device 20)
      (List.replicate 18446744073709551616 (TextureCall.generate white_pixel 1 1))) := by
  refine ⟨by decide, by decide, ?_, ?_⟩
  · rw [generate_refused_handles PointerWidth.bits32 white_pixel 1 1 4294967296
      (construct refusing_device 20) (by decide) (by decide)]
    exact List.mem_map.mpr ⟨4294967295, List.mem_range.mpr (by decide), by decide⟩
  · rw [generate_refused_handles PointerWidth.bits64 white_pixel 1 1 18446744073709551616
      (construct refusing_device 20) (by decide) (by decide)]
    exact List.mem_map.mpr ⟨18446744073709551615, List.mem_range.mpr (by decide), by decide⟩

/-! ## Fallback texture -/

/-- C14 (amended): for every `RenderGeometry` call, in a build with or without
`NDEBUG`: (a) if the texture handle is 0 and the texture map has no entry for 0,
then, in an open frame session with the device creating the texture and the
staging allocation within 32-bit range, a 1×1 texture is created, its single
pixel staged as the bytes 255, 255, 255, 255 and copied by a recorded command,
and it is stored under handle 0 before the batch is drawn: the rest of the call
runs on that state, keeps the map and ends with the draw, and it returns
whenever the batch itself is ready in that state; (b) if an entry for the handle
exists, every returning call leaves the texture map unchanged; (c) if the handle
is nonzero and absent from the map, the call never returns normally, so there
is no draw: without `NDEBUG` it ends in the assertion failure; with `NDEBUG` the
assertion is compiled out, the rest of the call runs on the unchanged state and,
when the batch is ready, ends in the `std::out_of_range` of
`textures_.at(texture)`. -/
theorem fallback_texture :
    (∀ (pw : PointerWidth) (ndebug : Bool) (s : RmlRenderInterface_RT64),
      contains s.textures_ 0 = false →
      s.device.texture_available 1 1 = true → session_open s = true →
      upload_in_range s 1 1 = true →
      ∃ s1 heap, ensure_texture pw ndebug s 0 = .ok s1 ∧
        s1.textures_ = s.textures_
          ++ [(0, TextureHandle.mk (RenderTexture.mk s.device.next_id 1 1) heap)] ∧
        (∀ i, i < 4 → s1.upload_memory (staging_offset s 1 1 + i) = 255) ∧
        (∃ commands texture buffer, s.list_ = some commands ∧
          s1.list_ = some (commands ++
            [Command.textureBarrier texture true,
             Command.copyTextureRegion texture buffer 1 1 (padded_row_width 1 / 4)
               (staging_offset s 1 1),
             Command.textureBarrier texture false])) ∧
        (∀ (sizeof_Vertex : Nat) (vertices : Nat → Option Nat) (num_vertices : Nat)
          (indices : Nat → Option Nat) (num_indices : Nat),
          RenderGeometry pw ndebug sizeof_Vertex s vertices num_vertices indices num_indices 0
            = render_batch sizeof_Vertex s1 vertices num_vertices indices num_indices 0 ∧
          (∀ s2, RenderGeometry pw ndebug sizeof_Vertex s vertices num_vertices indices
              num_indices 0 = .ok s2 →
            s2.textures_ = s1.textures_ ∧
            ∃ commands, s2.list_ = some (commands ++ [Command.draw 0 num_indices])) ∧
          (session_open s1 = true →
            s1.vertex_buffer_.isSome = true → s1.index_buffer_.isSome = true →
            s1.upload_buffer_.isSome = true → arena_valid s1 = true →
            call_in_range s1 (.allocate
              (u32 (num_vertices * sizeof_Vertex) + u32 (num_indices * sizeof_int))) = true →
            source_readable vertices 0 (u32 (num_vertices * sizeof_Vertex)) = true →
            source_readable indices 0 (u32 (num_indices * sizeof_int)) = true →
            ∃ s2, RenderGeometry pw ndebug sizeof_Vertex s vertices num_vertices indices
              num_indices 0 = .ok s2))) ∧
    (∀ (pw : PointerWidth) (ndebug : Bool) (sizeof_Vertex : Nat)
      (s s2 : RmlRenderInterface_RT64)
      (vertices : Nat → Option Nat) (num_vertices : Nat) (indices : Nat → Option Nat)
      (num_indices texture : Nat),
      contains s.textures_ texture = true →
      RenderGeometry pw ndebug sizeof_Vertex s vertices num_vertices indices num_indices texture
        = .ok s2 →
      s2.textures_ = s.textures_) ∧
    (∀ (pw : PointerWidth) (ndebug : Bool) (sizeof_Vertex : Nat) (s : RmlRenderInterface_RT64)
      (vertices : Nat → Option Nat) (num_vertices : Nat) (indices : Nat → Option Nat)
      (num_indices texture : Nat),
      texture ≠ 0 → contains s.textures_ texture = false →
      (∀ s2, RenderGeometry pw ndebug sizeof_Vertex s vertices num_vertices indices
          num_indices texture ≠ .ok s2) ∧
      (ndebug = false →
        RenderGeometry pw ndebug sizeof_Vertex s vertices num_vertices indices num_indices
            texture
          = .error Fault.assertion_failure) ∧
      (ndebug = true →
        RenderGeometry pw ndebug sizeof_Vertex s vertices num_vertices indices num_indices
            texture
          = render_batch sizeof_Vertex s vertices num_vertices indices num_indices texture ∧
        (session_open s = true →
          s.vertex_buffer_.isSome = true → s.index_buffer_.isSome = true →
          s.upload_buffer_.isSome = true → arena_valid s = true →
          call_in_range s (.allocate
            (u32 (num_vertices * sizeof_Vertex) + u32 (num_indices * sizeof_int))) = true →
          source_readable vertices 0 (u32 (num_vertices * sizeof_Vertex)) = true →
          source_readable indices 0 (u32 (num_indices * sizeof_int)) = true →
          RenderGeometry pw ndebug sizeof_Vertex s vertices num_vertices indices num_indices
              texture
            = .error Fault.out_of_range_exception))) := by
  refine ⟨?_, ?_, ?_⟩
  · intro pw ndebug s habsent hdev hopen hrange
    obtain ⟨s1, hrun, hrows, -, -, hcmd, ⟨heap, htex⟩, -, -⟩ :=
      create_texture_ok pw s 0 white_pixel 1 1 false hdev hopen hrange (by decide)
        (fun h => by cases h)
    have hens : ensure_texture pw ndebug s 0 = .ok s1 := by
      unfold ensure_texture
      simp only [habsent, Bool.false_eq_true, if_false, if_true, hrun]
    refine ⟨s1, heap, hens, ?_, ?_, hcmd, ?_⟩
    · rw [htex, emplace_absent _ _ _ habsent]
    · intro i hi
      have h := hrows 0 (by decide) i (by omega)
      simp only [Bool.false_eq_true, if_false, Nat.mul_zero, Nat.add_zero] at h
      rw [h]
      have hcases : i = 0 ∨ i = 1 ∨ i = 2 ∨ i = 3 := by omega
      rcases hcases with rfl | rfl | rfl | rfl <;> rfl
    · intro sizeof_Vertex vertices num_vertices indices num_indices
      have hrg : RenderGeometry pw ndebug sizeof_Vertex s vertices num_vertices indices
          num_indices 0
          = render_batch sizeof_Vertex s1 vertices num_vertices indices num_indices 0 := by
        unfold RenderGeometry
        rw [hens]
      refine ⟨hrg, ?_, ?_⟩
      · intro s2 h2
        rw [hrg] at h2
        obtain ⟨b1, -, -, -, -, -, -, -, b9, -⟩ := render_batch_frame _ _ _ _ _ _ _ _ h2
        exact ⟨b1, b9⟩
      · intro hopen1 hvb hib hub hvalid hcall hreadv hreadi
        rw [hrg]
        exact render_batch_ok sizeof_Vertex s1 vertices num_vertices indices num_indices 0
          hopen1 hvb hib hub
          (by rw [htex, emplace_absent _ _ _ habsent]; exact contains_append_self _ _ _)
          hvalid hcall hreadv hreadi
  · intro pw ndebug sizeof_Vertex s s2 vertices num_vertices indices num_indices texture hc h
    obtain ⟨s1, he, hb⟩ := RenderGeometry_steps _ _ _ _ _ _ _ _ _ _ h
    obtain ⟨-, -, -, -, -, -, e7, -⟩ := ensure_texture_frame pw ndebug s s1 texture he
    obtain ⟨b1, -⟩ := render_batch_frame _ _ _ _ _ _ _ _ hb
    rw [b1, e7 hc]
  · intro pw ndebug sizeof_Vertex s vertices num_vertices indices num_indices texture hne
      habsent
    have hdebug : ndebug = false →
        RenderGeometry pw ndebug sizeof_Vertex s vertices num_vertices indices num_indices
            texture
          = .error Fault.assertion_failure := by
      intro hnd
      unfold RenderGeometry ensure_texture
      simp only [habsent, Bool.false_eq_true, if_false, hne, hnd]
    have hrelease : ndebug = true →
        RenderGeometry pw ndebug sizeof_Vertex s vertices num_vertices indices num_indices
            texture
          = render_batch sizeof_Vertex s vertices num_vertices indices num_indices texture := by
      intro hnd
      unfold RenderGeometry ensure_texture
      simp only [habsent, Bool.false_eq_true, if_false, hne, hnd, if_true]
    refine ⟨?_, hdebug, fun hnd => ⟨hrelease hnd, ?_⟩⟩
    · intro s2 h2
      cases hnd : ndebug with
      | false =>
        rw [hdebug hnd] at h2
        cases h2
      | true =>
        rw [hrelease hnd] at h2
        obtain ⟨-, -, -, -, -, -, -, -, -, b10⟩ := render_batch_frame _ _ _ _ _ _ _ _ h2
        rw [lookup_isSome, habsent] at b10
        cases b10
    · intro hopen hvb hib hub hvalid hcall hreadv hreadi
      rw [hrelease hnd]
      exact render_batch_unknown sizeof_Vertex s vertices num_vertices indices num_indices
        texture hopen hvb hib hub habsent hvalid hcall hreadv hreadi

/-- C14 witness: in the example session (empty texture map) a draw with handle
0 creates the 1×1 white texture, stores it under handle 0 and ends with the
draw; a draw with the known handle 1 of the textured session leaves the map
unchanged; a draw with the unknown handle 5 ends in the assertion failure in a
build with assertions and in the `std::out_of_range` of `textures_.at(5)` in a
build with `NDEBUG`. -/
theorem fallback_texture_witness :
    (∃ s1 heap, ensure_texture PointerWidth.bits64 false example_session 0 = .ok s1 ∧
      s1.textures_ = [] ++ [(0, TextureHandle.mk (RenderTexture.mk 3 1 1) heap)] ∧
      (∀ i, i < 4 → s1.upload_memory (staging_offset example_session 1 1 + i) = 255)) ∧
    (value_of (RenderGeometry PointerWidth.bits64 false 20 example_session
        (constant_source 60 1) 3 (constant_source 12 1) 3 0)).map
      (fun s2 => (s2.textures_.map Prod.fst, (s2.list_.getD []).getLast?))
      = some ([0], some (Command.draw 0 3)) ∧
    (∀ s2, RenderGeometry PointerWidth.bits64 false 20 textured_session
        (constant_source 60 1) 3 (constant_source 12 1) 3 1 = .ok s2 →
      s2.textures_ = textured_session.textures_) ∧
    (value_of (RenderGeometry PointerWidth.bits64 false 20 textured_session
        (constant_source 60 1) 3 (constant_source 12 1) 3 1)).isSome = true ∧
    RenderGeometry PointerWidth.bits64 false 20 example_session
        (constant_source 60 1) 3 (constant_source 12 1) 3 5
      = .error Fault.assertion_failure ∧
    RenderGeometry PointerWidth.bits64 true 20 example_session
        (constant_source 60 1) 3 (constant_source 12 1) 3 5
      = .error Fault.out_of_range_exception := by
  obtain ⟨s1, heap, h1, h2, h3, -⟩ := fallback_texture.1 PointerWidth.bits64 false
    example_session (by decide) (by decide) (by decide) (by decide)
  exact ⟨⟨s1, heap, h1, h2, h3⟩, by decide,
    fun s2 h => fallback_texture.2.1 PointerWidth.bits64 false 20 textured_session s2
      (constant_source 60 1) 3 (constant_source 12 1) 3 1 (by decide) h,
    by decide,
    (fallback_texture.2.2 PointerWidth.bits64 false 20 example_session
      (constant_source 60 1) 3 (constant_source 12 1) 3 5 (by decide) (by decide)).2.1 rfl,
    ((fallback_texture.2.2 PointerWidth.bits64 true 20 example_session
      (constant_source 60 1) 3 (constant_source 12 1) 3 5 (by decide) (by decide)).2.2 rfl).2
      (by decide) (by decide) (by decide) (by decide) (by decide) (by decide)
      (by decide) (by decide)⟩

/-- C14 counterexample: (1) on a device that serves no texture, a draw with
handle 0 in an open session creates nothing and ends in the `std::out_of_range`
of `textures_.at(0)`, with or without `NDEBUG`; (2) in an open session whose
arena holds 2863311275 of 2863311276 bytes, the staging allocation for the white
pixel grows the arena to a size that wraps to 0, and the copy of the pixel
writes outside the buffer. -/
theorem fallback_texture_counterexample :
    (session_open (start (construct refusing_device 20) 640 480) = true ∧
      contains (start (construct refusing_device 20) 640 480).textures_ 0 = false ∧
      fault_of (RenderGeometry PointerWidth.bits64 false 20
          (start (construct refusing_device 20) 640 480)
          (constant_source 60 1) 3 (constant_source 12 1) 3 0)
        = some Fault.out_of_range_exception ∧
      fault_of (RenderGeometry PointerWidth.bits64 true 20
          (start (construct refusing_device 20) 640 480)
          (constant_source 60 1) 3 (constant_source 12 1) 3 0)
        = some Fault.out_of_range_exception) ∧
    (session_open full_arena_session = true ∧
      contains full_arena_session.textures_ 0 = false ∧
      full_arena_session.device.texture_available 1 1 = true ∧
      arena_valid full_arena_session = true ∧
      fault_of (RenderGeometry PointerWidth.bits64 false 20 full_arena_session
          (constant_source 60 1) 3 (constant_source 12 1) 3 0)
        = some Fault.out_of_bounds_write) := by
  decide

/-! ## Row padding and file bounds -/

/-- C15 (amended): for every row pitch whose round-up to 256 fits 32 bits
(`rowPitch ≤ 2^32 - 256`), `CalculateTextureRowWidthPadding` yields `rowWidth`
equal to the smallest multiple of 256 that is at least `rowPitch` and
`rowPadding = rowWidth - rowPitch`; and for every row pitch,
`0 ≤ rowPadding < 256` with `rowPadding = 0` exactly when `rowPitch` is a
multiple of 256, `rowWidth` being `rowPitch + rowPadding` reduced modulo 2^32. -/
theorem row_width_is_round_up :
    (∀ rowPitch : Nat, rowPitch + 255 < 4294967296 →
      256 ∣ (CalculateTextureRowWidthPadding rowPitch).1 ∧
      rowPitch ≤ (CalculateTextureRowWidthPadding rowPitch).1 ∧
      (∀ m, 256 ∣ m → rowPitch ≤ m → (CalculateTextureRowWidthPadding rowPitch).1 ≤ m) ∧
      (CalculateTextureRowWidthPadding rowPitch).2
        = (CalculateTextureRowWidthPadding rowPitch).1 - rowPitch) ∧
    (∀ rowPitch : Nat,
      (CalculateTextureRowWidthPadding rowPitch).2 < 256 ∧
      ((CalculateTextureRowWidthPadding rowPitch).2 = 0 ↔ rowPitch % 256 = 0) ∧
      (CalculateTextureRowWidthPadding rowPitch).1
        = u32 (rowPitch + (CalculateTextureRowWidthPadding rowPitch).2)) := by
  constructor
  · intro rowPitch h
    obtain ⟨hsum, hmod, hlt, -⟩ := row_width_padding rowPitch h
    refine ⟨Nat.dvd_of_mod_eq_zero hmod, by omega, ?_, by omega⟩
    intro m hm hle
    have := Nat.mod_eq_zero_of_dvd hm
    omega
  · intro rowPitch
    refine ⟨?_, ?_, rfl⟩
    · show (if rowPitch % 256 ≠ 0 then u32_sub 256 (rowPitch % 256) else 0) < 256
      unfold u32_sub u32
      split <;> omega
    · show (if rowPitch % 256 ≠ 0 then u32_sub 256 (rowPitch % 256) else 0) = 0 ↔ _
      unfold u32_sub u32
      split <;> omega

/-- C15 witness: a row pitch of 80 bytes (20 pixels) is padded by 176 to 256,
the smallest multiple of 256 at or above it. -/
theorem row_width_is_round_up_witness :
    CalculateTextureRowWidthPadding 80 = (256, 176) ∧
    256 ∣ (CalculateTextureRowWidthPadding 80).1 ∧
    80 ≤ (CalculateTextureRowWidthPadding 80).1 ∧
    (∀ m, 256 ∣ m → 80 ≤ m → (CalculateTextureRowWidthPadding 80).1 ≤ m) ∧
    (CalculateTextureRowWidthPadding 80).2 = (CalculateTextureRowWidthPadding 80).1 - 80 :=
  ⟨by decide, row_width_is_round_up.1 80 (by decide)⟩

/-- C15 counterexample: for the 32-bit row pitch 4294967295 the padding is 1 and
`rowWidth` wraps to 0, which is below the row pitch; the same happens for the
row pitch 4294967292 of an image 1073741823 pixels wide. -/
theorem row_width_is_round_up_counterexample :
    CalculateTextureRowWidthPadding 4294967295 = (0, 1) ∧
    u32 (1073741823 * RmlTextureFormatBytesPerPixel) = 4294967292 ∧
    CalculateTextureRowWidthPadding 4294967292 = (0, 4) := by
  decide

/-- C16 (evaluation at the failing inputs): the only length check of
`LoadTexture` is `file_data.empty()`.  For the one-byte file `00` the read of
`file_data[1]` is outside the file; for a 17-byte file with an otherwise valid
header the read of `file_data[17]` is; and an 18-byte file whose valid header
announces a 2×2 image is not rejected before `create_texture` reads the 16
pixel bytes that are not there. -/
theorem load_texture_reads_outside_file :
    (fault_of (read_byte [0] 1) = some Fault.out_of_bounds_read ∧
      fault_of (LoadTexture PointerWidth.bits64 example_session ".tga" [0])
        = some Fault.out_of_bounds_read) ∧
    fault_of (LoadTexture PointerWidth.bits64 example_session ".tga"
        [0, 0, 2, 0, 0, 0, 0, 0, 0, 0, 0, 0, 2, 0, 2, 0, 32])
      = some Fault.out_of_bounds_read ∧
    ((tga_file 0 0 2 0 0 2 2 32 8 []).length = 18 ∧
      fault_of (LoadTexture PointerWidth.bits64 example_session ".tga"
          (tga_file 0 0 2 0 0 2 2 32 8 []))
        = some Fault.out_of_bounds_read ∧
      fault_of (LoadTexture PointerWidth.bits32 example_session ".tga"
          (tga_file 0 0 2 0 0 2 2 32 8 []))
        = some Fault.out_of_bounds_read) := by
  decide

end RecompUI
